import Mathlib

/-!
# Kamikaze drone firmware: a shallow embedding and its verified properties

The C++ sources (`include/common.hpp`, `src/**`) are embedded as pure Lean
functions.  Every singleton of the firmware becomes a record; a member
function that mutates its object returns the new record next to its C++
return value.

Conventions of the embedding:

* `Float32` / `Float64` values are idealised as rationals (`ℚ`) with exact
  arithmetic; rounding is outside the model.  The `<cmath>` functions are not
  computed but supplied by the environment (`FloatMath`), as are the values
  of `rand()` (`Env`); `fmodf`, which is exact, is computed.
* Where a property turns on overflow or NaN (`calculateDistanceGps`,
  `PidController::compute`), the code is embedded over `Binary32`, which adds
  the two infinities and NaN to the numbers: a result out of the `float`
  range becomes an infinity, `0 * inf` and `inf - inf` become NaN, and every
  comparison with NaN is false.  These embeddings live in the namespace
  `Ieee`.
* `Uint8` / `Uint32` values are naturals; where the C++ arithmetic can wrap,
  the reduction modulo `2 ^ 32` is written out.
* A conversion of a floating-point value to `Uint8` drops the fractional part
  (`castUint8`); the object representation of a floating-point value and the
  reading of a union member other than the one written last are supplied by
  the environment (`Reinterpret`).
* `enum class` types are Lean inductives with the constructors of the source
  and, where the code is used, a `toNat` giving the underlying code.
* A member function named `initialize` in the source is named `initialise`
  here, `initialize` being a reserved word of Lean.
* `System` collects all singletons; `MainTask.iteration` is one pass of the
  main loop on it.
-/

namespace Kamikaze

/-! ## include/common.hpp -/

abbrev Float32 := ℚ
abbrev Float64 := ℚ

def MAX_MOTOR_COUNT : Nat := 4
def SYSTEM_TICK_MS : Nat := 10
def TELEMETRY_UPDATE_MS : Nat := 100
def DEFAULT_PID_P : Float32 := 1
def DEFAULT_PID_I : Float32 := 0
def DEFAULT_PID_D : Float32 := 0
def DEFAULT_ATTACK_RANGE_M : Float32 := 50
def SAFETY_ALTITUDE_M : Float32 := 20

/-- Wrap-around of an unsigned 32-bit value. -/
def wrap32 (n : Nat) : Nat := n % 2 ^ 32

/-- Unsigned 32-bit subtraction `a - b` as the C++ code computes it. -/
def sub32 (a b : Nat) : Nat := (a + 2 ^ 32 - b % 2 ^ 32) % 2 ^ 32

inductive SystemStatus where
  | INITIALIZING | READY | ARMED | FLYING | TARGETING | ATTACKING | EMERGENCY | ERROR
  deriving DecidableEq, Repr

inductive ErrorCode where
  | NONE | INIT_FAILED | SENSOR_ERROR | MOTOR_ERROR | COMMUNICATION_ERROR | LOW_BATTERY
  | GPS_LOST | IMU_ERROR | TARGET_LOST | GEOFENCE_BREACH | ALTITUDE_BREACH
  deriving DecidableEq, Repr

def SystemStatus.toNat : SystemStatus → Nat
  | .INITIALIZING => 0 | .READY => 1 | .ARMED => 2 | .FLYING => 3 | .TARGETING => 4
  | .ATTACKING => 5 | .EMERGENCY => 6 | .ERROR => 7

def ErrorCode.toNat : ErrorCode → Nat
  | .NONE => 0 | .INIT_FAILED => 1 | .SENSOR_ERROR => 2 | .MOTOR_ERROR => 3
  | .COMMUNICATION_ERROR => 4 | .LOW_BATTERY => 5 | .GPS_LOST => 6 | .IMU_ERROR => 7
  | .TARGET_LOST => 8 | .GEOFENCE_BREACH => 9 | .ALTITUDE_BREACH => 10

/-- The conversion `static_cast<Uint8>(x)` of a floating-point value: the
fractional part is dropped (rounding toward zero).  C++ defines the result
only when the truncated value lies in `0..255`; outside that range the
embedding reduces it modulo 256. -/
def castUint8 (x : Float32) : Nat :=
  ((if x < 0 then -⌊-x⌋ else ⌊x⌋) % 256).toNat

/-- The byte `static_cast<Uint8>((value >> shift) & 0xFFU)`. -/
def byteOf (value shift : Nat) : Nat := (value >>> shift) &&& 0xFF

structure Vector3D where
  x : Float32 := 0
  y : Float32 := 0
  z : Float32 := 0
  deriving DecidableEq

structure GpsCoordinates where
  latitude : Float64 := 0
  longitude : Float64 := 0
  altitude : Float32 := 0
  deriving DecidableEq

/-- The `constrain` template of `common.hpp`. -/
def constrain (value min max : Float32) : Float32 :=
  if value < min then min
  else if value > max then max
  else value

/-- The floating-point library functions the firmware calls (`sinf`, `cosf`,
`sqrtf`, `atan2f`, `asinf` of `<cmath>`).  They are not computed in the embedding:
every definition that needs them takes them from this record, and every
theorem holds for whatever they return. -/
structure FloatMath where
  sinf : Float32 → Float32
  cosf : Float32 → Float32
  sqrtf : Float32 → Float32
  atan2f : Float32 → Float32 → Float32
  asinf : Float32 → Float32

/-- What the environment supplies to a run: the `<cmath>` functions and the
values returned by successive calls of `rand()`. -/
structure Env where
  math : FloatMath
  rand : Nat → Nat

def PI : Float32 := 3.14159265358979323846
def DEG_TO_RAD : Float32 := PI / 180
def RAD_TO_DEG : Float32 := 180 / PI
def EARTH_RADIUS_M : Float32 := 6371000

/-! ### `float` arithmetic with infinities and NaN -/

/-- A `float` value where overflow and NaN matter: a finite number, an
infinity or NaN.  A finite result keeps its exact value (rounding stays
outside the model) and zero carries no sign. -/
inductive Binary32 where
  | num (value : ℚ)
  | inf (negative : Bool)
  | nan
  deriving DecidableEq

namespace Binary32

/-- The least magnitude that rounds to an infinity: half a unit in the last
place above `FLT_MAX = 2 ^ 128 - 2 ^ 104`. -/
def OVERFLOW : ℚ := 2 ^ 128 - 2 ^ 103

/-- The `float` that an exact result becomes: an infinity when it is out of
range. -/
def ofExact (q : ℚ) : Binary32 :=
  if OVERFLOW ≤ q then inf false
  else if q ≤ -OVERFLOW then inf true
  else num q

def isNaN : Binary32 → Bool
  | nan => true
  | _ => false

def isFinite : Binary32 → Bool
  | num _ => true
  | _ => false

/-- Unary minus. -/
def neg : Binary32 → Binary32
  | num a => num (-a)
  | inf s => inf (!s)
  | nan => nan

/-- Addition: infinities of opposite sign add up to NaN. -/
def add : Binary32 → Binary32 → Binary32
  | num a, num b => ofExact (a + b)
  | num _, inf s => inf s
  | inf s, num _ => inf s
  | inf s, inf t => if s = t then inf s else nan
  | num _, nan => nan
  | inf _, nan => nan
  | nan, _ => nan

def sub (a b : Binary32) : Binary32 := add a (neg b)

/-- Multiplication: zero times an infinity is NaN. -/
def mul : Binary32 → Binary32 → Binary32
  | num a, num b => ofExact (a * b)
  | num a, inf s => if a = 0 then nan else inf (s != decide (a < 0))
  | inf s, num b => if b = 0 then nan else inf (s != decide (b < 0))
  | inf s, inf t => inf (s != t)
  | num _, nan => nan
  | inf _, nan => nan
  | nan, _ => nan

/-- Division; a zero divisor counts as `+0`. -/
def div : Binary32 → Binary32 → Binary32
  | num a, num b =>
    if b = 0 then (if a = 0 then nan else inf (decide (a < 0))) else ofExact (a / b)
  | num _, inf _ => num 0
  | inf s, num b => inf (s != decide (b < 0))
  | inf _, inf _ => nan
  | num _, nan => nan
  | inf _, nan => nan
  | nan, _ => nan

instance : Neg Binary32 := ⟨neg⟩
instance : Add Binary32 := ⟨add⟩
instance : Sub Binary32 := ⟨sub⟩
instance : Mul Binary32 := ⟨mul⟩
instance : Div Binary32 := ⟨div⟩

/-- The comparison `a < b`: false when either side is NaN. -/
def lt : Binary32 → Binary32 → Bool
  | num a, num b => decide (a < b)
  | num _, inf s => !s
  | inf s, num _ => s
  | inf s, inf t => s && !t
  | num _, nan => false
  | inf _, nan => false
  | nan, _ => false

/-- The comparison `a > b`. -/
def gt (a b : Binary32) : Bool := lt b a

/-- The comparison `a <= b`: false when either side is NaN. -/
def le : Binary32 → Binary32 → Bool
  | num a, num b => decide (a ≤ b)
  | num _, inf s => !s
  | inf s, num _ => s
  | inf s, inf t => s || !t
  | num _, nan => false
  | inf _, nan => false
  | nan, _ => false

/-- The comparison `a == b`: false when either side is NaN. -/
def equal : Binary32 → Binary32 → Bool
  | num a, num b => decide (a = b)
  | inf s, inf t => decide (s = t)
  | _, _ => false

/-- A value lies in `[lo, hi]`: both `lo <= x` and `x <= hi` hold. -/
def InRange (x lo hi : Binary32) : Prop := lo.le x = true ∧ x.le hi = true

/-- The saturation that `PidController::compute` applies to the integral sum
and to the output: the upper limit is tested first, and a NaN passes both
tests. -/
def saturate (value min max : Binary32) : Binary32 :=
  if value.gt max then max else if value.lt min then min else value

end Binary32

namespace Ieee

/-- The library `sinf`: the environment's value at a finite argument, NaN at
an infinity. -/
def sinf (math : FloatMath) : Binary32 → Binary32
  | .num x => Binary32.ofExact (math.sinf x)
  | _ => Binary32.nan

/-- The library `cosf`: the environment's value at a finite argument, NaN at
an infinity. -/
def cosf (math : FloatMath) : Binary32 → Binary32
  | .num x => Binary32.ofExact (math.cosf x)
  | _ => Binary32.nan

/-- The library `sqrtf`: NaN at a negative argument. -/
def sqrtf (math : FloatMath) : Binary32 → Binary32
  | .num x => if x < 0 then Binary32.nan else Binary32.ofExact (math.sqrtf x)
  | .inf false => Binary32.inf false
  | .inf true => Binary32.nan
  | .nan => Binary32.nan

/-- The library `atan2f`: NaN when an argument is NaN; at infinite arguments
the `float` nearest to the multiple of pi that the C standard prescribes. -/
def atan2f (math : FloatMath) : Binary32 → Binary32 → Binary32
  | .num y, .num x => Binary32.ofExact (math.atan2f y x)
  | .num _, .inf false => Binary32.num 0
  | .num y, .inf true =>
    if y < 0 then Binary32.num (-(13176795 / 4194304)) else Binary32.num (13176795 / 4194304)
  | .inf s, .num _ =>
    if s then Binary32.num (-(13176795 / 8388608)) else Binary32.num (13176795 / 8388608)
  | .inf s, .inf false =>
    if s then Binary32.num (-(13176795 / 16777216)) else Binary32.num (13176795 / 16777216)
  | .inf s, .inf true =>
    if s then Binary32.num (-(2470649 / 1048576)) else Binary32.num (2470649 / 1048576)
  | .num _, .nan => Binary32.nan
  | .inf _, .nan => Binary32.nan
  | .nan, _ => Binary32.nan

/-- Embeds `calculateDistanceGps` of `common.hpp` in arithmetic with overflow
and NaN; the coordinates are finite `double` values, converted to `float`. -/
def calculateDistanceGps (math : FloatMath) (coord1 coord2 : GpsCoordinates) : Binary32 :=
  let lat1 := Binary32.ofExact coord1.latitude * Binary32.num DEG_TO_RAD
  let lon1 := Binary32.ofExact coord1.longitude * Binary32.num DEG_TO_RAD
  let lat2 := Binary32.ofExact coord2.latitude * Binary32.num DEG_TO_RAD
  let lon2 := Binary32.ofExact coord2.longitude * Binary32.num DEG_TO_RAD
  let dLat := lat2 - lat1
  let dLon := lon2 - lon1
  let a := sinf math (dLat / Binary32.num 2) * sinf math (dLat / Binary32.num 2) +
    cosf math lat1 * cosf math lat2 * sinf math (dLon / Binary32.num 2)
      * sinf math (dLon / Binary32.num 2)
  let c := Binary32.num 2 * atan2f math (sqrtf math a) (sqrtf math (Binary32.num 1 - a))
  Binary32.num EARTH_RADIUS_M * c

end Ieee

namespace Core

inductive GpioMode where
  | INPUT | OUTPUT | ANALOG | ALTERNATE
  deriving DecidableEq, Repr

inductive GpioPull where
  | NONE | PULLUP | PULLDOWN
  deriving DecidableEq, Repr

inductive GpioPort where
  | PORT_A | PORT_B | PORT_C | PORT_D | PORT_E | PORT_F
  deriving DecidableEq, Repr

def GpioPort.toNat : GpioPort → Nat
  | .PORT_A => 0 | .PORT_B => 1 | .PORT_C => 2 | .PORT_D => 3 | .PORT_E => 4 | .PORT_F => 5

structure HalGpio where
  initialized : Bool := false
  deriving DecidableEq, Repr

namespace HalGpio

def MAX_PIN : Nat := 15
def MAX_PORT : Nat := 5

/-- Embeds `HalGpio::initialize` (spelt `initialise` throughout: the source name is a
reserved word of Lean). -/
def initialise (g : HalGpio) : Bool × HalGpio :=
  if g.initialized then (true, g)
  else (true, { g with initialized := true })

def configurePin (g : HalGpio) (port : GpioPort) (pin : Nat) (_mode : GpioMode)
    (_pull : GpioPull) : Bool :=
  if pin > MAX_PIN then false
  else if port.toNat > MAX_PORT then false
  else if !g.initialized then false
  else true

def writePin (g : HalGpio) (port : GpioPort) (pin : Nat) (_value : Bool) : Bool :=
  if pin > MAX_PIN then false
  else if port.toNat > MAX_PORT then false
  else if !g.initialized then false
  else true

end HalGpio

/-! ## core/hal_uart -/

inductive UartBaudRate where
  | BAUD_9600 | BAUD_19200 | BAUD_38400 | BAUD_57600 | BAUD_115200
  deriving DecidableEq, Repr

inductive UartParity where
  | NONE | ODD | EVEN
  deriving DecidableEq, Repr

inductive UartStopBits where
  | ONE | TWO
  deriving DecidableEq, Repr

/-- The UART ports.  A `UartPort` obtained by a cast can carry a code that
names no enumerator: `OTHER index` stands for such a value (`index > 2`). -/
inductive UartPort where
  | UART1 | UART2 | UART3
  | OTHER (index : Nat)
  deriving DecidableEq, Repr

def UartPort.toNat : UartPort → Nat
  | .UART1 => 0 | .UART2 => 1 | .UART3 => 2 | .OTHER index => index

inductive UartError where
  | NONE | NOT_INITIALIZED | INVALID_PORT | INVALID_PARAMETER | BUFFER_NULL | TIMEOUT
  | HARDWARE_ERROR
  deriving DecidableEq, Repr

structure HalUart where
  initialized : Bool := false
  lastError : UartError := UartError.NONE
  deriving DecidableEq, Repr

namespace HalUart

def MAX_PORT : Nat := 3

def isValidPort (_u : HalUart) (port : UartPort) : Bool := decide (port.toNat < MAX_PORT)

def getLastError (u : HalUart) : UartError := u.lastError

/-- Embeds `HalUart::checkTimeout`: the placeholder takes the current time to be the
start time. -/
def checkTimeout (_u : HalUart) (startTime timeoutMs : Nat) : Bool :=
  if timeoutMs = 0 then false
  else
    let currentTime := startTime
    decide (sub32 currentTime startTime ≥ timeoutMs)

def initialise (u : HalUart) : Bool × HalUart :=
  if u.initialized then (true, u)
  else (true, { u with lastError := UartError.NONE, initialized := true })

def configurePort (u : HalUart) (port : UartPort) (_baudRate : UartBaudRate)
    (_parity : UartParity) (_stopBits : UartStopBits) : Bool × HalUart :=
  let u := { u with lastError := UartError.NONE }
  if !u.isValidPort port then (false, { u with lastError := UartError.INVALID_PORT })
  else if !u.initialized then (false, { u with lastError := UartError.NOT_INITIALIZED })
  else (true, u)

/-- Embeds `HalUart::transmit`; `data = none` is the null pointer.  The bytes
themselves go nowhere in the placeholder implementation. -/
def transmit (u : HalUart) (port : UartPort) (data : Option (List Nat)) (size : Nat)
    (timeoutMs : Nat) : Nat × HalUart :=
  let u := { u with lastError := UartError.NONE }
  if !u.isValidPort port then (0, { u with lastError := UartError.INVALID_PORT })
  else if data.isNone then (0, { u with lastError := UartError.BUFFER_NULL })
  else if size = 0 then (0, u)
  else if !u.initialized then (0, { u with lastError := UartError.NOT_INITIALIZED })
  else
    let startTime := 0
    if u.checkTimeout startTime timeoutMs then (0, { u with lastError := UartError.TIMEOUT })
    else (size, u)

/-- Embeds `HalUart::receive`; `bufferNull` tells whether the buffer pointer is null.
The placeholder never writes to the buffer and reports no byte. -/
def receive (u : HalUart) (port : UartPort) (bufferNull : Bool) (size : Nat)
    (timeoutMs : Nat) : Nat × HalUart :=
  let u := { u with lastError := UartError.NONE }
  if !u.isValidPort port then (0, { u with lastError := UartError.INVALID_PORT })
  else if bufferNull then (0, { u with lastError := UartError.BUFFER_NULL })
  else if size = 0 then (0, u)
  else if !u.initialized then (0, { u with lastError := UartError.NOT_INITIALIZED })
  else
    let startTime := 0
    if u.checkTimeout startTime timeoutMs then (0, { u with lastError := UartError.TIMEOUT })
    else (0, u)

def available (u : HalUart) (port : UartPort) : Nat × HalUart :=
  let u := { u with lastError := UartError.NONE }
  if !u.isValidPort port then (0, { u with lastError := UartError.INVALID_PORT })
  else if !u.initialized then (0, { u with lastError := UartError.NOT_INITIALIZED })
  else (0, u)

end HalUart

/-! ## core/rtos -/

inductive TaskPriority where
  | LOW | NORMAL | HIGH | CRITICAL
  deriving DecidableEq, Repr

inductive TaskStatus where
  | READY | RUNNING | BLOCKED | SUSPENDED | DELETED
  deriving DecidableEq, Repr

/-- The data members of `Task`, as its constructor leaves them. -/
structure Task where
  status : TaskStatus := TaskStatus.READY
  priority : TaskPriority := TaskPriority.NORMAL
  id : Nat := 0
  deriving DecidableEq, Repr

/-- The RTOS singleton together with the two function-local statics of
`rtos.cpp`: `tickCount` of `getTicks` and `nextTaskId` of `registerTask`. -/
structure Rtos where
  initialized : Bool := false
  tickCount : Nat := 0
  nextTaskId : Nat := 1
  deriving DecidableEq, Repr

namespace Rtos

def initialise (r : Rtos) : Bool × Rtos :=
  if r.initialized then (true, r)
  else (true, { r with initialized := true })

/-- Embeds `Rtos::getTicks`: the counter advances by `SYSTEM_TICK_MS` on every call
(32-bit wrap-around) and the new value is returned. -/
def getTicks (r : Rtos) : Nat × Rtos :=
  let tickCount := wrap32 (r.tickCount + SYSTEM_TICK_MS)
  (tickCount, { r with tickCount := tickCount })

/-- Embeds `Rtos::registerTask`; `task = none` is the null pointer.  The
result is the returned id, the RTOS (with its static `nextTaskId`) and the
task object afterwards. -/
def registerTask (r : Rtos) (task : Option Task) (priority : TaskPriority) :
    Nat × Rtos × Option Task :=
  if !r.initialized then (0, r, task)
  else
    match task with
    | none => (0, r, none)
    | some t =>
      let t := { t with priority := priority }
      let t := { t with id := r.nextTaskId }
      let r := { r with nextTaskId := wrap32 (r.nextTaskId + 1) }
      (t.id, r, some t)

end Rtos

end Core

/-! ## navigation/imu, navigation/gps -/

namespace Navigation

inductive ImuStatus where
  | CALIBRATING | READY | ERROR
  deriving DecidableEq, Repr

structure ImuData where
  acceleration : Vector3D := {}
  gyroscope : Vector3D := {}
  magnetometer : Vector3D := {}
  orientation : Vector3D := {}
  temperature : Float32 := 0
  status : ImuStatus := ImuStatus.CALIBRATING
  deriving DecidableEq

structure Imu where
  data : ImuData := {}
  initialized : Bool := false
  deriving DecidableEq

inductive GpsStatus where
  | NO_FIX | FIX_2D | FIX_3D | ERROR
  deriving DecidableEq, Repr

structure GpsData where
  position : GpsCoordinates := {}
  targetPosition : GpsCoordinates := {}
  speed : Float32 := 0
  altitude : Float32 := 0
  course : Float32 := 0
  satellites : Nat := 0
  status : GpsStatus := GpsStatus.NO_FIX
  distanceToTarget : Float32 := 0
  bearingToTarget : Float32 := 0
  deriving DecidableEq

/-- The GPS singleton; `gpsUartPort_` is fixed to `UART2` by the constructor. -/
structure Gps where
  data : GpsData := {}
  initialized : Bool := false
  deriving DecidableEq

def Gps.gpsUartPort (_g : Gps) : Core.UartPort := Core.UartPort.UART2

end Navigation

/-! ## communication/radio, communication/telemetry: data -/

namespace Communication

inductive RadioStatus where
  | DISCONNECTED | CONNECTING | CONNECTED | ERROR
  deriving DecidableEq, Repr

inductive RadioMessageType where
  | COMMAND | TELEMETRY | STATUS | HEARTBEAT | ACK
  deriving DecidableEq, Repr

def RadioMessageType.toNat : RadioMessageType → Nat
  | .COMMAND => 0 | .TELEMETRY => 1 | .STATUS => 2 | .HEARTBEAT => 3 | .ACK => 4

/-- The command codes.  `decodeCommand` casts an arbitrary payload byte to
`CommandType`, so a command can carry a code that names no enumerator:
`UNKNOWN code` stands for such a value (`code > 7`). -/
inductive CommandType where
  | ARM | DISARM | TAKEOFF | LAND | GOTO | RTL | ATTACK | ABORT
  | UNKNOWN (code : Nat)
  deriving DecidableEq, Repr

def CommandType.toNat : CommandType → Nat
  | .ARM => 0 | .DISARM => 1 | .TAKEOFF => 2 | .LAND => 3 | .GOTO => 4 | .RTL => 5
  | .ATTACK => 6 | .ABORT => 7 | .UNKNOWN code => code

/-- The cast `static_cast<CommandType>(byte)`. -/
def CommandType.ofNat : Nat → CommandType
  | 0 => .ARM | 1 => .DISARM | 2 => .TAKEOFF | 3 => .LAND | 4 => .GOTO | 5 => .RTL
  | 6 => .ATTACK | 7 => .ABORT | n => .UNKNOWN n

/-- A radio message; `payload` is the 32-byte array. -/
structure RadioMessage where
  type : RadioMessageType := RadioMessageType.HEARTBEAT
  length : Nat := 0
  payload : List Nat := List.replicate 32 0
  deriving DecidableEq, Repr

structure Command where
  type : CommandType := CommandType.DISARM
  param1 : Float32 := 0
  param2 : Float32 := 0
  param3 : Float32 := 0
  param4 : Float32 := 0
  deriving DecidableEq

/-- The radio singleton; `radioUartPort_` is fixed to `UART3` by the
constructor. -/
structure Radio where
  status : RadioStatus := RadioStatus.DISCONNECTED
  lastCommand : Command := {}
  initialized : Bool := false
  deriving DecidableEq

def Radio.radioUartPort (_r : Radio) : Core.UartPort := Core.UartPort.UART3

inductive TelemetryType where
  | ATTITUDE | GPS | BATTERY | SYSTEM | MISSION | TARGET
  deriving DecidableEq, Repr

def TelemetryType.toNat : TelemetryType → Nat
  | .ATTITUDE => 0 | .GPS => 1 | .BATTERY => 2 | .SYSTEM => 3 | .MISSION => 4 | .TARGET => 5

/-- The member of the `data` union of `TelemetryData` that was written last. -/
inductive TelemetryPayload where
  | attitude (roll pitch yaw : Float32)
  | gps (latitude longitude : Float64) (altitude speed : Float32) (satellites : Nat)
  | battery (voltage current remaining : Float32)
  | system (status : SystemStatus) (error : ErrorCode) (uptime : Nat)
  | mission (missionId waypointIndex : Nat) (progress timeToTarget : Float32)
  | target (latitude longitude : Float64) (distance bearing confidence : Float32)
      (status type : Nat) (speed timeToIntercept : Float32)
  deriving DecidableEq

structure TelemetryData where
  type : TelemetryType := TelemetryType.SYSTEM
  timestamp : Nat := 0
  data : TelemetryPayload := TelemetryPayload.system SystemStatus.INITIALIZING ErrorCode.NONE 0
  deriving DecidableEq

/-- What `Telemetry::encodeData` reads that the embedding does not compute:
the object representation of a floating-point value
(`reinterpret_cast<Uint32&>`, `reinterpret_cast<Uint64&>`), and the byte it
derives for a payload index when the record's type names a member of the
union other than the one written last. -/
structure Reinterpret where
  bits32 : Float32 → Nat
  bits64 : Float64 → Nat
  inactive : TelemetryType → TelemetryPayload → Nat → Nat

structure Telemetry where
  attitudeData : TelemetryData := { type := TelemetryType.ATTITUDE }
  gpsData : TelemetryData := { type := TelemetryType.GPS }
  batteryData : TelemetryData := { type := TelemetryType.BATTERY }
  systemData : TelemetryData := { type := TelemetryType.SYSTEM }
  missionData : TelemetryData := { type := TelemetryType.MISSION }
  targetData : TelemetryData := { type := TelemetryType.TARGET }
  updateRateMs : Nat := TELEMETRY_UPDATE_MS
  lastUpdateMs : Nat := 0
  initialized : Bool := false
  deriving DecidableEq

end Communication

/-! ## control/motor_controller, control/pid_controller: data -/

namespace Control

inductive MotorStatus where
  | IDLE | RUNNING | ERROR
  deriving DecidableEq, Repr

inductive MotorPosition where
  | FRONT_LEFT | FRONT_RIGHT | REAR_LEFT | REAR_RIGHT
  deriving DecidableEq, Repr

def MotorPosition.toNat : MotorPosition → Nat
  | .FRONT_LEFT => 0 | .FRONT_RIGHT => 1 | .REAR_LEFT => 2 | .REAR_RIGHT => 3

/-- One motor.  The private members `gpioPort_` and `gpioPin_` are written
only by the constructor (`PORT_B` and the position code) and never assigned
afterwards, so they are the derived values `Motor.gpioPort` and
`Motor.gpioPin` rather than stored fields. -/
structure Motor where
  position : MotorPosition
  speed : Float32 := 0
  status : MotorStatus := MotorStatus.IDLE
  initialized : Bool := false
  deriving DecidableEq

/-- The motor controller singleton with its array `motors_[4]`, one field
per index. -/
structure MotorController where
  frontLeft : Motor := { position := MotorPosition.FRONT_LEFT }
  frontRight : Motor := { position := MotorPosition.FRONT_RIGHT }
  rearLeft : Motor := { position := MotorPosition.REAR_LEFT }
  rearRight : Motor := { position := MotorPosition.REAR_RIGHT }
  initialized : Bool := false
  deriving DecidableEq

inductive PidMode where
  | AUTOMATIC | MANUAL
  deriving DecidableEq, Repr

inductive PidControlType where
  | ROLL | PITCH | YAW | THROTTLE | ALTITUDE
  deriving DecidableEq, Repr

structure PidController where
  kp : Float32
  ki : Float32
  kd : Float32
  lastInput : Float32 := 0
  outputSum : Float32 := 0
  lastError : Float32 := 0
  output : Float32 := 0
  outputMin : Float32 := 0
  outputMax : Float32 := 100
  type : PidControlType
  mode : PidMode := PidMode.AUTOMATIC
  initialized : Bool := false
  deriving DecidableEq

/-- The constructor `PidController(type, kp, ki, kd)`. -/
def PidController.new (type : PidControlType) (kp ki kd : Float32) : PidController :=
  { kp := kp, ki := ki, kd := kd, type := type }

/-- The PID manager singleton with its array `controllers_[5]`, one field per
index. -/
structure PidManager where
  roll : PidController :=
    PidController.new PidControlType.ROLL DEFAULT_PID_P DEFAULT_PID_I DEFAULT_PID_D
  pitch : PidController :=
    PidController.new PidControlType.PITCH DEFAULT_PID_P DEFAULT_PID_I DEFAULT_PID_D
  yaw : PidController :=
    PidController.new PidControlType.YAW DEFAULT_PID_P DEFAULT_PID_I DEFAULT_PID_D
  throttle : PidController :=
    PidController.new PidControlType.THROTTLE DEFAULT_PID_P DEFAULT_PID_I DEFAULT_PID_D
  altitude : PidController :=
    PidController.new PidControlType.ALTITUDE DEFAULT_PID_P DEFAULT_PID_I DEFAULT_PID_D
  initialized : Bool := false
  deriving DecidableEq

end Control

/-! ## targeting/target_detection, safety/safety_manager: data -/

namespace Targeting

inductive TargetStatus where
  | NO_TARGET | TARGET_ACQUIRING | TARGET_LOCKED | TARGET_LOST
  deriving DecidableEq, Repr

def TargetStatus.toNat : TargetStatus → Nat
  | .NO_TARGET => 0 | .TARGET_ACQUIRING => 1 | .TARGET_LOCKED => 2 | .TARGET_LOST => 3

inductive TargetType where
  | STATIC | MOVING | AREA
  deriving DecidableEq, Repr

def TargetType.toNat : TargetType → Nat
  | .STATIC => 0 | .MOVING => 1 | .AREA => 2

structure TargetData where
  position : GpsCoordinates := {}
  status : TargetStatus := TargetStatus.NO_TARGET
  type : TargetType := TargetType.STATIC
  confidence : Float32 := 0
  distance : Float32 := 0
  bearing : Float32 := 0
  speed : Float32 := 0
  heading : Float32 := 0
  lastUpdateTime : Nat := 0
  deriving DecidableEq

structure TargetDetection where
  targetData : TargetData := {}
  initialized : Bool := false
  deriving DecidableEq

namespace TargetDetection

def MIN_CONFIDENCE_THRESHOLD : Float32 := 70
def MAX_TARGET_LOST_TIME_MS : Float32 := 5000

end TargetDetection

end Targeting

namespace Safety

inductive SafetyMode where
  | NORMAL | WARNING | CRITICAL | EMERGENCY
  deriving DecidableEq, Repr

inductive SafetyAction where
  | NONE | ALERT | RTL | LAND | DISARM | ABORT
  deriving DecidableEq, Repr

structure BatteryStatus where
  voltage : Float32 := 0
  current : Float32 := 0
  remaining : Float32 := 100
  temperature : Float32 := 25
  deriving DecidableEq

structure SafetyData where
  mode : SafetyMode := SafetyMode.NORMAL
  error : ErrorCode := ErrorCode.NONE
  battery : BatteryStatus := {}
  gpsSignalLost : Bool := false
  radioLinkLost : Bool := false
  imuError : Bool := false
  motorError : Bool := false
  targetLost : Bool := false
  inAttackRange : Bool := false
  lastErrorTime : Nat := 0
  deriving DecidableEq

structure SafetyManager where
  safetyData : SafetyData := {}
  initialized : Bool := false
  deriving DecidableEq

namespace SafetyManager

def LOW_BATTERY_THRESHOLD : Float32 := 20
def CRITICAL_BATTERY_THRESHOLD : Float32 := 10
def LINK_LOSS_TIMEOUT_MS : Nat := 3000
def MIN_TARGET_CONFIDENCE : Float32 := 70

end SafetyManager

end Safety

/-! ## The process state -/

/-- All singletons of the firmware, plus the number of `rand()` calls made so
far (the position in `Env.rand`). -/
structure System where
  gpio : Core.HalGpio := {}
  uart : Core.HalUart := {}
  rtos : Core.Rtos := {}
  imu : Navigation.Imu := {}
  gps : Navigation.Gps := {}
  radio : Communication.Radio := {}
  telemetry : Communication.Telemetry := {}
  motorController : Control.MotorController := {}
  pidManager : Control.PidManager := {}
  targetDetection : Targeting.TargetDetection := {}
  safetyManager : Safety.SafetyManager := {}
  randCalls : Nat := 0
  deriving DecidableEq

/-- The members of `MainTask` (main.cpp). -/
structure MainTask where
  systemStatus : SystemStatus := SystemStatus.INITIALIZING
  armed : Bool := false
  targetLocked : Bool := false
  inAttackMode : Bool := false
  deriving DecidableEq, Repr

/-! ## Operations -/

/-- The C++ statement `result = result && f()`: `f` runs only when the
accumulated result is still true. -/
def andAlso {σ : Type} (acc : Bool × σ) (f : σ → Bool × σ) : Bool × σ :=
  if acc.1 then f acc.2 else (false, acc.2)

/-! ### control/motor_controller.cpp -/

namespace Control

namespace Motor

/-- The constructor `Motor::Motor(position)`. -/
def new (position : MotorPosition) : Motor := { position := position }

def gpioPort (_m : Motor) : Core.GpioPort := Core.GpioPort.PORT_B

def gpioPin (m : Motor) : Nat := m.position.toNat

/-- Embeds `Motor::setSpeed`: the clamp comes first, then the initialised check,
then the GPIO write; speed and status are stored only when the write
succeeded. -/
def setSpeed (gpio : Core.HalGpio) (m : Motor) (speed : Float32) : Bool × Motor :=
  let speed := if speed < 0 then 0 else if speed > 100 then 100 else speed
  if !m.initialized then (false, m)
  else
    let motorOn : Bool := decide (speed > 0)
    let result := gpio.writePin m.gpioPort m.gpioPin motorOn
    if result then
      (true, { m with speed := speed,
                      status := if motorOn then MotorStatus.RUNNING else MotorStatus.IDLE })
    else (false, m)

def getSpeed (m : Motor) : Float32 := m.speed

def stop (gpio : Core.HalGpio) (m : Motor) : Bool × Motor := m.setSpeed gpio 0

def getStatus (m : Motor) : MotorStatus := m.status

/-- Embeds `Motor::initialize`: configure the pin, then `stop()`, then record the
outcome in `initialized_`. -/
def initialise (gpio : Core.HalGpio) (m : Motor) : Bool × Motor :=
  if m.initialized then (true, m)
  else
    let result := gpio.configurePin m.gpioPort m.gpioPin Core.GpioMode.OUTPUT Core.GpioPull.NONE
    let r := if result then m.stop gpio else (result, m)
    (r.1, { r.2 with initialized := r.1 })

end Motor

namespace MotorController

def getMotor (mc : MotorController) : MotorPosition → Motor
  | .FRONT_LEFT => mc.frontLeft
  | .FRONT_RIGHT => mc.frontRight
  | .REAR_LEFT => mc.rearLeft
  | .REAR_RIGHT => mc.rearRight

/-- Write-back through the reference returned by `getMotor` / `motors_[i]`. -/
def setMotor (mc : MotorController) (position : MotorPosition) (m : Motor) : MotorController :=
  match position with
  | .FRONT_LEFT => { mc with frontLeft := m }
  | .FRONT_RIGHT => { mc with frontRight := m }
  | .REAR_LEFT => { mc with rearLeft := m }
  | .REAR_RIGHT => { mc with rearRight := m }

/-- Apply a `Motor` member function to `motors_[position]`. -/
def onMotor (mc : MotorController) (position : MotorPosition) (f : Motor → Bool × Motor) :
    Bool × MotorController :=
  let r := f (mc.getMotor position)
  (r.1, mc.setMotor position r.2)

def setSpeeds (gpio : Core.HalGpio) (mc : MotorController)
    (frontLeft frontRight rearLeft rearRight : Float32) : Bool × MotorController :=
  if !mc.initialized then (false, mc)
  else
    andAlso (andAlso (andAlso (andAlso (true, mc)
      (fun mc => mc.onMotor .FRONT_LEFT (fun m => m.setSpeed gpio frontLeft)))
      (fun mc => mc.onMotor .FRONT_RIGHT (fun m => m.setSpeed gpio frontRight)))
      (fun mc => mc.onMotor .REAR_LEFT (fun m => m.setSpeed gpio rearLeft)))
      (fun mc => mc.onMotor .REAR_RIGHT (fun m => m.setSpeed gpio rearRight))

def setAllSpeeds (gpio : Core.HalGpio) (mc : MotorController) (speed : Float32) :
    Bool × MotorController :=
  mc.setSpeeds gpio speed speed speed speed

def stopAll (gpio : Core.HalGpio) (mc : MotorController) : Bool × MotorController :=
  mc.setAllSpeeds gpio 0

/-- Embeds `MotorController::initialize`: the loop over the four motors, then
`stopAll()` when all of them initialised. -/
def initialise (gpio : Core.HalGpio) (mc : MotorController) : Bool × MotorController :=
  if mc.initialized then (true, mc)
  else
    let r := andAlso (andAlso (andAlso (andAlso (true, mc)
      (fun mc => mc.onMotor .FRONT_LEFT (fun m => m.initialise gpio)))
      (fun mc => mc.onMotor .FRONT_RIGHT (fun m => m.initialise gpio)))
      (fun mc => mc.onMotor .REAR_LEFT (fun m => m.initialise gpio)))
      (fun mc => mc.onMotor .REAR_RIGHT (fun m => m.initialise gpio))
    let r := if r.1 then r.2.stopAll gpio else r
    (r.1, { r.2 with initialized := r.1 })

end MotorController

/-! ### control/pid_controller.cpp -/

namespace PidController

def reset (c : PidController) : PidController :=
  { c with lastInput := 0, outputSum := 0, lastError := 0, output := 0 }

def initialise (c : PidController) : Bool × PidController :=
  if c.initialized then (true, c)
  else (true, { c.reset with initialized := true })

/-- Embeds `PidController::compute`, returning the result and the controller. -/
def compute (c : PidController) (input setpoint : Float32) : Float32 × PidController :=
  if !c.initialized || c.mode != PidMode.AUTOMATIC then (c.output, c)
  else
    let error := setpoint - input
    let pOutput := c.kp * error
    let outputSum := c.outputSum + c.ki * error
    let outputSum :=
      if outputSum > c.outputMax then c.outputMax
      else if outputSum < c.outputMin then c.outputMin
      else outputSum
    let dInput := input - c.lastInput
    let dOutput := -c.kd * dInput
    let output := pOutput + outputSum + dOutput
    let output :=
      if output > c.outputMax then c.outputMax
      else if output < c.outputMin then c.outputMin
      else output
    (output, { c with outputSum := outputSum, output := output, lastError := error,
                      lastInput := input })

/-- Embeds `PidController::setTunings`. -/
def setTunings (c : PidController) (kp ki kd : Float32) : PidController :=
  if kp < 0 ∨ ki < 0 ∨ kd < 0 then c
  else { c with kp := kp, ki := ki, kd := kd }

/-- Embeds `PidController::setMode`. -/
def setMode (c : PidController) (mode : PidMode) : PidController :=
  let c := if c.mode = PidMode.MANUAL ∧ mode = PidMode.AUTOMATIC then c.reset else c
  { c with mode := mode }

def getMode (c : PidController) : PidMode := c.mode

def getType (c : PidController) : PidControlType := c.type

/-- The saturation that `compute` and `setOutputLimits` apply to the integral
sum and to the output: the upper limit is tested first. -/
def saturate (value min max : Float32) : Float32 :=
  if value > max then max else if value < min then min else value

end PidController

namespace PidManager

def initialise (p : PidManager) : Bool × PidManager :=
  if p.initialized then (true, p)
  else
    let r := andAlso (andAlso (andAlso (andAlso (andAlso (true, p)
      (fun p => let c := p.roll.initialise; (c.1, { p with roll := c.2 })))
      (fun p => let c := p.pitch.initialise; (c.1, { p with pitch := c.2 })))
      (fun p => let c := p.yaw.initialise; (c.1, { p with yaw := c.2 })))
      (fun p => let c := p.throttle.initialise; (c.1, { p with throttle := c.2 })))
      (fun p => let c := p.altitude.initialise; (c.1, { p with altitude := c.2 }))
    (r.1, { r.2 with initialized := r.1 })

end PidManager

end Control

namespace Ieee

/-! ### control/pid_controller.cpp, with overflow and NaN -/

/-- The members of `PidController`, as `float` values that can be infinite or
NaN. -/
structure PidController where
  kp : Binary32
  ki : Binary32
  kd : Binary32
  lastInput : Binary32 := Binary32.num 0
  outputSum : Binary32 := Binary32.num 0
  lastError : Binary32 := Binary32.num 0
  output : Binary32 := Binary32.num 0
  outputMin : Binary32 := Binary32.num 0
  outputMax : Binary32 := Binary32.num 100
  type : Control.PidControlType
  mode : Control.PidMode := Control.PidMode.AUTOMATIC
  initialized : Bool := false
  deriving DecidableEq

namespace PidController

/-- The constructor `PidController(type, kp, ki, kd)`. -/
def new (type : Control.PidControlType) (kp ki kd : Binary32) : PidController :=
  { kp := kp, ki := ki, kd := kd, type := type }

def reset (c : PidController) : PidController :=
  { c with lastInput := Binary32.num 0, outputSum := Binary32.num 0,
           lastError := Binary32.num 0, output := Binary32.num 0 }

def initialise (c : PidController) : Bool × PidController :=
  if c.initialized then (true, c)
  else (true, { c.reset with initialized := true })

/-- Embeds `PidController::compute` in arithmetic with overflow and NaN. -/
def compute (c : PidController) (input setpoint : Binary32) : Binary32 × PidController :=
  if !c.initialized || c.mode != Control.PidMode.AUTOMATIC then (c.output, c)
  else
    let error := setpoint - input
    let pOutput := c.kp * error
    let outputSum := c.outputSum + c.ki * error
    let outputSum :=
      if outputSum.gt c.outputMax then c.outputMax
      else if outputSum.lt c.outputMin then c.outputMin
      else outputSum
    let dInput := input - c.lastInput
    let dOutput := (-c.kd) * dInput
    let output := pOutput + outputSum + dOutput
    let output :=
      if output.gt c.outputMax then c.outputMax
      else if output.lt c.outputMin then c.outputMin
      else output
    (output, { c with outputSum := outputSum, output := output, lastError := error,
                      lastInput := input })

/-- The controller after `n` successive calls `compute(input, setpoint)`. -/
def computeRepeated (c : PidController) (input setpoint : Binary32) : Nat → PidController
  | 0 => c
  | n + 1 => ((computeRepeated c input setpoint n).compute input setpoint).2

end PidController

end Ieee

/-- Embeds `Core::Rtos::getTicks()` on the process state. -/
def getTicks (s : System) : Nat × System :=
  let r := s.rtos.getTicks
  (r.1, { s with rtos := r.2 })

/-! ### navigation/imu.cpp -/

namespace Navigation

namespace Imu

/-- Embeds `Imu::calibrate`: the sample sums are locals that are never stored; the
only effect is the status change. -/
def calibrate (i : Imu) : Bool × Imu :=
  if !i.initialized && i.data.status == ImuStatus.CALIBRATING then
    (true, { i with data := { i.data with status := ImuStatus.READY } })
  else (false, i)

def initialise (i : Imu) : Bool × Imu :=
  if i.initialized then (true, i)
  else
    let r := i.calibrate
    (r.1, { r.2 with initialized := r.1 })

def updateOrientation (math : FloatMath) (i : Imu) : Imu :=
  let d := i.data
  let roll := math.atan2f d.acceleration.y d.acceleration.z
  let pitch := math.atan2f (-d.acceleration.x)
    (math.sqrtf (d.acceleration.y * d.acceleration.y + d.acceleration.z * d.acceleration.z))
  let yaw := math.atan2f d.magnetometer.y d.magnetometer.x
  { i with data := { d with orientation := { x := roll, y := pitch, z := yaw } } }

def update (math : FloatMath) (i : Imu) : Bool × Imu :=
  if !i.initialized then (false, i)
  else if i.data.status != ImuStatus.READY then (false, i)
  else
    let d := { i.data with
      acceleration := { x := 0, y := 0, z := 9.81 },
      gyroscope := { x := 0, y := 0, z := 0.01 },
      magnetometer := { x := 1, y := 0, z := 0 },
      temperature := 25 }
    (true, updateOrientation math { i with data := d })

def getData (i : Imu) : ImuData := i.data

end Imu

/-! ### navigation/gps.cpp -/

namespace Gps

def PI : Float32 := 3.14159265358979323846
def EARTH_RADIUS : Float32 := 6371000
def DEG_TO_RAD : Float32 := PI / 180
def RAD_TO_DEG : Float32 := 180 / PI

def initialise (g : Gps) : Bool × Gps :=
  if g.initialized then (true, g)
  else (true, { g with initialized := true })

/-- Embeds `Gps::parseGGA`: the placeholder writes `data_.satellites`,
`data_.altitude` and `data_.status`. -/
def parseGGA (g : Gps) : Bool × Gps :=
  (true, { g with data := { g.data with
    satellites := 8, altitude := 120.5, status := GpsStatus.FIX_3D } })

/-- Embeds `Gps::parseRMC`. -/
def parseRMC (g : Gps) : Bool × Gps :=
  (true, { g with data := { g.data with
    position := { g.data.position with latitude := 37.7749, longitude := -122.4194 },
    speed := 15.2, course := 287.5 } })

/-- Embeds `Gps::parseNMEA` on the characters of the sentence (as byte values). -/
def parseNMEA (g : Gps) (sentence : List Nat) : Bool × Gps :=
  if sentence.getD 0 0 = 36 then
    if sentence.getD 3 0 = 71 ∧ sentence.getD 4 0 = 71 ∧ sentence.getD 5 0 = 65 then
      g.parseGGA
    else if sentence.getD 3 0 = 82 ∧ sentence.getD 4 0 = 77 ∧ sentence.getD 5 0 = 67 then
      g.parseRMC
    else (false, g)
  else (false, g)

def calculateDistanceAndBearing (math : FloatMath) (g : Gps) : Gps :=
  let lat1 := g.data.position.latitude * DEG_TO_RAD
  let lon1 := g.data.position.longitude * DEG_TO_RAD
  let lat2 := g.data.targetPosition.latitude * DEG_TO_RAD
  let lon2 := g.data.targetPosition.longitude * DEG_TO_RAD
  let dLat := lat2 - lat1
  let dLon := lon2 - lon1
  let a := math.sinf (dLat / 2) * math.sinf (dLat / 2) +
    math.cosf lat1 * math.cosf lat2 * math.sinf (dLon / 2) * math.sinf (dLon / 2)
  let c := 2 * math.atan2f (math.sqrtf a) (math.sqrtf (1 - a))
  let y := math.sinf dLon * math.cosf lat2
  let x := math.cosf lat1 * math.sinf lat2 - math.sinf lat1 * math.cosf lat2 * math.cosf dLon
  let bearing := math.atan2f y x * RAD_TO_DEG
  let bearing := if bearing < 0 then bearing + 360 else bearing
  { g with data := { g.data with distanceToTarget := EARTH_RADIUS * c,
                                 bearingToTarget := bearing } }

/-- Embeds `Gps::update`.  The static receive buffer is only ever written by
`HalUart::receive`, which writes nothing, and by the terminating zero; it
is the all-zero buffer. -/
def update (math : FloatMath) (uart : Core.HalUart) (g : Gps) : Bool × Core.HalUart × Gps :=
  if !g.initialized then (false, uart, g)
  else
    let a := uart.available g.gpsUartPort
    if a.1 = 0 then (false, a.2, g)
    else
      let r := a.2.receive g.gpsUartPort false (128 - 1) 0
      if r.1 = 0 then (false, r.2, g)
      else
        let p := g.parseNMEA (List.replicate 128 0)
        if p.1 then (true, r.2, calculateDistanceAndBearing math p.2)
        else (false, r.2, p.2)

def getData (g : Gps) : GpsData := g.data

def setTarget (math : FloatMath) (g : Gps) (target : GpsCoordinates) : Bool × Gps :=
  (true, calculateDistanceAndBearing math { g with data := { g.data with targetPosition := target } })

end Gps

end Navigation

/-! ### communication/radio.cpp -/

namespace Communication

namespace Radio

/-- Embeds `Radio::initialize`. -/
def initialise (uart : Core.HalUart) (r : Radio) : Bool × Core.HalUart × Radio :=
  if r.initialized then (true, uart, r)
  else
    let c := uart.configurePort r.radioUartPort Core.UartBaudRate.BAUD_57600
      Core.UartParity.NONE Core.UartStopBits.ONE
    let status := if c.1 then RadioStatus.CONNECTING else RadioStatus.ERROR
    (c.1, c.2, { r with status := status, initialized := c.1 })

/-- Embeds `Radio::decodeCommand`, returning the result and the command record. -/
def decodeCommand (message : RadioMessage) (command : Command) : Bool × Command :=
  if message.type != RadioMessageType.COMMAND || decide (message.length < 1) then
    (false, command)
  else
    let command := { command with type := CommandType.ofNat (message.payload.getD 0 0) }
    let command := if message.length ≥ 5 then
      { command with param1 := ((message.payload.getD 1 0 : Nat) : Float32) } else command
    let command := if message.length ≥ 9 then
      { command with param2 := ((message.payload.getD 5 0 : Nat) : Float32) } else command
    let command := if message.length ≥ 13 then
      { command with param3 := ((message.payload.getD 9 0 : Nat) : Float32) } else command
    let command := if message.length ≥ 17 then
      { command with param4 := ((message.payload.getD 13 0 : Nat) : Float32) } else command
    (true, command)

/-- Embeds `Radio::encodeCommand`, returning the result and the message. -/
def encodeCommand (command : Command) (message : RadioMessage) : Bool × RadioMessage :=
  let message := { message with type := RadioMessageType.COMMAND }
  let message := { message with length := 17 }
  let message := { message with payload := message.payload.set 0 command.type.toNat }
  let message := { message with payload := message.payload.set 1 (castUint8 command.param1) }
  let message := { message with payload := message.payload.set 5 (castUint8 command.param2) }
  let message := { message with payload := message.payload.set 9 (castUint8 command.param3) }
  let message := { message with payload := message.payload.set 13 (castUint8 command.param4) }
  (true, message)

/-- The arguments of one call `uart.transmit(port, data, size)`; the time-out
is the default argument 0. -/
structure TransmitCall where
  port : Core.UartPort
  data : List Nat
  size : Nat
  timeoutMs : Nat := 0
  deriving DecidableEq

/-- Embeds `Radio::sendMessage`, returning its result, the UART and the calls
of `HalUart::transmit` it has made, each with the buffer handed over.  The
buffer is what the function composes: type, length, then the payload bytes
copied by its loop (`i < length && i < 32`); what its static array holds
beyond them is not part of the record. -/
def sendMessageTraced (uart : Core.HalUart) (r : Radio) (message : RadioMessage) :
    Bool × Core.HalUart × List TransmitCall :=
  if !r.initialized then (false, uart, [])
  else
    let buffer := message.type.toNat :: message.length ::
      message.payload.take (min message.length 32)
    let messageSize := wrap32 (2 + message.length)
    let t := uart.transmit r.radioUartPort (some buffer) messageSize 0
    (decide (t.1 = messageSize), t.2,
     [{ port := r.radioUartPort, data := buffer, size := messageSize }])

/-- What `Radio::sendMessage` returns and the UART it leaves, without the record
of its calls. -/
def sendMessage (uart : Core.HalUart) (r : Radio) (message : RadioMessage) :
    Bool × Core.HalUart :=
  ((sendMessageTraced uart r message).1, (sendMessageTraced uart r message).2.1)

/-- Embeds `Radio::sendCommand`; the message is a freshly constructed one. -/
def sendCommand (uart : Core.HalUart) (r : Radio) (command : Command) : Bool × Core.HalUart :=
  let e := encodeCommand command {}
  if !e.1 then (false, uart)
  else sendMessage uart r e.2

/-- Embeds `Radio::processMessage`. -/
def processMessage (uart : Core.HalUart) (r : Radio) (message : RadioMessage) :
    Core.HalUart × Radio :=
  match message.type with
  | .COMMAND => (uart, { r with lastCommand := (decodeCommand message r.lastCommand).2 })
  | .HEARTBEAT =>
    let r := { r with status := RadioStatus.CONNECTED }
    let ack : RadioMessage := { type := RadioMessageType.ACK }
    ((sendMessage uart r ack).2, r)
  | .ACK => (uart, r)
  | .STATUS => (uart, r)
  | .TELEMETRY => (uart, r)

/-- Embeds `Radio::processReceivedMessages`. -/
def processReceivedMessages (uart : Core.HalUart) (r : Radio) : Bool × Core.HalUart × Radio :=
  if !r.initialized then (false, uart, r)
  else
    let a := uart.available r.radioUartPort
    if a.1 = 0 then (false, a.2, r)
    else
      let rc := a.2.receive r.radioUartPort false (64 - 1) 0
      if rc.1 = 0 then (false, rc.2, r)
      else
        let message : RadioMessage :=
          { type := RadioMessageType.COMMAND, length := 1,
            payload := (List.replicate 32 0).set 0 CommandType.ARM.toNat }
        let p := processMessage rc.2 r message
        (true, p.1, { p.2 with status := RadioStatus.CONNECTED })

def getStatus (r : Radio) : RadioStatus := r.status

def getLastCommand (r : Radio) : Command := r.lastCommand

end Radio

/-! ### communication/telemetry.cpp -/

namespace Telemetry

def getData (t : Telemetry) : TelemetryType → TelemetryData
  | .ATTITUDE => t.attitudeData
  | .GPS => t.gpsData
  | .BATTERY => t.batteryData
  | .MISSION => t.missionData
  | .TARGET => t.targetData
  | .SYSTEM => t.systemData

def setUpdateRate (t : Telemetry) (rateMs : Nat) : Telemetry :=
  if rateMs > 0 then { t with updateRateMs := rateMs } else t

def updateAttitude (s : System) : Bool × System :=
  let k := getTicks s
  let s := k.2
  let imuData := s.imu.getData
  (true, { s with telemetry := { s.telemetry with attitudeData := { s.telemetry.attitudeData with
    timestamp := k.1,
    data := .attitude imuData.orientation.x imuData.orientation.y imuData.orientation.z } } })

def updateGps (s : System) : Bool × System :=
  let k := getTicks s
  let s := k.2
  let gpsData := s.gps.getData
  (true, { s with telemetry := { s.telemetry with gpsData := { s.telemetry.gpsData with
    timestamp := k.1,
    data := .gps gpsData.position.latitude gpsData.position.longitude
      gpsData.position.altitude gpsData.speed gpsData.satellites } } })

def updateBattery (s : System) : Bool × System :=
  let k := getTicks s
  let s := k.2
  (true, { s with telemetry := { s.telemetry with batteryData := { s.telemetry.batteryData with
    timestamp := k.1, data := .battery 11.8 5.2 75 } } })

def updateSystem (s : System) : Bool × System :=
  let k := getTicks s
  let u := getTicks k.2
  let s := u.2
  (true, { s with telemetry := { s.telemetry with systemData := { s.telemetry.systemData with
    timestamp := k.1, data := .system SystemStatus.READY ErrorCode.NONE u.1 } } })

def updateMission (s : System) : Bool × System :=
  let k := getTicks s
  let s := k.2
  (true, { s with telemetry := { s.telemetry with missionData := { s.telemetry.missionData with
    timestamp := k.1, data := .mission 1 0 0 0 } } })

def calculateTimeToIntercept (s : System) : Float32 :=
  let targetData := s.targetDetection.targetData
  if targetData.status = Targeting.TargetStatus.NO_TARGET ∨ targetData.distance < 0.1 then 0
  else
    let gpsData := s.gps.getData
    let droneSpeed := if gpsData.speed < 0.1 then 10 else gpsData.speed
    targetData.distance / droneSpeed

def updateTarget (s : System) : Bool × System :=
  let k := getTicks s
  let s := k.2
  let targetData := s.targetDetection.targetData
  (true, { s with telemetry := { s.telemetry with targetData := { s.telemetry.targetData with
    timestamp := k.1,
    data := .target targetData.position.latitude targetData.position.longitude
      targetData.distance targetData.bearing targetData.confidence
      targetData.status.toNat targetData.type.toNat targetData.speed
      (calculateTimeToIntercept s) } } })

/-- Embeds `Telemetry::initialize`. -/
def initialise (s : System) : Bool × System :=
  if s.telemetry.initialized then (true, s)
  else
    let s := { s with telemetry := { s.telemetry with lastUpdateMs := 0 } }
    let s := (updateSystem s).2
    (true, { s with telemetry := { s.telemetry with initialized := true } })

/-- Embeds `Telemetry::update`. -/
def update (s : System) : Bool × System :=
  if !s.telemetry.initialized then (false, s)
  else
    let k := getTicks s
    let s := k.2
    let currentTime := k.1
    if sub32 currentTime s.telemetry.lastUpdateMs < s.telemetry.updateRateMs then (false, s)
    else
      let s := { s with telemetry := { s.telemetry with lastUpdateMs := currentTime } }
      andAlso (andAlso (andAlso (andAlso (andAlso (andAlso (true, s)
        updateAttitude) updateGps) updateBattery) updateSystem) updateMission) updateTarget

/-- Store `value i` at each of the listed payload indices, in order. -/
def setBytes (payload : List Nat) (indices : List Nat) (value : Nat → Nat) : List Nat :=
  indices.foldl (fun p i => p.set i (value i)) payload

/-- Embeds `Telemetry::encodeData`, returning the result and the message.
When the union member named by `data.type` is not the one written last, the
same payload indices are written, with the bytes the environment gives. -/
def encodeData (rep : Reinterpret) (data : TelemetryData) (message : RadioMessage) :
    Bool × RadioMessage :=
  let message : RadioMessage := { message with type := RadioMessageType.TELEMETRY }
  let p : List Nat := message.payload.set 0 data.type.toNat
  let p : List Nat := p.set 1 (byteOf data.timestamp 24)
  let p : List Nat := p.set 2 (byteOf data.timestamp 16)
  let p : List Nat := p.set 3 (byteOf data.timestamp 8)
  let p : List Nat := p.set 4 (byteOf data.timestamp 0)
  match data.type with
  | .ATTITUDE =>
    match data.data with
    | .attitude roll pitch yaw =>
      let p : List Nat := p.set 5 (castUint8 roll)
      let p : List Nat := p.set 9 (castUint8 pitch)
      let p : List Nat := p.set 13 (castUint8 yaw)
      (true, { message with payload := p, length := 17 })
    | d =>
      (true, { message with
        payload := setBytes p [5, 9, 13] (rep.inactive .ATTITUDE d), length := 17 })
  | .GPS =>
    match data.data with
    | .gps latitude longitude altitude speed satellites =>
      let p : List Nat := p.set 5 (castUint8 latitude)
      let p : List Nat := p.set 13 (castUint8 longitude)
      let p : List Nat := p.set 21 (castUint8 altitude)
      let p : List Nat := p.set 25 (castUint8 speed)
      let p : List Nat := p.set 29 satellites
      (true, { message with payload := p, length := 30 })
    | d =>
      (true, { message with
        payload := setBytes p [5, 13, 21, 25, 29] (rep.inactive .GPS d), length := 30 })
  | .BATTERY =>
    match data.data with
    | .battery voltage current remaining =>
      let p : List Nat := p.set 5 (castUint8 voltage)
      let p : List Nat := p.set 9 (castUint8 current)
      let p : List Nat := p.set 13 (castUint8 remaining)
      (true, { message with payload := p, length := 17 })
    | d =>
      (true, { message with
        payload := setBytes p [5, 9, 13] (rep.inactive .BATTERY d), length := 17 })
  | .SYSTEM =>
    match data.data with
    | .system status error uptime =>
      let p : List Nat := p.set 5 status.toNat
      let p : List Nat := p.set 6 error.toNat
      let p : List Nat := p.set 7 (byteOf uptime 24)
      let p : List Nat := p.set 8 (byteOf uptime 16)
      let p : List Nat := p.set 9 (byteOf uptime 8)
      let p : List Nat := p.set 10 (byteOf uptime 0)
      (true, { message with payload := p, length := 11 })
    | d =>
      (true, { message with
        payload := setBytes p [5, 6, 7, 8, 9, 10] (rep.inactive .SYSTEM d), length := 11 })
  | .MISSION =>
    match data.data with
    | .mission missionId waypointIndex progress timeToTarget =>
      let p : List Nat := p.set 5 missionId
      let p : List Nat := p.set 6 waypointIndex
      let p : List Nat := p.set 7 (castUint8 progress)
      let p : List Nat := p.set 11 (castUint8 timeToTarget)
      (true, { message with payload := p, length := 15 })
    | d =>
      (true, { message with
        payload := setBytes p [5, 6, 7, 11] (rep.inactive .MISSION d), length := 15 })
  | .TARGET =>
    match data.data with
    | .target latitude longitude distance bearing confidence status type _ _ =>
      let lat : Nat := rep.bits64 latitude
      let p : List Nat := p.set 5 (byteOf lat 56)
      let p : List Nat := p.set 6 (byteOf lat 48)
      let p : List Nat := p.set 7 (byteOf lat 40)
      let p : List Nat := p.set 8 (byteOf lat 32)
      let p : List Nat := p.set 9 (byteOf lat 24)
      let p : List Nat := p.set 10 (byteOf lat 16)
      let p : List Nat := p.set 11 (byteOf lat 8)
      let p : List Nat := p.set 12 (byteOf lat 0)
      let lon : Nat := rep.bits64 longitude
      let p : List Nat := p.set 13 (byteOf lon 56)
      let p : List Nat := p.set 14 (byteOf lon 48)
      let p : List Nat := p.set 15 (byteOf lon 40)
      let p : List Nat := p.set 16 (byteOf lon 32)
      let p : List Nat := p.set 17 (byteOf lon 24)
      let p : List Nat := p.set 18 (byteOf lon 16)
      let p : List Nat := p.set 19 (byteOf lon 8)
      let p : List Nat := p.set 20 (byteOf lon 0)
      let dist : Nat := rep.bits32 distance
      let p : List Nat := p.set 21 (byteOf dist 24)
      let p : List Nat := p.set 22 (byteOf dist 16)
      let p : List Nat := p.set 23 (byteOf dist 8)
      let p : List Nat := p.set 24 (byteOf dist 0)
      let bear : Nat := rep.bits32 bearing
      let p : List Nat := p.set 25 (byteOf bear 24)
      let p : List Nat := p.set 26 (byteOf bear 16)
      let p : List Nat := p.set 27 (byteOf bear 8)
      let p : List Nat := p.set 28 (byteOf bear 0)
      let p : List Nat := p.set 29 (castUint8 confidence)
      let p : List Nat := p.set 30 status
      let p : List Nat := p.set 31 type
      (true, { message with payload := p, length := 32 })
    | d =>
      (true, { message with
        payload := setBytes p
          [5, 6, 7, 8, 9, 10, 11, 12, 13, 14, 15, 16, 17, 18, 19, 20, 21, 22, 23, 24, 25, 26,
           27, 28, 29, 30, 31] (rep.inactive .TARGET d),
        length := 32 })

/-- The `length` that `Telemetry::encodeData` gives the message of a record. -/
def encodedLength : TelemetryType → Nat
  | .ATTITUDE => 17 | .GPS => 30 | .BATTERY => 17 | .SYSTEM => 11 | .MISSION => 15
  | .TARGET => 32

/-- Embeds `Telemetry::sendData`.  `encodeData` succeeds for each of the six record
types; of the message it builds, the type and the length are kept here (the
payload bytes do not influence `sendMessage` and are dropped by the UART
placeholder). -/
def sendData (s : System) (type : TelemetryType) : Bool × System :=
  if !s.telemetry.initialized then (false, s)
  else
    let data := s.telemetry.getData type
    let message : RadioMessage :=
      { type := RadioMessageType.TELEMETRY, length := encodedLength data.type,
        payload := (List.replicate 32 0).set 0 data.type.toNat }
    let r := Radio.sendMessage s.uart s.radio message
    (r.1, { s with uart := r.2 })

/-- Embeds `Telemetry::send`. -/
def send (s : System) : Bool × System :=
  andAlso (andAlso (andAlso (andAlso (andAlso (andAlso (true, s)
    (fun s => sendData s .ATTITUDE)) (fun s => sendData s .GPS))
    (fun s => sendData s .BATTERY)) (fun s => sendData s .SYSTEM))
    (fun s => sendData s .MISSION)) (fun s => sendData s .TARGET)

end Telemetry

end Communication

/-! ### targeting/target_detection.cpp -/

namespace Targeting

namespace TargetDetection

/-- Replace the target record of the detector inside the process state. -/
def setData (s : System) (d : TargetData) : System :=
  { s with targetDetection := { s.targetDetection with targetData := d } }

/-- Embeds `TargetDetection::clearTarget`. -/
def clearTarget (t : TargetDetection) : Bool × TargetDetection :=
  if !t.initialized then (false, t)
  else (true, { t with targetData := {} })

/-- Embeds `TargetDetection::initialize`: `clearTarget()` is called while
`initialized_` is still false. -/
def initialise (t : TargetDetection) : Bool × TargetDetection :=
  if t.initialized then (true, t)
  else
    let t := (clearTarget t).2
    (true, { t with initialized := true })

def getTargetData (t : TargetDetection) : TargetData := t.targetData

def isTargetLocked (t : TargetDetection) : Bool :=
  t.targetData.status == TargetStatus.TARGET_LOCKED

/-- Embeds `TargetDetection::isInAttackRange`. -/
def isInAttackRange (t : TargetDetection) (attackRange : Float32) : Bool :=
  if t.targetData.status != TargetStatus.TARGET_LOCKED &&
      !(t.targetData.status == TargetStatus.TARGET_ACQUIRING &&
        decide (t.targetData.confidence ≥ MIN_CONFIDENCE_THRESHOLD)) then
    false
  else decide (t.targetData.distance ≤ attackRange)

/-- Embeds `TargetDetection::updateTargetVectors`. -/
def updateTargetVectors (math : FloatMath) (s : System) : System :=
  let d := s.targetDetection.targetData
  if d.status = TargetStatus.NO_TARGET then
    setData s { d with distance := 0, bearing := 0 }
  else
    let gpsData := s.gps.getData
    let PI : Float32 := 3.14159265358979323846
    let EARTH_RADIUS : Float32 := 6371000
    let DEG_TO_RAD : Float32 := PI / 180
    let RAD_TO_DEG : Float32 := 180 / PI
    let lat1 := gpsData.position.latitude * DEG_TO_RAD
    let lon1 := gpsData.position.longitude * DEG_TO_RAD
    let lat2 := d.position.latitude * DEG_TO_RAD
    let lon2 := d.position.longitude * DEG_TO_RAD
    let dLat := lat2 - lat1
    let dLon := lon2 - lon1
    let a := math.sinf (dLat / 2) * math.sinf (dLat / 2) +
      math.cosf lat1 * math.cosf lat2 * math.sinf (dLon / 2) * math.sinf (dLon / 2)
    let c := 2 * math.atan2f (math.sqrtf a) (math.sqrtf (1 - a))
    let y := math.sinf dLon * math.cosf lat2
    let x := math.cosf lat1 * math.sinf lat2 - math.sinf lat1 * math.cosf lat2 * math.cosf dLon
    let bearing := math.atan2f y x * RAD_TO_DEG
    let bearing := if bearing < 0 then bearing + 360 else bearing
    let d := { d with distance := EARTH_RADIUS * c, bearing := bearing }
    if d.status = TargetStatus.TARGET_LOCKED ∨ d.status = TargetStatus.TARGET_ACQUIRING then
      let k := getTicks s
      setData k.2 { d with lastUpdateTime := k.1 }
    else setData s d

/-- Embeds `TargetDetection::detectTargetWithSensors`; the draw is the next value of
`rand()`. -/
def detectTargetWithSensors (env : Env) (s : System) : Bool × System :=
  let targetDetected : Bool := decide (env.rand s.randCalls % 100 < 75)
  let s := { s with randCalls := s.randCalls + 1 }
  let d := s.targetDetection.targetData
  let d :=
    if targetDetected then
      let c := d.confidence + 5
      { d with confidence := if c > 100 then 100 else c }
    else
      let c := d.confidence - 10
      { d with confidence := if c < 0 then 0 else c }
  if d.status = TargetStatus.NO_TARGET then
    let gpsData := s.gps.getData
    let position := gpsData.position
    let position := { position with latitude := position.latitude + 0.005 }
    let k := getTicks s
    (true, setData k.2 { d with position := position, type := TargetType.STATIC,
                                confidence := 20, lastUpdateTime := k.1 })
  else
    let k := getTicks s
    (targetDetected, setData k.2 { d with lastUpdateTime := k.1 })

/-- The `TARGET_LOCKED` branch of `TargetDetection::update`. -/
def updateLocked (math : FloatMath) (s : System) : System :=
  let d := s.targetDetection.targetData
  let s :=
    if d.type = TargetType.MOVING then
      let k := getTicks s
      let currentTime := k.1
      let deltaTimeMs := sub32 currentTime d.lastUpdateTime
      let deltaTimeSec : Float32 := (deltaTimeMs : Float32) / 1000
      let distanceMoved := d.speed * deltaTimeSec
      let PI : Float32 := 3.14159265358979323846
      let DEG_TO_RAD : Float32 := PI / 180
      let headingRad := d.heading * DEG_TO_RAD
      let latChange := (distanceMoved * math.cosf headingRad) / 111111
      let lonChange := (distanceMoved * math.sinf headingRad) /
        (111111 * math.cosf (d.position.latitude * DEG_TO_RAD))
      setData k.2 { d with
        position := { d.position with latitude := d.position.latitude + latChange,
                                      longitude := d.position.longitude + lonChange },
        lastUpdateTime := currentTime }
    else s
  let k := getTicks s
  let d := k.2.targetDetection.targetData
  if sub32 k.1 d.lastUpdateTime > 5000 then
    setData k.2 { d with status := TargetStatus.TARGET_LOST }
  else k.2

/-- Embeds `TargetDetection::update`. -/
def update (env : Env) (s : System) : Bool × System :=
  if !s.targetDetection.initialized then (false, s)
  else
    let s :=
      match s.targetDetection.targetData.status with
      | .NO_TARGET =>
        let r := detectTargetWithSensors env s
        if r.1 then
          setData r.2 { r.2.targetDetection.targetData with
            status := TargetStatus.TARGET_ACQUIRING }
        else r.2
      | .TARGET_ACQUIRING =>
        let r := detectTargetWithSensors env s
        if r.2.targetDetection.targetData.confidence ≥ MIN_CONFIDENCE_THRESHOLD then
          setData r.2 { r.2.targetDetection.targetData with
            status := TargetStatus.TARGET_LOCKED }
        else r.2
      | .TARGET_LOCKED => updateLocked env.math s
      | .TARGET_LOST =>
        let r := detectTargetWithSensors env s
        if r.1 then
          setData r.2 { r.2.targetDetection.targetData with
            status := TargetStatus.TARGET_ACQUIRING }
        else
          let k := getTicks r.2
          if sub32 k.1 k.2.targetDetection.targetData.lastUpdateTime > 2 * 5000 then
            { k.2 with targetDetection := (clearTarget k.2.targetDetection).2 }
          else k.2
    (true, updateTargetVectors env.math s)

/-- Embeds `TargetDetection::setTarget`. -/
def setTarget (math : FloatMath) (s : System) (targetPosition : GpsCoordinates)
    (targetType : TargetType) : Bool × System :=
  if !s.targetDetection.initialized then (false, s)
  else
    let k := getTicks s
    let d := { k.2.targetDetection.targetData with
      position := targetPosition, type := targetType,
      status := TargetStatus.TARGET_LOCKED, confidence := 100, lastUpdateTime := k.1 }
    (true, updateTargetVectors math (setData k.2 d))

end TargetDetection

end Targeting

/-! ### safety/safety_manager.cpp -/

namespace Safety

namespace SafetyManager

/-- Replace the safety record of the manager inside the process state. -/
def setData (s : System) (d : SafetyData) : System :=
  { s with safetyManager := { s.safetyManager with safetyData := d } }

/-- Embeds `SafetyManager::updateSafetyMode` on the safety record. -/
def updateSafetyMode (d : SafetyData) : SafetyData :=
  if d.error = ErrorCode.NONE then { d with mode := SafetyMode.NORMAL }
  else
    match d.error with
    | .LOW_BATTERY =>
      if d.battery.remaining ≤ CRITICAL_BATTERY_THRESHOLD then
        { d with mode := SafetyMode.CRITICAL }
      else { d with mode := SafetyMode.WARNING }
    | .GPS_LOST => { d with mode := SafetyMode.WARNING }
    | .COMMUNICATION_ERROR => { d with mode := SafetyMode.CRITICAL }
    | .TARGET_LOST => { d with mode := SafetyMode.WARNING }
    | .IMU_ERROR => { d with mode := SafetyMode.EMERGENCY }
    | .MOTOR_ERROR => { d with mode := SafetyMode.EMERGENCY }
    | .SENSOR_ERROR => { d with mode := SafetyMode.EMERGENCY }
    | _ => { d with mode := SafetyMode.WARNING }

/-- Embeds `SafetyManager::initialize`. -/
def initialise (m : SafetyManager) : Bool × SafetyManager :=
  if m.initialized then (true, m)
  else (true, { m with safetyData := {}, initialized := true })

def getSafetyData (m : SafetyManager) : SafetyData := m.safetyData

def getMode (m : SafetyManager) : SafetyMode := m.safetyData.mode

def getError (m : SafetyManager) : ErrorCode := m.safetyData.error

/-- Embeds `SafetyManager::getRecommendedAction`; the `default` label of the source
serves values outside the four enumerators. -/
def getRecommendedAction (_m : SafetyManager) : SafetyMode → SafetyAction
  | .NORMAL => SafetyAction.NONE
  | .WARNING => SafetyAction.ALERT
  | .CRITICAL => SafetyAction.RTL
  | .EMERGENCY => SafetyAction.LAND

/-- Embeds `SafetyManager::executeAction`. -/
def executeAction (s : System) (action : SafetyAction) : Bool × System :=
  match action with
  | .NONE => (true, s)
  | .ALERT => (true, s)
  | .RTL => (true, s)
  | .LAND => (true, s)
  | .DISARM =>
    let r := s.motorController.stopAll s.gpio
    (r.1, { s with motorController := r.2 })
  | .ABORT =>
    let r := s.motorController.stopAll s.gpio
    (r.1, { s with motorController := r.2 })

/-- Embeds `SafetyManager::setError`. -/
def setError (s : System) (error : ErrorCode) : System :=
  let s := setData s { s.safetyManager.safetyData with error := error }
  let k := getTicks s
  let s := setData k.2 { k.2.safetyManager.safetyData with lastErrorTime := k.1 }
  setData s (updateSafetyMode s.safetyManager.safetyData)

/-- Embeds `SafetyManager::clearError`. -/
def clearError (s : System) : System :=
  let s := setData s { s.safetyManager.safetyData with error := ErrorCode.NONE }
  setData s (updateSafetyMode s.safetyManager.safetyData)

def isSafe (m : SafetyManager) : Bool := m.safetyData.mode == SafetyMode.NORMAL

/-- Embeds `SafetyManager::updateBatteryStatus`. -/
def updateBatteryStatus (s : System) : System :=
  let d := s.safetyManager.safetyData
  let s := setData s { d with battery :=
    { voltage := 11.8, current := 5.2, remaining := 75, temperature := 25 } }
  let d := s.safetyManager.safetyData
  if d.battery.remaining ≤ CRITICAL_BATTERY_THRESHOLD then setError s ErrorCode.LOW_BATTERY
  else if d.battery.remaining ≤ LOW_BATTERY_THRESHOLD then
    if d.error = ErrorCode.NONE then setData s { d with error := ErrorCode.LOW_BATTERY }
    else s
  else s

/-- Embeds `SafetyManager::updateGpsStatus`. -/
def updateGpsStatus (s : System) : System :=
  let gpsData := s.gps.getData
  if gpsData.status = Navigation.GpsStatus.NO_FIX then
    let s := setData s { s.safetyManager.safetyData with gpsSignalLost := true }
    if s.safetyManager.safetyData.error = ErrorCode.NONE then setError s ErrorCode.GPS_LOST
    else s
  else
    let s := setData s { s.safetyManager.safetyData with gpsSignalLost := false }
    if s.safetyManager.safetyData.error = ErrorCode.GPS_LOST then clearError s else s

/-- Embeds `SafetyManager::updateRadioStatus`. -/
def updateRadioStatus (s : System) : System :=
  let radioStatus := s.radio.getStatus
  if radioStatus = Communication.RadioStatus.DISCONNECTED ∨
      radioStatus = Communication.RadioStatus.ERROR then
    let s := setData s { s.safetyManager.safetyData with radioLinkLost := true }
    if s.safetyManager.safetyData.error = ErrorCode.NONE then
      setError s ErrorCode.COMMUNICATION_ERROR
    else s
  else
    let s := setData s { s.safetyManager.safetyData with radioLinkLost := false }
    if s.safetyManager.safetyData.error = ErrorCode.COMMUNICATION_ERROR then clearError s
    else s

/-- Embeds `SafetyManager::updateSensorStatus`. -/
def updateSensorStatus (s : System) : System :=
  let imuStatus := s.imu.getData.status
  if imuStatus = Navigation.ImuStatus.ERROR then
    let s := setData s { s.safetyManager.safetyData with imuError := true }
    if s.safetyManager.safetyData.error = ErrorCode.NONE then setError s ErrorCode.IMU_ERROR
    else s
  else
    let s := setData s { s.safetyManager.safetyData with imuError := false }
    if s.safetyManager.safetyData.error = ErrorCode.IMU_ERROR then clearError s else s

/-- Embeds `SafetyManager::updateMotorStatus`: the loop stops at the first motor in
`ERROR`, so `motorError` tells whether some motor is in `ERROR`. -/
def updateMotorStatus (s : System) : System :=
  let mc := s.motorController
  let motorError : Bool :=
    [Control.MotorPosition.FRONT_LEFT, Control.MotorPosition.FRONT_RIGHT,
     Control.MotorPosition.REAR_LEFT, Control.MotorPosition.REAR_RIGHT].any
      (fun position => (mc.getMotor position).getStatus == Control.MotorStatus.ERROR)
  let s := setData s { s.safetyManager.safetyData with motorError := motorError }
  if motorError && s.safetyManager.safetyData.error == ErrorCode.NONE then
    setError s ErrorCode.MOTOR_ERROR
  else if !motorError && s.safetyManager.safetyData.error == ErrorCode.MOTOR_ERROR then
    clearError s
  else s

/-- Embeds `SafetyManager::hasValidTarget`. -/
def hasValidTarget (s : System) : Bool :=
  let targetData := s.targetDetection.getTargetData
  if targetData.status = Targeting.TargetStatus.TARGET_LOCKED then true
  else if targetData.status = Targeting.TargetStatus.TARGET_ACQUIRING ∧
      targetData.confidence ≥ MIN_TARGET_CONFIDENCE then true
  else false

/-- Embeds `SafetyManager::isSafeToAttack`. -/
def isSafeToAttack (s : System) : Bool :=
  let d := s.safetyManager.safetyData
  if d.mode = SafetyMode.CRITICAL ∨ d.mode = SafetyMode.EMERGENCY then false
  else if d.gpsSignalLost || d.imuError then false
  else hasValidTarget s && d.inAttackRange

/-- Embeds `SafetyManager::isInAttackRange(attackRange)`. -/
def isInAttackRange (s : System) (attackRange : Float32) : Bool :=
  s.targetDetection.isInAttackRange attackRange

/-- Embeds `SafetyManager::updateTargetStatus`; `isInAttackRange()` is called with
its default argument `DEFAULT_ATTACK_RANGE_M`. -/
def updateTargetStatus (s : System) : System :=
  let targetData := s.targetDetection.getTargetData
  let s := setData s { s.safetyManager.safetyData with
    targetLost := decide (targetData.status = Targeting.TargetStatus.TARGET_LOST ∨
                          targetData.status = Targeting.TargetStatus.NO_TARGET) }
  let s := setData s { s.safetyManager.safetyData with
    inAttackRange := isInAttackRange s DEFAULT_ATTACK_RANGE_M }
  if !s.safetyManager.safetyData.targetLost &&
      s.safetyManager.safetyData.error == ErrorCode.TARGET_LOST then
    clearError s
  else s

/-- Embeds `SafetyManager::checkTargetConditions`. -/
def checkTargetConditions (s : System) : Bool × System :=
  let s := updateTargetStatus s
  if s.safetyManager.safetyData.targetLost &&
      s.safetyManager.safetyData.error == ErrorCode.NONE then
    (false, setError s ErrorCode.TARGET_LOST)
  else if s.safetyManager.safetyData.inAttackRange && isSafeToAttack s then (true, s)
  else (false, s)

/-- Embeds `SafetyManager::update`. -/
def update (s : System) : Bool × System :=
  if !s.safetyManager.initialized then (false, s)
  else
    let s := updateBatteryStatus s
    let s := updateGpsStatus s
    let s := updateRadioStatus s
    let s := updateSensorStatus s
    let s := updateMotorStatus s
    let s := updateTargetStatus s
    let s := setData s (updateSafetyMode s.safetyManager.safetyData)
    (true, s)

end SafetyManager

end Safety

/-! ### system_init.cpp -/

namespace SystemInit

/-- Embeds `SystemInit::configureGpio`. -/
def configureGpio (s : System) : Bool × System :=
  let gpio := s.gpio
  let pin (port : Core.GpioPort) (n : Nat) (mode : Core.GpioMode) (pull : Core.GpioPull) :
      System → Bool × System := fun s => (gpio.configurePin port n mode pull, s)
  andAlso (andAlso (andAlso (andAlso (andAlso (andAlso (andAlso (true, s)
    (pin .PORT_A 5 .OUTPUT .NONE))
    (pin .PORT_B 0 .OUTPUT .NONE)) (pin .PORT_B 1 .OUTPUT .NONE))
    (pin .PORT_B 2 .OUTPUT .NONE)) (pin .PORT_B 3 .OUTPUT .NONE))
    (pin .PORT_C 0 .INPUT .PULLUP)) (pin .PORT_C 1 .INPUT .PULLUP)

/-- Embeds `SystemInit::configureUart`. -/
def configureUart (s : System) : Bool × System :=
  let port (p : Core.UartPort) (b : Core.UartBaudRate) : System → Bool × System := fun s =>
    let r := s.uart.configurePort p b Core.UartParity.NONE Core.UartStopBits.ONE
    (r.1, { s with uart := r.2 })
  andAlso (andAlso (andAlso (true, s)
    (port .UART1 .BAUD_115200)) (port .UART2 .BAUD_9600)) (port .UART3 .BAUD_57600)

/-- Embeds `SystemInit::initializeHardware`. -/
def initializeHardware (s : System) : Bool × System :=
  andAlso (andAlso (andAlso (andAlso (true, s)
    (fun s => let r := s.gpio.initialise; (r.1, { s with gpio := r.2 })))
    (fun s => let r := s.uart.initialise; (r.1, { s with uart := r.2 })))
    configureGpio) configureUart

/-- Embeds `SystemInit::initializeNavigation`. -/
def initializeNavigation (s : System) : Bool × System :=
  andAlso (andAlso (true, s)
    (fun s => let r := s.imu.initialise; (r.1, { s with imu := r.2 })))
    (fun s => let r := s.gps.initialise; (r.1, { s with gps := r.2 }))

/-- Embeds `SystemInit::initializeCommunication`. -/
def initializeCommunication (s : System) : Bool × System :=
  andAlso (andAlso (true, s)
    (fun s => let r := Communication.Radio.initialise s.uart s.radio
              (r.1, { s with uart := r.2.1, radio := r.2.2 })))
    Communication.Telemetry.initialise

/-- Embeds `SystemInit::initializeControl`. -/
def initializeControl (s : System) : Bool × System :=
  andAlso (andAlso (true, s)
    (fun s => let r := s.motorController.initialise s.gpio
              (r.1, { s with motorController := r.2 })))
    (fun s => let r := s.pidManager.initialise; (r.1, { s with pidManager := r.2 }))

/-- Embeds `SystemInit::initializeTargeting`. -/
def initializeTargeting (s : System) : Bool × System :=
  andAlso (true, s)
    (fun s => let r := s.targetDetection.initialise; (r.1, { s with targetDetection := r.2 }))

/-- Embeds `SystemInit::initializeSafety`. -/
def initializeSafety (s : System) : Bool × System :=
  andAlso (true, s)
    (fun s => let r := s.safetyManager.initialise; (r.1, { s with safetyManager := r.2 }))

/-- Embeds `SystemInit::initializeSystem`: hardware, communication, navigation,
control, targeting, safety, RTOS, each step run only while `status` is still
true. -/
def initializeSystem (s : System) : Bool × System :=
  andAlso (andAlso (andAlso (andAlso (andAlso (andAlso (andAlso (true, s)
    initializeHardware) initializeCommunication) initializeNavigation) initializeControl)
    initializeTargeting) initializeSafety)
    (fun s => let r := s.rtos.initialise; (r.1, { s with rtos := r.2 }))

def testHardware (s : System) : Bool × System := (true, s)

def testNavigation (s : System) : Bool × System :=
  let imuStatus : Bool := s.imu.getData.status != Navigation.ImuStatus.ERROR
  let gpsStatus : Bool := s.gps.getData.status != Navigation.GpsStatus.ERROR
  (imuStatus && gpsStatus, s)

def testCommunication (s : System) : Bool × System :=
  (s.radio.getStatus != Communication.RadioStatus.ERROR, s)

/-- One round of the loop of `SystemInit::testMotors`: spin the motor at
`TEST_SPEED`, then stop it (`Rtos::delay` has no effect). -/
def testMotor (position : Control.MotorPosition) (s : System) : Bool × System :=
  let r := s.motorController.onMotor position (fun m => m.setSpeed s.gpio 10)
  let s := { s with motorController := r.2 }
  if !r.1 then (false, s)
  else
    let r := s.motorController.onMotor position (fun m => m.stop s.gpio)
    let s := { s with motorController := r.2 }
    if !r.1 then (false, s) else (true, s)

/-- Embeds `SystemInit::testMotors`: the loop returns false at the first failure. -/
def testMotors (s : System) : Bool × System :=
  andAlso (andAlso (andAlso (andAlso (true, s)
    (testMotor .FRONT_LEFT)) (testMotor .FRONT_RIGHT)) (testMotor .REAR_LEFT))
    (testMotor .REAR_RIGHT)

/-- Embeds `SystemInit::performSelfTest`. -/
def performSelfTest (s : System) : Bool × System :=
  andAlso (andAlso (andAlso (andAlso (true, s)
    testHardware) testNavigation) testCommunication) testMotors

end SystemInit

/-! ### main.cpp: `MainTask` -/

namespace MainTask

/-- Embeds `MainTask::updateSubsystems`. -/
def updateSubsystems (env : Env) (s : System) : System :=
  let r := Communication.Radio.processReceivedMessages s.uart s.radio
  let s := { s with uart := r.2.1, radio := r.2.2 }
  let s := (Communication.Telemetry.update s).2
  let s := (Communication.Telemetry.send s).2
  let i := s.imu.update env.math
  let s := { s with imu := i.2 }
  let g := s.gps.update env.math s.uart
  let s := { s with uart := g.2.1, gps := g.2.2 }
  let s := (Targeting.TargetDetection.update env s).2
  (Safety.SafetyManager.update s).2

/-- Embeds `MainTask::checkSafetyConditions`. -/
def checkSafetyConditions (s : System) (t : MainTask) : MainTask :=
  if s.safetyManager.getMode = Safety.SafetyMode.CRITICAL ∨
      s.safetyManager.getMode = Safety.SafetyMode.EMERGENCY then
    { t with systemStatus := SystemStatus.EMERGENCY }
  else t

/-- Embeds `MainTask::processCommands`. -/
def processCommands (s : System) (t : MainTask) : MainTask :=
  let command := s.radio.getLastCommand
  match command.type with
  | .ARM =>
    if t.systemStatus = SystemStatus.READY then
      { t with armed := true, systemStatus := SystemStatus.ARMED }
    else t
  | .DISARM =>
    let t := { t with armed := false }
    if t.systemStatus ≠ SystemStatus.EMERGENCY ∧ t.systemStatus ≠ SystemStatus.ERROR then
      { t with systemStatus := SystemStatus.READY }
    else t
  | .ABORT =>
    let t := { t with inAttackMode := false }
    if t.systemStatus = SystemStatus.ATTACKING then
      { t with systemStatus := SystemStatus.TARGETING }
    else t
  | .ATTACK =>
    if t.systemStatus = SystemStatus.TARGETING ∧ t.targetLocked = true then
      { t with inAttackMode := true, systemStatus := SystemStatus.ATTACKING }
    else t
  | _ => t

/-- Embeds `MainTask::performSelfTest`. -/
def performSelfTest (s : System) : Bool × System := SystemInit.performSelfTest s

/-- Embeds `MainTask::checkAndUpdateTarget`. -/
def checkAndUpdateTarget (s : System) (t : MainTask) : Bool × System × MainTask :=
  let t := { t with targetLocked := s.targetDetection.isTargetLocked }
  let s := (Safety.SafetyManager.checkTargetConditions s).2
  (t.targetLocked, s, t)

/-- Embeds `MainTask::executeAttack`. -/
def executeAttack (s : System) : System :=
  { s with motorController := (s.motorController.setAllSpeeds s.gpio 100).2 }

/-- Embeds `MainTask::handleEmergency`. -/
def handleEmergency (s : System) (t : MainTask) : System × MainTask :=
  let action := s.safetyManager.getRecommendedAction s.safetyManager.getMode
  let s := (Safety.SafetyManager.executeAction s action).2
  let t := { t with inAttackMode := false }
  if action = Safety.SafetyAction.DISARM ∨ action = Safety.SafetyAction.ABORT then
    (s, { t with armed := false })
  else (s, t)

/-- Embeds `MainTask::handleError`. -/
def handleError (s : System) (t : MainTask) : System × MainTask :=
  let s := { s with motorController := (s.motorController.stopAll s.gpio).2 }
  let t := { t with armed := false, inAttackMode := false, targetLocked := false }
  let s := (Communication.Telemetry.update s).2
  let s := (Communication.Telemetry.send s).2
  (s, t)

/-- The `switch (systemStatus_)` of `MainTask::run`. -/
def dispatch (env : Env) (s : System) (t : MainTask) : System × MainTask :=
  match t.systemStatus with
  | .INITIALIZING =>
    let r := performSelfTest s
    if r.1 then (r.2, { t with systemStatus := SystemStatus.READY })
    else (r.2, { t with systemStatus := SystemStatus.ERROR })
  | .READY => (s, t)
  | .ARMED =>
    if t.armed then
      let gpsData := s.gps.getData
      if gpsData.position.altitude > SAFETY_ALTITUDE_M then
        (s, { t with systemStatus := SystemStatus.FLYING })
      else (s, t)
    else (s, { t with systemStatus := SystemStatus.READY })
  | .FLYING =>
    if t.armed then
      let u := Targeting.TargetDetection.update env s
      if u.1 then
        let c := checkAndUpdateTarget u.2 t
        if c.1 then (c.2.1, { c.2.2 with systemStatus := SystemStatus.TARGETING })
        else c.2
      else (u.2, t)
    else (s, { t with systemStatus := SystemStatus.READY })
  | .TARGETING =>
    if t.armed && t.targetLocked then
      if Safety.SafetyManager.isInAttackRange s DEFAULT_ATTACK_RANGE_M then
        if Safety.SafetyManager.isSafeToAttack s then
          (s, { t with systemStatus := SystemStatus.ATTACKING, inAttackMode := true })
        else (s, t)
      else (s, t)
    else if !t.targetLocked then (s, { t with systemStatus := SystemStatus.FLYING })
    else (s, t)
  | .ATTACKING =>
    if t.inAttackMode then (executeAttack s, t)
    else (s, { t with systemStatus := SystemStatus.TARGETING })
  | .EMERGENCY => handleEmergency s t
  | .ERROR => handleError s t

/-- One iteration of the `while (true)` loop of `MainTask::run`
(`Rtos::delay` has no effect on the state). -/
def iteration (env : Env) (s : System) (t : MainTask) : System × MainTask :=
  let s := updateSubsystems env s
  let t := checkSafetyConditions s t
  let t := processCommands s t
  dispatch env s t

end MainTask

/-! ## Definitions used to state the properties -/

namespace Safety

namespace SafetyManager

/-- The severity table in the words of the specification: `NORMAL` without an
error; for `LOW_BATTERY`, `CRITICAL` when the remaining charge is at most 10
and `WARNING` otherwise; `WARNING` for `GPS_LOST` and `TARGET_LOST`;
`CRITICAL` for `COMMUNICATION_ERROR`; `EMERGENCY` for `IMU_ERROR`,
`MOTOR_ERROR` and `SENSOR_ERROR`; `WARNING` for every other code. -/
def severityTable (error : ErrorCode) (remaining : Float32) : SafetyMode :=
  match error with
  | .NONE => SafetyMode.NORMAL
  | .LOW_BATTERY => if remaining ≤ 10 then SafetyMode.CRITICAL else SafetyMode.WARNING
  | .GPS_LOST => SafetyMode.WARNING
  | .TARGET_LOST => SafetyMode.WARNING
  | .COMMUNICATION_ERROR => SafetyMode.CRITICAL
  | .IMU_ERROR => SafetyMode.EMERGENCY
  | .MOTOR_ERROR => SafetyMode.EMERGENCY
  | .SENSOR_ERROR => SafetyMode.EMERGENCY
  | .INIT_FAILED => SafetyMode.WARNING
  | .GEOFENCE_BREACH => SafetyMode.WARNING
  | .ALTITUDE_BREACH => SafetyMode.WARNING

/-- What the health checks of `SafetyManager::update` read and do not write:
the other singletons, the initialised flag and (after the battery step) the
battery record. -/
def SameInputs (s s' : System) : Prop :=
  s'.gps = s.gps ∧ s'.radio = s.radio ∧ s'.imu = s.imu ∧
  s'.motorController = s.motorController ∧ s'.targetDetection = s.targetDetection ∧
  s'.safetyManager.initialized = s.safetyManager.initialized ∧
  s'.safetyManager.safetyData.battery = s.safetyManager.safetyData.battery

/-- Whether some motor reports `ERROR`, as the loop of `updateMotorStatus`
finds it. -/
def motorFault (s : System) : Bool :=
  [Control.MotorPosition.FRONT_LEFT, Control.MotorPosition.FRONT_RIGHT,
   Control.MotorPosition.REAR_LEFT, Control.MotorPosition.REAR_RIGHT].any
    (fun position =>
      (s.motorController.getMotor position).getStatus == Control.MotorStatus.ERROR)

/-- The error code that the five health checks of `SafetyManager::update`
leave, as a function of the error code before and of what the checks find
(GPS without fix, radio disconnected or in error, IMU in error, a motor in
error, target lost or absent), in the order of the source: each check sets
its own code only when no error is active and clears only its own code. -/
def errorAfterUpdate (error : ErrorCode)
    (gpsNoFix radioDown imuError motorError targetLost : Bool) : ErrorCode :=
  let e := error
  let e := if gpsNoFix then (if e = ErrorCode.NONE then ErrorCode.GPS_LOST else e)
           else (if e = ErrorCode.GPS_LOST then ErrorCode.NONE else e)
  let e := if radioDown then (if e = ErrorCode.NONE then ErrorCode.COMMUNICATION_ERROR else e)
           else (if e = ErrorCode.COMMUNICATION_ERROR then ErrorCode.NONE else e)
  let e := if imuError then (if e = ErrorCode.NONE then ErrorCode.IMU_ERROR else e)
           else (if e = ErrorCode.IMU_ERROR then ErrorCode.NONE else e)
  let e := if motorError && e == ErrorCode.NONE then ErrorCode.MOTOR_ERROR
           else if !motorError && e == ErrorCode.MOTOR_ERROR then ErrorCode.NONE
           else e
  if !targetLost && e == ErrorCode.TARGET_LOST then ErrorCode.NONE else e

end SafetyManager

end Safety

namespace Targeting

namespace TargetDetection

/-- The process state after `n` consecutive calls of `TargetDetection::update`. -/
def updates (env : Env) : Nat → System → System
  | 0, s => s
  | n + 1, s => (update env (updates env n s)).2

end TargetDetection

end Targeting

/-! ## Concrete states used to exercise the theorems -/

/-- A `<cmath>` stand-in whose functions all return 0. -/
def zeroMath : FloatMath :=
  { sinf := fun _ => 0, cosf := fun _ => 0, sqrtf := fun _ => 0, atan2f := fun _ _ => 0,
    asinf := fun _ => 0 }

/-- An environment in which every `rand()` call returns 0. -/
def quietEnv : Env := { math := zeroMath, rand := fun _ => 0 }

/-- A motor after a successful bring-up. -/
def readyMotor (position : Control.MotorPosition) : Control.Motor :=
  { position := position, initialized := true }

/-- The singletons as constructed (no `initialize()` has run yet), holding a
given last command, safety record and target record. -/
def benchSystem (type : Communication.CommandType) (safety : Safety.SafetyData)
    (target : Targeting.TargetData) : System :=
  { radio := { lastCommand := { type := type } },
    safetyManager := { safetyData := safety },
    targetDetection := { targetData := target } }

/-- The safety record of a drone whose GPS has no fix: `GPS_LOST` is the
active error, the mode is `WARNING`. -/
def gpsLostSafety : Safety.SafetyData :=
  { mode := Safety.SafetyMode.WARNING, error := ErrorCode.GPS_LOST, gpsSignalLost := true }

/-- A locked static target at the given distance. -/
def lockedTarget (distance : Float32) : Targeting.TargetData :=
  { status := Targeting.TargetStatus.TARGET_LOCKED, confidence := 100, distance := distance }

/-- A bench system whose GPIO and four motors are up, so that the motor part
of the self-test can succeed. -/
def benchSystemWithMotors (type : Communication.CommandType) : System :=
  { benchSystem type {} {} with
    gpio := { initialized := true },
    motorController :=
      { frontLeft := readyMotor .FRONT_LEFT, frontRight := readyMotor .FRONT_RIGHT,
        rearLeft := readyMotor .REAR_LEFT, rearRight := readyMotor .REAR_RIGHT,
        initialized := true } }

/-- A bench system whose GPS has parsed one GGA sentence since construction. -/
def benchSystemAfterGGA (type : Communication.CommandType) : System :=
  { benchSystem type {} {} with gps := (Navigation.Gps.parseGGA {}).2 }

/-- A task in `TARGETING`, armed, with the target-locked flag set. -/
def targetingTask : MainTask :=
  { systemStatus := SystemStatus.TARGETING, armed := true, targetLocked := true }

/-- A task in `ATTACKING`, armed, target locked, attack mode on. -/
def attackingTask : MainTask :=
  { systemStatus := SystemStatus.ATTACKING, armed := true, targetLocked := true,
    inAttackMode := true }

/-- A task in `ARMED` with the armed flag set. -/
def armedTask : MainTask := { systemStatus := SystemStatus.ARMED, armed := true }

/-- A throttle controller with `kp = 1`, `ki = 1`, `kd = 0` and output limits
`[0, 10]`, initialised and in `AUTOMATIC` mode. -/
def windupController : Control.PidController :=
  { Control.PidController.new Control.PidControlType.THROTTLE 1 1 0 with
    outputMax := 10, initialized := true }

/-- A roll controller in `MANUAL` mode that carries accumulated state. -/
def manualController : Control.PidController :=
  { Control.PidController.new Control.PidControlType.ROLL 2 1 1 with
    lastInput := 3, outputSum := 40, lastError := 7, output := 55,
    mode := Control.PidMode.MANUAL, initialized := true }

/-- A process state for exercising the Safety Manager: every singleton
initialised, motors idle, a locked target 30 m away, and the given GPS,
radio and IMU status and safety record. -/
def safetyBench (gps : Navigation.GpsStatus) (radio : Communication.RadioStatus)
    (imu : Navigation.ImuStatus) (safety : Safety.SafetyData) : System :=
  { gpio := { initialized := true },
    uart := { initialized := true },
    rtos := { initialized := true },
    imu := { data := { status := imu }, initialized := true },
    gps := { data := { status := gps }, initialized := true },
    radio := { status := radio, initialized := true },
    telemetry := { initialized := true },
    targetDetection := { targetData := lockedTarget 30, initialized := true },
    safetyManager := { safetyData := safety, initialized := true } }

/-- The healthy bench state with the given stored battery level and no error
active. -/
def lowBatteryBench (remaining : Float32) : System :=
  safetyBench Navigation.GpsStatus.FIX_3D Communication.RadioStatus.CONNECTED
    Navigation.ImuStatus.READY { battery := { remaining := remaining } }

/-- The bench state after a radio outage has ended: the radio is connected
again, the error of the outage is still active, and the GPS has no fix. -/
def staleErrorBench : System :=
  safetyBench Navigation.GpsStatus.NO_FIX Communication.RadioStatus.CONNECTED
    Navigation.ImuStatus.READY
    { error := ErrorCode.COMMUNICATION_ERROR, mode := Safety.SafetyMode.CRITICAL }

/-- The bench state with no error active and the GPS without a fix. -/
def noFixBench : System :=
  safetyBench Navigation.GpsStatus.NO_FIX Communication.RadioStatus.CONNECTED
    Navigation.ImuStatus.READY {}

/-- An environment in which every `rand()` call returns 99, so that no
detection draw succeeds. -/
def failingEnv : Env := { math := zeroMath, rand := fun _ => 99 }

/-- A process state with an initialised detector holding the given target
record, the tick counter at the given value. -/
def targetBench (target : Targeting.TargetData) (tickCount : Nat) : System :=
  { rtos := { tickCount := tickCount },
    targetDetection := { targetData := target, initialized := true } }

namespace Core

namespace Rtos

/-- The RTOS after `n` consecutive calls of `Rtos::getTicks`. -/
def ticksAfter : Nat → Rtos → Rtos
  | 0, r => r
  | n + 1, r => (getTicks (ticksAfter n r)).2

/-- The RTOS after the listed `registerTask` calls, made in order. -/
def registerAll (r : Rtos) : List (Option Task × TaskPriority) → Rtos
  | [] => r
  | call :: calls => registerAll (registerTask r call.1 call.2).2.1 calls

/-- The number of listed calls that pass a task object. -/
def withTask (calls : List (Option Task × TaskPriority)) : Nat :=
  (calls.filter (fun call => call.1.isSome)).length

end Rtos

end Core

/-- A `GOTO` command with the given first parameter. -/
def gotoCommand (param1 : Float32) : Communication.Command :=
  { type := Communication.CommandType.GOTO, param1 := param1 }

/-- A command message of the given length carrying `ATTACK` (code 6) and the
bytes 11, 22, 33 and 44 at the four parameter offsets. -/
def attackMessage (length : Nat) : Communication.RadioMessage :=
  { type := Communication.RadioMessageType.COMMAND, length := length,
    payload := [6, 11, 0, 0, 0, 22, 0, 0, 0, 33, 0, 0, 0, 44, 0, 0,
                0, 0, 0, 0, 0, 0, 0, 0, 0, 0, 0, 0, 0, 0, 0, 0] }

/-- A telemetry message with three payload bytes. -/
def shortMessage : Communication.RadioMessage :=
  { type := Communication.RadioMessageType.TELEMETRY, length := 3,
    payload := [7, 8, 9, 0, 0, 0, 0, 0, 0, 0, 0, 0, 0, 0, 0, 0,
                0, 0, 0, 0, 0, 0, 0, 0, 0, 0, 0, 0, 0, 0, 0, 0] }

namespace Communication

namespace Telemetry

/-- The payload indices that `Telemetry::encodeData` assigns for a record of
the given type: 0 to 4 for the type code and the time stamp, then those of
the case of its `switch`. -/
def writtenIndices : TelemetryType → List Nat
  | .ATTITUDE => [0, 1, 2, 3, 4, 5, 9, 13]
  | .GPS => [0, 1, 2, 3, 4, 5, 13, 21, 25, 29]
  | .BATTERY => [0, 1, 2, 3, 4, 5, 9, 13]
  | .SYSTEM => [0, 1, 2, 3, 4, 5, 6, 7, 8, 9, 10]
  | .MISSION => [0, 1, 2, 3, 4, 5, 6, 7, 11]
  | .TARGET => [0, 1, 2, 3, 4, 5, 6, 7, 8, 9, 10, 11, 12, 13, 14, 15, 16, 17, 18, 19, 20,
      21, 22, 23, 24, 25, 26, 27, 28, 29, 30, 31]

end Telemetry

end Communication

/-- An environment for `encodeData` in which every reinterpreted value reads
as 0. -/
def zeroBits : Communication.Reinterpret :=
  { bits32 := fun _ => 0, bits64 := fun _ => 0, inactive := fun _ _ _ => 0 }

/-- A `SYSTEM` telemetry record stamped at 0x01020304 with an uptime of
0x0A0B0C0D. -/
def systemRecord : Communication.TelemetryData :=
  { type := Communication.TelemetryType.SYSTEM, timestamp := 16909060,
    data := Communication.TelemetryPayload.system SystemStatus.FLYING ErrorCode.GPS_LOST
      168496141 }

namespace Communication

namespace Telemetry

/-- The process state after `n` consecutive calls of `Telemetry::update`. -/
def updates : Nat → System → System
  | 0, s => s
  | n + 1, s => (update (updates n s)).2

end Telemetry

end Communication

/-- A process state with an initialised telemetry reporter (update rate
100 ms), the tick counter and `lastUpdateMs_` at the given values. -/
def telemetryBench (tickCount lastUpdateMs : Nat) : System :=
  { rtos := { tickCount := tickCount },
    telemetry := { lastUpdateMs := lastUpdateMs, initialized := true } }


/-! ## Sequences of public operations -/

namespace Control

namespace MotorController

/-- The public operations that change a `MotorController` or, through the
reference returned by `getMotor`, one of its motors. -/
inductive Op where
  | motorInitialise (position : MotorPosition)
  | motorSetSpeed (position : MotorPosition) (speed : Float32)
  | motorStop (position : MotorPosition)
  | initialise
  | setSpeeds (frontLeft frontRight rearLeft rearRight : Float32)
  | setAllSpeeds (speed : Float32)
  | stopAll

/-- The result and the controller after one operation, with the GPIO driver
in the given state. -/
def apply (gpio : Core.HalGpio) (mc : MotorController) : Op → Bool × MotorController
  | .motorInitialise position => mc.onMotor position (fun m => m.initialise gpio)
  | .motorSetSpeed position speed => mc.onMotor position (fun m => m.setSpeed gpio speed)
  | .motorStop position => mc.onMotor position (fun m => m.stop gpio)
  | .initialise => mc.initialise gpio
  | .setSpeeds frontLeft frontRight rearLeft rearRight =>
    mc.setSpeeds gpio frontLeft frontRight rearLeft rearRight
  | .setAllSpeeds speed => mc.setAllSpeeds gpio speed
  | .stopAll => mc.stopAll gpio

/-- The controller after the listed operations, each met by its own GPIO
state. -/
def runs : List (Core.HalGpio × Op) → MotorController → MotorController
  | [], mc => mc
  | (gpio, op) :: rest, mc => runs rest (apply gpio mc op).2

end MotorController

end Control

namespace Communication

namespace Radio

/-- The public operations of `Radio` that are not plain getters. -/
inductive Op where
  | initialise
  | processReceivedMessages
  | sendMessage (message : RadioMessage)
  | sendCommand (command : Command)

/-- The radio after one operation, with the UART driver in the given state. -/
def apply (uart : Core.HalUart) (r : Radio) : Op → Radio
  | .initialise => (r.initialise uart).2.2
  | .processReceivedMessages => (r.processReceivedMessages uart).2.2
  | .sendMessage _ => r
  | .sendCommand _ => r

/-- The radio after the listed operations, each met by its own UART state. -/
def runs : List (Core.HalUart × Op) → Radio → Radio
  | [], r => r
  | (uart, op) :: rest, r => runs rest (apply uart r op)

end Radio

end Communication

namespace Targeting

namespace TargetDetection

/-- The public operations of `TargetDetection` that are not plain getters. -/
inductive Op where
  | initialise
  | update (env : Env)
  | setTarget (math : FloatMath) (targetPosition : GpsCoordinates) (targetType : TargetType)
  | clearTarget

/-- The process state after one operation. -/
def apply (s : System) : Op → System
  | .initialise => { s with targetDetection := s.targetDetection.initialise.2 }
  | .update env => (update env s).2
  | .setTarget math targetPosition targetType => (setTarget math s targetPosition targetType).2
  | .clearTarget => { s with targetDetection := s.targetDetection.clearTarget.2 }

/-- The detector after the listed operations; each operation meets the other
singletons in the state listed with it. -/
def runs : List (System × Op) → TargetDetection → TargetDetection
  | [], t => t
  | (s, op) :: rest, t => runs rest (apply { s with targetDetection := t } op).targetDetection

end TargetDetection

end Targeting

namespace Safety

namespace SafetyManager

/-- The public operations of `SafetyManager` that are not `const`. -/
inductive Op where
  | initialise
  | update
  | setError (error : ErrorCode)
  | clearError
  | checkTargetConditions
  | executeAction (action : SafetyAction)

/-- The process state after one operation. -/
def apply (s : System) : Op → System
  | .initialise => { s with safetyManager := s.safetyManager.initialise.2 }
  | .update => (update s).2
  | .setError error => setError s error
  | .clearError => clearError s
  | .checkTargetConditions => (checkTargetConditions s).2
  | .executeAction action => (executeAction s action).2

/-- The manager after the listed operations; each operation meets the other
singletons in the state listed with it. -/
def runs : List (System × Op) → SafetyManager → SafetyManager
  | [], m => m
  | (s, op) :: rest, m => runs rest (apply { s with safetyManager := m } op).safetyManager

end SafetyManager

end Safety

namespace MainTask

/-- The main task after the listed loop iterations; each iteration meets the
environment and the singletons in the state listed for it. -/
def runs : List (Env × System) → MainTask → MainTask
  | [], t => t
  | (env, s) :: rest, t => runs rest (iteration env s t).2

end MainTask

/-- A stand-in for the `<cmath>` functions by their small-angle behaviour:
`sinf x = x`, `cosf x = 1`, `asinf x = x`, a non-negative `sqrtf`, and an
`atan2f` with values between `-PI` and `PI`, between `-PI / 2` and `PI / 2`
when its second argument is not negative. -/
def smallAngleMath : FloatMath :=
  { sinf := fun x => x, cosf := fun _ => 1, sqrtf := fun x => if x < 0 then 0 else x,
    atan2f := fun y x => if 0 ≤ x then constrain y (-(PI / 2)) (PI / 2) else constrain y (-PI) PI,
    asinf := fun x => x }

/-- The main task in `EMERGENCY` with the motors armed. -/
def emergencyTask : MainTask := { systemStatus := SystemStatus.EMERGENCY, armed := true }

namespace MainTask

/-- The relation between the mission state and the flags of the main task:
in `ARMED`, `FLYING`, `TARGETING` and `ATTACKING` the motors are armed, and in
`ATTACKING` the attack flag is set. -/
def FlagsAgree (t : MainTask) : Prop :=
  ((t.systemStatus = SystemStatus.ARMED ∨ t.systemStatus = SystemStatus.FLYING ∨
      t.systemStatus = SystemStatus.TARGETING ∨ t.systemStatus = SystemStatus.ATTACKING) →
    t.armed = true) ∧
  (t.systemStatus = SystemStatus.ATTACKING → t.inAttackMode = true)

end MainTask

namespace Safety

namespace SafetyManager

/-- The stored mode is the one the severity table gives for the stored error
code and battery level. -/
def ModeAgrees (m : SafetyManager) : Prop :=
  m.safetyData.mode = severityTable m.safetyData.error m.safetyData.battery.remaining

end SafetyManager

end Safety

namespace Targeting

namespace TargetDetection

/-- The confidence of the target record lies between 0 and 100. -/
def ConfidenceInRange (t : TargetDetection) : Prop :=
  0 ≤ t.targetData.confidence ∧ t.targetData.confidence ≤ 100

end TargetDetection

end Targeting


/-! ## Definitions and states for the claims on overflow and NaN -/

/-- The roll controller of the PID manager (`kp = 1`, `ki = 0`, `kd = 0`,
limits `[0, 100]`) after `initialize()`, in arithmetic with overflow and NaN. -/
def Ieee.defaultController : Ieee.PidController :=
  (Ieee.PidController.initialise
    (Ieee.PidController.new Control.PidControlType.ROLL (Binary32.num DEFAULT_PID_P)
      (Binary32.num DEFAULT_PID_I) (Binary32.num DEFAULT_PID_D))).2

/-- The throttle controller with `kp = 1`, `ki = 1`, `kd = 0` and output limits
`[0, 10]`, initialised and in `AUTOMATIC` mode, in arithmetic with overflow
and NaN. -/
def Ieee.windupController : Ieee.PidController :=
  { Ieee.PidController.new Control.PidControlType.THROTTLE (Binary32.num 1) (Binary32.num 1)
      (Binary32.num 0) with
    outputMax := Binary32.num 10, initialized := true }

/-- The controller over `Binary32` whose members are the numbers of a
controller in exact arithmetic. -/
def Ieee.PidController.ofNumbers (c : Control.PidController) : Ieee.PidController :=
  { kp := Binary32.num c.kp, ki := Binary32.num c.ki, kd := Binary32.num c.kd,
    lastInput := Binary32.num c.lastInput, outputSum := Binary32.num c.outputSum,
    lastError := Binary32.num c.lastError, output := Binary32.num c.output,
    outputMin := Binary32.num c.outputMin, outputMax := Binary32.num c.outputMax,
    type := c.type, mode := c.mode, initialized := c.initialized }

/-- A stand-in for the library that returns, near the angles of 12 and of 90
degrees and their negatives, the sine and cosine of the `float` arguments
0.20943952 and 1.5707964 rounded to `float` (0.20791170, 0.97814763 and 1);
elsewhere it is the small-angle stand-in. -/
def roundedMath : FloatMath :=
  { smallAngleMath with
    sinf := fun x =>
      if 1 / 5 < x ∧ x < 11 / 50 then 6976359 / 33554432
      else if -(11 / 50) < x ∧ x < -(1 / 5) then -(6976359 / 33554432)
      else if 3 / 2 < x ∧ x < 8 / 5 then 1
      else if -(8 / 5) < x ∧ x < -(3 / 2) then -1
      else x,
    cosf := fun x =>
      if (1 / 5 < x ∧ x < 11 / 50) ∨ (-(11 / 50) < x ∧ x < -(1 / 5)) then 8205297 / 8388608
      else 1 }

/-- The haversine term `a` that `calculateDistanceGps` computes for two
coordinates. -/
def Ieee.haversineTerm (math : FloatMath) (coord1 coord2 : GpsCoordinates) : Binary32 :=
  Ieee.sinf math ((Binary32.ofExact coord2.latitude * Binary32.num DEG_TO_RAD
        - Binary32.ofExact coord1.latitude * Binary32.num DEG_TO_RAD) / Binary32.num 2)
      * Ieee.sinf math ((Binary32.ofExact coord2.latitude * Binary32.num DEG_TO_RAD
        - Binary32.ofExact coord1.latitude * Binary32.num DEG_TO_RAD) / Binary32.num 2)
    + Ieee.cosf math (Binary32.ofExact coord1.latitude * Binary32.num DEG_TO_RAD)
      * Ieee.cosf math (Binary32.ofExact coord2.latitude * Binary32.num DEG_TO_RAD)
      * Ieee.sinf math ((Binary32.ofExact coord2.longitude * Binary32.num DEG_TO_RAD
        - Binary32.ofExact coord1.longitude * Binary32.num DEG_TO_RAD) / Binary32.num 2)
      * Ieee.sinf math ((Binary32.ofExact coord2.longitude * Binary32.num DEG_TO_RAD
        - Binary32.ofExact coord1.longitude * Binary32.num DEG_TO_RAD) / Binary32.num 2)

/-! # Theorems -/

section Theorems

open Control Core Safety Targeting Communication Navigation

/-! ## Motor speed clamp -/

/-- C10: for every motor state, GPIO state and speed, `setSpeed speed` gives
the same result and the same motor state as `setSpeed` of the speed clamped
to `[0, 100]`; on an initialised motor with initialised GPIO it returns true,
stores the clamped speed, sets status `RUNNING` when the clamped speed is
positive and `IDLE` when it is zero, and leaves the other members alone. -/
theorem C10_setSpeed_clamp (gpio : HalGpio) (m : Motor) (speed : Float32) :
    m.setSpeed gpio speed = m.setSpeed gpio (constrain speed 0 100) ∧
    (m.initialized = true → gpio.initialized = true →
      (m.setSpeed gpio speed).1 = true ∧
      (m.setSpeed gpio speed).2.speed = constrain speed 0 100 ∧
      (constrain speed 0 100 > 0 → (m.setSpeed gpio speed).2.status = MotorStatus.RUNNING) ∧
      (constrain speed 0 100 = 0 → (m.setSpeed gpio speed).2.status = MotorStatus.IDLE) ∧
      (m.setSpeed gpio speed).2.position = m.position ∧
      (m.setSpeed gpio speed).2.initialized = true) := by
  have hidem : (if constrain speed 0 100 < 0 then (0 : Float32)
      else if constrain speed 0 100 > 100 then 100 else constrain speed 0 100)
      = constrain speed 0 100 := by
    unfold constrain
    split_ifs <;> first | rfl | linarith
  have hc : (if speed < 0 then (0 : Float32) else if speed > 100 then 100 else speed)
      = constrain speed 0 100 := rfl
  refine ⟨?_, ?_⟩
  · simp only [Motor.setSpeed, hidem, hc]
  · intro hm hg
    have hw : gpio.writePin m.gpioPort m.gpioPin (decide (constrain speed 0 100 > 0)) = true := by
      cases m with
      | mk position sp st ini =>
        cases position <;> simp [HalGpio.writePin, Motor.gpioPort, Motor.gpioPin,
          MotorPosition.toNat, HalGpio.MAX_PIN, HalGpio.MAX_PORT, GpioPort.toNat, hg]
    simp only [Motor.setSpeed, hc, hm, hw]
    simp
    intro h0
    simp [h0]

/-- C10 at `setSpeed(150)` on an initialised rear-left motor: the call
succeeds, stores 100 and reports `RUNNING`. -/
theorem C10_setSpeed_clamp_witness :
    ((readyMotor .REAR_LEFT).setSpeed { initialized := true } 150).1 = true ∧
    ((readyMotor .REAR_LEFT).setSpeed { initialized := true } 150).2.speed = 100 ∧
    ((readyMotor .REAR_LEFT).setSpeed { initialized := true } 150).2.status
      = MotorStatus.RUNNING := by
  have h := (C10_setSpeed_clamp { initialized := true } (readyMotor .REAR_LEFT) 150).2 rfl rfl
  have hc : constrain 150 0 100 = 100 := by norm_num [constrain]
  rw [hc] at h
  exact ⟨h.1, h.2.1, h.2.2.1 (by norm_num)⟩

/-! ## The attack-safety gate -/

/-- C2: whenever `gpsSignalLost` or `imuError` is set, or the mode is
`CRITICAL` or `EMERGENCY`, `isSafeToAttack()` returns false, whatever the
target record and the cached `inAttackRange` flag are. -/
theorem C2_isSafeToAttack_false_of_unhealthy (s : System)
    (h : s.safetyManager.safetyData.gpsSignalLost = true ∨
         s.safetyManager.safetyData.imuError = true ∨
         s.safetyManager.safetyData.mode = SafetyMode.CRITICAL ∨
         s.safetyManager.safetyData.mode = SafetyMode.EMERGENCY) :
    SafetyManager.isSafeToAttack s = false := by
  unfold SafetyManager.isSafeToAttack
  rcases h with h | h | h | h <;> simp [h]

/-- C2 on a locked target 10 m away with the in-range flag set and the GPS
signal lost. -/
theorem C2_isSafeToAttack_false_of_unhealthy_witness :
    (benchSystem .ATTACK { inAttackRange := true, gpsSignalLost := true }
      (lockedTarget 10)).targetDetection.targetData.status = TargetStatus.TARGET_LOCKED ∧
    (benchSystem .ATTACK { inAttackRange := true, gpsSignalLost := true }
      (lockedTarget 10)).safetyManager.safetyData.inAttackRange = true ∧
    SafetyManager.isSafeToAttack (benchSystem .ATTACK
      { inAttackRange := true, gpsSignalLost := true } (lockedTarget 10)) = false :=
  ⟨rfl, rfl, C2_isSafeToAttack_false_of_unhealthy _ (Or.inl rfl)⟩

/-- C3 as stated fails: with the cached `inAttackRange` flag still set from an
earlier refresh and a locked target now 100 m away, `isSafeToAttack()`
returns true although the distance exceeds 50 m. -/
theorem C3_counterexample :
    SafetyManager.isSafeToAttack
      (benchSystem .ATTACK { inAttackRange := true } (lockedTarget 100)) = true ∧
    ¬ ((benchSystem .ATTACK { inAttackRange := true }
        (lockedTarget 100)).targetDetection.targetData.distance ≤ 50) := by
  constructor
  · simp [SafetyManager.isSafeToAttack, SafetyManager.hasValidTarget,
      TargetDetection.getTargetData, benchSystem, lockedTarget]
  · norm_num [benchSystem, lockedTarget]

/-- C3, amended: whenever `isSafeToAttack()` returns true, the mode is
`NORMAL` or `WARNING`, `gpsSignalLost` and `imuError` are clear, the target
is `TARGET_LOCKED` (or `TARGET_ACQUIRING` with confidence at least 70) and
the cached `inAttackRange` flag is set; and when the flag has just been
refreshed by `updateTargetStatus()` from the present target record, the
target distance is at most 50 m. -/
theorem C3_isSafeToAttack_sound (s : System) :
    (SafetyManager.isSafeToAttack s = true →
      (s.safetyManager.safetyData.mode = SafetyMode.NORMAL ∨
        s.safetyManager.safetyData.mode = SafetyMode.WARNING) ∧
      s.safetyManager.safetyData.gpsSignalLost = false ∧
      s.safetyManager.safetyData.imuError = false ∧
      (s.targetDetection.targetData.status = TargetStatus.TARGET_LOCKED ∨
        (s.targetDetection.targetData.status = TargetStatus.TARGET_ACQUIRING ∧
          s.targetDetection.targetData.confidence ≥ 70)) ∧
      s.safetyManager.safetyData.inAttackRange = true) ∧
    (SafetyManager.isSafeToAttack (SafetyManager.updateTargetStatus s) = true →
      (SafetyManager.updateTargetStatus s).targetDetection = s.targetDetection ∧
      s.targetDetection.targetData.distance ≤ 50) := by
  constructor
  · intro h
    unfold SafetyManager.isSafeToAttack at h
    simp only [SafetyManager.hasValidTarget, TargetDetection.getTargetData,
      SafetyManager.MIN_TARGET_CONFIDENCE] at h
    cases hm : s.safetyManager.safetyData.mode <;>
      cases hg : s.safetyManager.safetyData.gpsSignalLost <;>
      cases hi : s.safetyManager.safetyData.imuError <;>
      simp [hm, hg, hi] at h ⊢
    all_goals
      obtain ⟨hv, hr⟩ := h
      refine ⟨?_, hr⟩
      by_cases hl : s.targetDetection.targetData.status = TargetStatus.TARGET_LOCKED
      · exact Or.inl hl
      · simp [hl] at hv
        exact Or.inr hv
  · intro h
    have htd : (SafetyManager.updateTargetStatus s).targetDetection = s.targetDetection := by
      simp only [SafetyManager.updateTargetStatus, SafetyManager.setData,
        SafetyManager.clearError]
      split_ifs <;> rfl
    refine ⟨htd, ?_⟩
    have hflag : (SafetyManager.updateTargetStatus s).safetyManager.safetyData.inAttackRange
        = s.targetDetection.isInAttackRange DEFAULT_ATTACK_RANGE_M := by
      simp only [SafetyManager.updateTargetStatus, SafetyManager.setData,
        SafetyManager.clearError, SafetyManager.isInAttackRange,
        SafetyManager.updateSafetyMode]
      split_ifs <;> rfl
    have hr : (SafetyManager.updateTargetStatus s).safetyManager.safetyData.inAttackRange
        = true := by
      unfold SafetyManager.isSafeToAttack at h
      revert h
      simp only []
      split_ifs <;> simp
    rw [hflag] at hr
    unfold TargetDetection.isInAttackRange at hr
    split_ifs at hr
    simpa [DEFAULT_ATTACK_RANGE_M] using hr

/-- C3 (amended) on a locked target 30 m away whose range flag has just been
refreshed. -/
theorem C3_isSafeToAttack_sound_witness :
    SafetyManager.isSafeToAttack (SafetyManager.updateTargetStatus
      (benchSystem .ATTACK {} (lockedTarget 30))) = true ∧
    (benchSystem .ATTACK {} (lockedTarget 30)).targetDetection.targetData.distance ≤ 50 := by
  have h : SafetyManager.isSafeToAttack (SafetyManager.updateTargetStatus
      (benchSystem .ATTACK {} (lockedTarget 30))) = true := by
    simp [SafetyManager.isSafeToAttack, SafetyManager.updateTargetStatus,
      SafetyManager.setData, SafetyManager.hasValidTarget, TargetDetection.getTargetData,
      SafetyManager.isInAttackRange, TargetDetection.isInAttackRange,
      benchSystem, lockedTarget, DEFAULT_ATTACK_RANGE_M]
    norm_num
  exact ⟨h, ((C3_isSafeToAttack_sound _).2 h).2⟩

/-! ## The main loop -/

/-- While no subsystem has been initialised, `updateSubsystems` changes
nothing: every `update()` returns at its initialised check. -/
theorem updateSubsystems_of_uninitialised (env : Env) (s : System)
    (hr : s.radio.initialized = false) (ht : s.telemetry.initialized = false)
    (hi : s.imu.initialized = false) (hg : s.gps.initialized = false)
    (hd : s.targetDetection.initialized = false)
    (hs : s.safetyManager.initialized = false) :
    MainTask.updateSubsystems env s = s := by
  simp [MainTask.updateSubsystems, Radio.processReceivedMessages, Telemetry.update,
    Telemetry.send, Telemetry.sendData, andAlso, Imu.update, Gps.update,
    TargetDetection.update, SafetyManager.update, hr, ht, hi, hg, hd, hs]

/-- The bench states are fixed points of `updateSubsystems`. -/
theorem updateSubsystems_benchSystem (env : Env) (type : CommandType) (safety : SafetyData)
    (target : TargetData) :
    MainTask.updateSubsystems env (benchSystem type safety target)
      = benchSystem type safety target :=
  updateSubsystems_of_uninitialised env _ rfl rfl rfl rfl rfl rfl

theorem handleEmergency_systemStatus (s : System) (t : MainTask) :
    (MainTask.handleEmergency s t).2.systemStatus = t.systemStatus := by
  unfold MainTask.handleEmergency
  simp only []
  split_ifs <;> rfl

theorem handleError_systemStatus (s : System) (t : MainTask) :
    (MainTask.handleError s t).2.systemStatus = t.systemStatus := rfl

/-- The safety check leaves the task alone in a non-critical mode. -/
theorem checkSafetyConditions_of_noncritical (s : System) (t : MainTask)
    (h1 : s.safetyManager.safetyData.mode ≠ SafetyMode.CRITICAL)
    (h2 : s.safetyManager.safetyData.mode ≠ SafetyMode.EMERGENCY) :
    MainTask.checkSafetyConditions s t = t := by
  simp [MainTask.checkSafetyConditions, SafetyManager.getMode, h1, h2]

/-- The safety check forces `EMERGENCY` in a critical mode. -/
theorem checkSafetyConditions_of_critical (s : System) (t : MainTask)
    (h : s.safetyManager.safetyData.mode = SafetyMode.CRITICAL ∨
         s.safetyManager.safetyData.mode = SafetyMode.EMERGENCY) :
    MainTask.checkSafetyConditions s t = { t with systemStatus := SystemStatus.EMERGENCY } := by
  simp [MainTask.checkSafetyConditions, SafetyManager.getMode, h]

/-- The only ways the state switch can leave the task in `ATTACKING`. -/
theorem dispatch_attacking (env : Env) (s : System) (t : MainTask)
    (h : (MainTask.dispatch env s t).2.systemStatus = SystemStatus.ATTACKING) :
    t.systemStatus = SystemStatus.ATTACKING ∨
    (t.systemStatus = SystemStatus.TARGETING ∧ t.armed = true ∧ t.targetLocked = true ∧
      SafetyManager.isInAttackRange s DEFAULT_ATTACK_RANGE_M = true ∧
      SafetyManager.isSafeToAttack s = true) := by
  obtain ⟨st, armed, locked, attack⟩ := t
  cases st
  case ATTACKING => exact Or.inl rfl
  case TARGETING =>
    right
    revert h
    simp only [MainTask.dispatch]
    cases armed <;> cases locked <;>
      cases SafetyManager.isInAttackRange s DEFAULT_ATTACK_RANGE_M <;>
      cases SafetyManager.isSafeToAttack s <;> simp
  case EMERGENCY =>
    rw [MainTask.dispatch, handleEmergency_systemStatus] at h
    simp at h
  case ERROR =>
    rw [MainTask.dispatch, handleError_systemStatus] at h
    simp at h
  all_goals
    revert h
    simp only [MainTask.dispatch, MainTask.checkAndUpdateTarget]
    first
      | (split_ifs <;> simp)
      | simp

/-- The only ways command processing can leave the task in `ATTACKING`. -/
theorem processCommands_attacking (s : System) (t : MainTask)
    (h : (MainTask.processCommands s t).systemStatus = SystemStatus.ATTACKING) :
    t.systemStatus = SystemStatus.ATTACKING ∨
    (s.radio.lastCommand.type = CommandType.ATTACK ∧
      t.systemStatus = SystemStatus.TARGETING ∧ t.targetLocked = true) := by
  unfold MainTask.processCommands at h
  simp only [Radio.getLastCommand] at h
  cases hc : s.radio.lastCommand.type <;> rw [hc] at h <;> simp only [] at h
  all_goals first
    | exact Or.inl h
    | (split_ifs at h <;> simp_all)


/-- Command processing never leaves `EMERGENCY`. -/
theorem processCommands_of_emergency (s : System) (t : MainTask)
    (h : t.systemStatus = SystemStatus.EMERGENCY) :
    (MainTask.processCommands s t).systemStatus = SystemStatus.EMERGENCY := by
  unfold MainTask.processCommands
  simp only [Radio.getLastCommand]
  cases s.radio.lastCommand.type <;> simp [h]

/-- The `ATTACK` command path: in a non-critical safety mode, last command
`ATTACK` takes a task in `TARGETING` with `targetLocked` set from a status
other than `ATTACKING` to `ATTACKING`, with `inAttackMode` set, whatever the
Safety Manager reports about attack range and `isSafeToAttack()`:
`processCommands` does not consult it. -/
theorem iteration_of_attack_command (env : Env) (s : System) (t : MainTask)
    (hs : t.systemStatus = SystemStatus.TARGETING) (hl : t.targetLocked = true)
    (hm1 : (MainTask.updateSubsystems env s).safetyManager.safetyData.mode
      ≠ SafetyMode.CRITICAL)
    (hm2 : (MainTask.updateSubsystems env s).safetyManager.safetyData.mode
      ≠ SafetyMode.EMERGENCY)
    (hc : (MainTask.updateSubsystems env s).radio.lastCommand.type = CommandType.ATTACK) :
    t.systemStatus ≠ SystemStatus.ATTACKING ∧
    (MainTask.iteration env s t).2.systemStatus = SystemStatus.ATTACKING ∧
    (MainTask.iteration env s t).2.inAttackMode = true := by
  refine ⟨by rw [hs]; decide, ?_⟩
  unfold MainTask.iteration
  simp only []
  generalize MainTask.updateSubsystems env s = u at hm1 hm2 hc ⊢
  rw [checkSafetyConditions_of_noncritical u t hm1 hm2]
  obtain ⟨st, armed, locked, attack⟩ := t
  simp only at hs hl
  subst hs hl
  simp [MainTask.processCommands, Radio.getLastCommand, hc, MainTask.dispatch]

/-- C1, counterexample: `TARGETING`, target locked but 100 m away, GPS signal
lost (mode `WARNING`), last command `ATTACK`.  The iteration takes the status
from `TARGETING` to `ATTACKING` although the Safety Manager reports the target
out of range and `isSafeToAttack()` is false. -/
theorem C1_counterexample :
    targetingTask.systemStatus ≠ SystemStatus.ATTACKING ∧
    (MainTask.iteration quietEnv (benchSystem .ATTACK gpsLostSafety (lockedTarget 100))
      targetingTask).2.systemStatus = SystemStatus.ATTACKING ∧
    SafetyManager.isInAttackRange
      (MainTask.updateSubsystems quietEnv
        (benchSystem .ATTACK gpsLostSafety (lockedTarget 100)))
      DEFAULT_ATTACK_RANGE_M = false ∧
    SafetyManager.isSafeToAttack
      (MainTask.updateSubsystems quietEnv
        (benchSystem .ATTACK gpsLostSafety (lockedTarget 100))) = false := by
  have hu := updateSubsystems_benchSystem quietEnv .ATTACK gpsLostSafety (lockedTarget 100)
  have h := iteration_of_attack_command quietEnv
    (benchSystem .ATTACK gpsLostSafety (lockedTarget 100)) targetingTask rfl rfl
    (by rw [hu]; simp [benchSystem, gpsLostSafety])
    (by rw [hu]; simp [benchSystem, gpsLostSafety])
    (by rw [hu]; rfl)
  refine ⟨h.1, h.2.1, ?_, ?_⟩
  · rw [hu]
    simp [SafetyManager.isInAttackRange, TargetDetection.isInAttackRange, benchSystem,
      lockedTarget, DEFAULT_ATTACK_RANGE_M]
    norm_num
  · rw [hu]
    simp [SafetyManager.isSafeToAttack, benchSystem, gpsLostSafety]

/-- C1, amended: a loop iteration changes `systemStatus` from a value other
than `ATTACKING` to `ATTACKING` only if, in that same iteration, either the
Safety Manager reports the target in attack range and `isSafeToAttack()`
returns true (the `TARGETING` case of the switch), or the last command is
`ATTACK`, received in `TARGETING` with `targetLocked` set and a safety mode
that is neither `CRITICAL` nor `EMERGENCY` (the command path, which does not
ask the Safety Manager). -/
theorem C1_attacking_entry (env : Env) (s : System) (t : MainTask)
    (h0 : t.systemStatus ≠ SystemStatus.ATTACKING)
    (h1 : (MainTask.iteration env s t).2.systemStatus = SystemStatus.ATTACKING) :
    (SafetyManager.isInAttackRange (MainTask.updateSubsystems env s) DEFAULT_ATTACK_RANGE_M
        = true ∧
      SafetyManager.isSafeToAttack (MainTask.updateSubsystems env s) = true) ∨
    ((MainTask.updateSubsystems env s).radio.lastCommand.type = CommandType.ATTACK ∧
      t.systemStatus = SystemStatus.TARGETING ∧ t.targetLocked = true ∧
      (MainTask.updateSubsystems env s).safetyManager.safetyData.mode ≠ SafetyMode.CRITICAL ∧
      (MainTask.updateSubsystems env s).safetyManager.safetyData.mode
        ≠ SafetyMode.EMERGENCY) := by
  unfold MainTask.iteration at h1
  simp only [] at h1
  generalize MainTask.updateSubsystems env s = u at h1 ⊢
  rcases dispatch_attacking env u _ h1 with h | h
  · by_cases hc : u.safetyManager.safetyData.mode = SafetyMode.CRITICAL ∨
        u.safetyManager.safetyData.mode = SafetyMode.EMERGENCY
    · rw [processCommands_of_emergency u _
        (by rw [checkSafetyConditions_of_critical u t hc])] at h
      simp at h
    · have hc1 : u.safetyManager.safetyData.mode ≠ SafetyMode.CRITICAL :=
        fun e => hc (Or.inl e)
      have hc2 : u.safetyManager.safetyData.mode ≠ SafetyMode.EMERGENCY :=
        fun e => hc (Or.inr e)
      rw [checkSafetyConditions_of_noncritical u t hc1 hc2] at h
      rcases processCommands_attacking u t h with h | ⟨ha, hs, hl⟩
      · exact absurd h h0
      · exact Or.inr ⟨ha, hs, hl, hc1, hc2⟩
  · exact Or.inl ⟨h.2.2.2.1, h.2.2.2.2⟩

/-- C1, instance: a task in `TARGETING`, armed, with a locked target 30 m
away and last command `ARM`, ends the iteration in `ATTACKING`; it is not the
command path, so the Safety Manager reports the target in range and
`isSafeToAttack()` true. -/
theorem C1_attacking_entry_witness :
    (MainTask.iteration quietEnv (benchSystem .ARM { inAttackRange := true } (lockedTarget 30))
      targetingTask).2.systemStatus = SystemStatus.ATTACKING ∧
    SafetyManager.isInAttackRange
      (MainTask.updateSubsystems quietEnv
        (benchSystem .ARM { inAttackRange := true } (lockedTarget 30)))
      DEFAULT_ATTACK_RANGE_M = true ∧
    SafetyManager.isSafeToAttack
      (MainTask.updateSubsystems quietEnv
        (benchSystem .ARM { inAttackRange := true } (lockedTarget 30))) = true := by
  have hu := updateSubsystems_benchSystem quietEnv .ARM { inAttackRange := true }
    (lockedTarget 30)
  have h1 : (MainTask.iteration quietEnv
      (benchSystem .ARM { inAttackRange := true } (lockedTarget 30))
      targetingTask).2.systemStatus = SystemStatus.ATTACKING := by
    rw [MainTask.iteration, hu]
    simp [MainTask.checkSafetyConditions, MainTask.processCommands, MainTask.dispatch,
      SafetyManager.getMode, Radio.getLastCommand, benchSystem, targetingTask,
      SafetyManager.isInAttackRange, TargetDetection.isInAttackRange, lockedTarget,
      DEFAULT_ATTACK_RANGE_M, SafetyManager.isSafeToAttack, SafetyManager.hasValidTarget,
      TargetDetection.getTargetData]
    norm_num
  rcases C1_attacking_entry quietEnv
    (benchSystem .ARM { inAttackRange := true } (lockedTarget 30)) targetingTask
    (by decide) h1 with h | h
  · exact ⟨h1, h.1, h.2⟩
  · rw [hu] at h
    exact absurd h.1 (by simp [benchSystem])

/-- C4: an iteration in which the safety mode read by
`checkSafetyConditions` is `CRITICAL` or `EMERGENCY` ends with
`systemStatus = EMERGENCY`, for every task state and every last command. -/
theorem C4_critical_mode_forces_emergency (env : Env) (s : System) (t : MainTask)
    (h : (MainTask.updateSubsystems env s).safetyManager.safetyData.mode = SafetyMode.CRITICAL ∨
         (MainTask.updateSubsystems env s).safetyManager.safetyData.mode
           = SafetyMode.EMERGENCY) :
    (MainTask.iteration env s t).2.systemStatus = SystemStatus.EMERGENCY := by
  unfold MainTask.iteration
  simp only []
  generalize MainTask.updateSubsystems env s = u at h ⊢
  have hp := processCommands_of_emergency u (MainTask.checkSafetyConditions u t)
    (by rw [checkSafetyConditions_of_critical u t h])
  generalize MainTask.processCommands u (MainTask.checkSafetyConditions u t) = t2 at hp ⊢
  obtain ⟨st, armed, locked, attack⟩ := t2
  simp only at hp
  subst hp
  rw [MainTask.dispatch, handleEmergency_systemStatus]

/-- C4 on a task in `ATTACKING` with last command `ATTACK` and a safety
record in `CRITICAL` mode. -/
theorem C4_critical_mode_forces_emergency_witness :
    (MainTask.iteration quietEnv
      (benchSystem .ATTACK { mode := SafetyMode.CRITICAL,
                             error := ErrorCode.COMMUNICATION_ERROR } (lockedTarget 10))
      attackingTask).2.systemStatus = SystemStatus.EMERGENCY :=
  C4_critical_mode_forces_emergency _ _ _
    (Or.inl (by rw [updateSubsystems_benchSystem]; rfl))

/-- C5, the code on an `ABORT` received in `ATTACKING` with `targetLocked`
set and a non-critical safety mode: command processing moves the task to
`TARGETING` and clears `inAttackMode`, and the `TARGETING` case of the switch
runs in the same iteration.  When the task is armed, the target in attack
range and `isSafeToAttack()` true, that case moves the task back to
`ATTACKING` and sets `inAttackMode` again, so the abort is undone; otherwise
the iteration ends in `TARGETING` with `inAttackMode` clear. -/
theorem C5_abort_undone_in_range (env : Env) (s : System) (t : MainTask)
    (hs : t.systemStatus = SystemStatus.ATTACKING) (hl : t.targetLocked = true)
    (hm1 : (MainTask.updateSubsystems env s).safetyManager.safetyData.mode
      ≠ SafetyMode.CRITICAL)
    (hm2 : (MainTask.updateSubsystems env s).safetyManager.safetyData.mode
      ≠ SafetyMode.EMERGENCY)
    (hc : (MainTask.updateSubsystems env s).radio.lastCommand.type = CommandType.ABORT) :
    ((MainTask.processCommands (MainTask.updateSubsystems env s)
        (MainTask.checkSafetyConditions (MainTask.updateSubsystems env s) t)).systemStatus
        = SystemStatus.TARGETING ∧
      (MainTask.processCommands (MainTask.updateSubsystems env s)
        (MainTask.checkSafetyConditions (MainTask.updateSubsystems env s) t)).inAttackMode
        = false) ∧
    (t.armed = true ∧
      SafetyManager.isInAttackRange (MainTask.updateSubsystems env s) DEFAULT_ATTACK_RANGE_M
        = true ∧
      SafetyManager.isSafeToAttack (MainTask.updateSubsystems env s) = true →
      (MainTask.iteration env s t).2.systemStatus = SystemStatus.ATTACKING ∧
      (MainTask.iteration env s t).2.inAttackMode = true) ∧
    (¬ (t.armed = true ∧
      SafetyManager.isInAttackRange (MainTask.updateSubsystems env s) DEFAULT_ATTACK_RANGE_M
        = true ∧
      SafetyManager.isSafeToAttack (MainTask.updateSubsystems env s) = true) →
      (MainTask.iteration env s t).2.systemStatus = SystemStatus.TARGETING ∧
      (MainTask.iteration env s t).2.inAttackMode = false) := by
  unfold MainTask.iteration
  simp only []
  generalize MainTask.updateSubsystems env s = u at hm1 hm2 hc ⊢
  rw [checkSafetyConditions_of_noncritical u t hm1 hm2]
  obtain ⟨st, armed, locked, attack⟩ := t
  simp only at hs hl
  subst hs hl
  simp only [MainTask.processCommands, Radio.getLastCommand, hc, MainTask.dispatch]
  cases armed <;>
    cases hr : SafetyManager.isInAttackRange u DEFAULT_ATTACK_RANGE_M <;>
    cases hsafe : SafetyManager.isSafeToAttack u <;> simp_all

/-- C5 at the failing input: from `ATTACKING` (armed, target locked 30 m away,
in-range flag set, mode `NORMAL`) with last command `ABORT`, the iteration
ends in `ATTACKING` with `inAttackMode` set. -/
theorem C5_abort_undone_in_range_witness :
    attackingTask.systemStatus = SystemStatus.ATTACKING ∧
    (MainTask.updateSubsystems quietEnv (benchSystem .ABORT { inAttackRange := true }
      (lockedTarget 30))).safetyManager.safetyData.mode = SafetyMode.NORMAL ∧
    (MainTask.updateSubsystems quietEnv (benchSystem .ABORT { inAttackRange := true }
      (lockedTarget 30))).radio.lastCommand.type = CommandType.ABORT ∧
    (MainTask.iteration quietEnv (benchSystem .ABORT { inAttackRange := true }
      (lockedTarget 30)) attackingTask).2.systemStatus = SystemStatus.ATTACKING ∧
    (MainTask.iteration quietEnv (benchSystem .ABORT { inAttackRange := true }
      (lockedTarget 30)) attackingTask).2.inAttackMode = true := by
  have hu := updateSubsystems_benchSystem quietEnv .ABORT { inAttackRange := true }
    (lockedTarget 30)
  have h := (C5_abort_undone_in_range quietEnv
    (benchSystem .ABORT { inAttackRange := true } (lockedTarget 30)) attackingTask rfl rfl
    (by rw [hu]; simp [benchSystem]) (by rw [hu]; simp [benchSystem])
    (by rw [hu]; rfl)).2.1
    ⟨rfl,
     by rw [hu]
        simp [SafetyManager.isInAttackRange, TargetDetection.isInAttackRange, benchSystem,
          lockedTarget, DEFAULT_ATTACK_RANGE_M]
        norm_num,
     by rw [hu]
        simp [SafetyManager.isSafeToAttack, SafetyManager.hasValidTarget,
          TargetDetection.getTargetData, benchSystem, lockedTarget]⟩
  exact ⟨rfl, by rw [hu]; rfl, by rw [hu]; rfl, h.1, h.2⟩

/-- Command processing other than `DISARM` leaves a task in `INITIALIZING`
or `ARMED` in that state. -/
theorem processCommands_systemStatus_of_not_disarm (s : System) (t : MainTask)
    (hc : s.radio.lastCommand.type ≠ CommandType.DISARM)
    (hs : t.systemStatus = SystemStatus.INITIALIZING ∨ t.systemStatus = SystemStatus.ARMED) :
    (MainTask.processCommands s t).systemStatus = t.systemStatus ∧
    (MainTask.processCommands s t).armed = t.armed := by
  unfold MainTask.processCommands
  simp only [Radio.getLastCommand]
  cases hty : s.radio.lastCommand.type <;> rcases hs with hs | hs <;> simp_all

/-- The self-test fails on the bench: no motor has been initialised. -/
theorem performSelfTest_bench (type : CommandType) :
    (MainTask.performSelfTest (benchSystem type {} {})).1 = false := by
  simp [MainTask.performSelfTest, SystemInit.performSelfTest, SystemInit.testHardware,
    SystemInit.testNavigation, SystemInit.testCommunication, SystemInit.testMotors,
    SystemInit.testMotor, andAlso, MotorController.onMotor, MotorController.getMotor,
    Motor.setSpeed, benchSystem, Imu.getData, Gps.getData, Radio.getStatus]

/-- In a non-critical mode, last command `DISARM` takes a task in
`INITIALIZING` to `READY` without running the self-test. -/
theorem iteration_of_disarm_in_initializing (env : Env) (s : System) (t : MainTask)
    (hs : t.systemStatus = SystemStatus.INITIALIZING)
    (hm1 : (MainTask.updateSubsystems env s).safetyManager.safetyData.mode
      ≠ SafetyMode.CRITICAL)
    (hm2 : (MainTask.updateSubsystems env s).safetyManager.safetyData.mode
      ≠ SafetyMode.EMERGENCY)
    (hc : (MainTask.updateSubsystems env s).radio.lastCommand.type = CommandType.DISARM) :
    (MainTask.iteration env s t).2.systemStatus = SystemStatus.READY ∧
    (MainTask.iteration env s t).1 = MainTask.updateSubsystems env s := by
  unfold MainTask.iteration
  simp only []
  generalize MainTask.updateSubsystems env s = u at hm1 hm2 hc ⊢
  rw [checkSafetyConditions_of_noncritical u t hm1 hm2]
  obtain ⟨st, armed, locked, attack⟩ := t
  simp only at hs
  subst hs
  simp [MainTask.processCommands, Radio.getLastCommand, hc, MainTask.dispatch]

/-- C6 as stated fails: from `INITIALIZING` with the default last command
`DISARM` and a failing self-test, the iteration ends in `READY`, not in
`ERROR`; the self-test is never run. -/
theorem C6_counterexample :
    ({} : MainTask).systemStatus = SystemStatus.INITIALIZING ∧
    (MainTask.updateSubsystems quietEnv (benchSystem .DISARM {} {})).safetyManager.safetyData.mode
      = SafetyMode.NORMAL ∧
    (MainTask.performSelfTest
      (MainTask.updateSubsystems quietEnv (benchSystem .DISARM {} {}))).1 = false ∧
    (MainTask.iteration quietEnv (benchSystem .DISARM {} {}) {}).2.systemStatus
      = SystemStatus.READY := by
  have hu := updateSubsystems_benchSystem quietEnv .DISARM {} {}
  refine ⟨rfl, by rw [hu]; rfl, by rw [hu]; exact performSelfTest_bench _, ?_⟩
  exact (iteration_of_disarm_in_initializing quietEnv _ {} rfl
    (by rw [hu]; simp [benchSystem]) (by rw [hu]; simp [benchSystem])
    (by rw [hu]; rfl)).1

/-- C6, amended: an iteration that starts in `INITIALIZING` with a
non-critical safety mode and a last command other than `DISARM` ends in
`READY` if the self-test succeeds and in `ERROR` if it fails. -/
theorem C6_initializing_runs_self_test (env : Env) (s : System) (t : MainTask)
    (hs : t.systemStatus = SystemStatus.INITIALIZING)
    (hm1 : (MainTask.updateSubsystems env s).safetyManager.safetyData.mode
      ≠ SafetyMode.CRITICAL)
    (hm2 : (MainTask.updateSubsystems env s).safetyManager.safetyData.mode
      ≠ SafetyMode.EMERGENCY)
    (hc : (MainTask.updateSubsystems env s).radio.lastCommand.type ≠ CommandType.DISARM) :
    ((MainTask.performSelfTest (MainTask.updateSubsystems env s)).1 = true →
      (MainTask.iteration env s t).2.systemStatus = SystemStatus.READY) ∧
    ((MainTask.performSelfTest (MainTask.updateSubsystems env s)).1 = false →
      (MainTask.iteration env s t).2.systemStatus = SystemStatus.ERROR) := by
  unfold MainTask.iteration
  simp only []
  generalize MainTask.updateSubsystems env s = u at hm1 hm2 hc ⊢
  rw [checkSafetyConditions_of_noncritical u t hm1 hm2]
  have hp := (processCommands_systemStatus_of_not_disarm u t hc (Or.inl hs)).1
  rw [hs] at hp
  generalize MainTask.processCommands u t = t2 at hp ⊢
  obtain ⟨st, armed, locked, attack⟩ := t2
  simp only at hp
  subst hp
  simp only [MainTask.dispatch]
  constructor <;> intro h <;> simp [h]

/-- C6 (amended) with last command `TAKEOFF` on a bench whose motors are up:
the self-test succeeds and the iteration ends in `READY`. -/
theorem C6_initializing_runs_self_test_witness :
    (MainTask.performSelfTest
      (MainTask.updateSubsystems quietEnv (benchSystemWithMotors .TAKEOFF))).1 = true ∧
    (MainTask.iteration quietEnv (benchSystemWithMotors .TAKEOFF) {}).2.systemStatus
      = SystemStatus.READY := by
  have hu : MainTask.updateSubsystems quietEnv (benchSystemWithMotors .TAKEOFF)
      = benchSystemWithMotors .TAKEOFF :=
    updateSubsystems_of_uninitialised _ _ rfl rfl rfl rfl rfl rfl
  have ht : (MainTask.performSelfTest
      (MainTask.updateSubsystems quietEnv (benchSystemWithMotors .TAKEOFF))).1 = true := by
    rw [hu]
    simp [MainTask.performSelfTest, SystemInit.performSelfTest, SystemInit.testHardware,
      SystemInit.testNavigation, SystemInit.testCommunication, SystemInit.testMotors,
      SystemInit.testMotor, andAlso, MotorController.onMotor, MotorController.getMotor,
      MotorController.setMotor, Motor.setSpeed, Motor.stop, benchSystemWithMotors,
      benchSystem, readyMotor, Imu.getData, Gps.getData, Radio.getStatus,
      HalGpio.writePin, Motor.gpioPin, Motor.gpioPort, MotorPosition.toNat,
      GpioPort.toNat, HalGpio.MAX_PIN, HalGpio.MAX_PORT]
  have h := C6_initializing_runs_self_test quietEnv (benchSystemWithMotors .TAKEOFF) {} rfl
    (by rw [hu]; simp [benchSystemWithMotors, benchSystem])
    (by rw [hu]; simp [benchSystemWithMotors, benchSystem])
    (by rw [hu]; simp [benchSystemWithMotors, benchSystem])
  exact ⟨ht, h.1 ht⟩

/-- C7, the code at the failing input: when the GPS record of the iteration
is what `parseGGA` leaves (applied to a record whose position altitude does
not exceed 20 m, such as the constructed one), the reported altitude
`data.altitude` is 120.5 m and exceeds `SAFETY_ALTITUDE_M`, yet an iteration
that starts in `ARMED` with `armed` set, a non-critical mode and a command
that does not disarm ends in `ARMED`: `run` reads `position.altitude`, which
`parseGGA` does not write. -/
theorem C7_gga_altitude_not_seen (env : Env) (s : System) (t : MainTask) (g : Gps)
    (hg : (MainTask.updateSubsystems env s).gps = g.parseGGA.2)
    (hp : g.data.position.altitude ≤ SAFETY_ALTITUDE_M)
    (hs : t.systemStatus = SystemStatus.ARMED) (ha : t.armed = true)
    (hm1 : (MainTask.updateSubsystems env s).safetyManager.safetyData.mode
      ≠ SafetyMode.CRITICAL)
    (hm2 : (MainTask.updateSubsystems env s).safetyManager.safetyData.mode
      ≠ SafetyMode.EMERGENCY)
    (hc : (MainTask.updateSubsystems env s).radio.lastCommand.type ≠ CommandType.DISARM) :
    (MainTask.updateSubsystems env s).gps.data.altitude = 120.5 ∧
    (MainTask.updateSubsystems env s).gps.data.altitude > SAFETY_ALTITUDE_M ∧
    (MainTask.iteration env s t).2.systemStatus = SystemStatus.ARMED := by
  unfold MainTask.iteration
  simp only []
  generalize MainTask.updateSubsystems env s = u at hg hm1 hm2 hc ⊢
  rw [checkSafetyConditions_of_noncritical u t hm1 hm2]
  have hp2 := processCommands_systemStatus_of_not_disarm u t hc (Or.inr hs)
  rw [hs, ha] at hp2
  generalize MainTask.processCommands u t = t2 at hp2 ⊢
  obtain ⟨st, armed, locked, attack⟩ := t2
  simp only at hp2
  obtain ⟨h1, h2⟩ := hp2
  subst h1 h2
  have halt : u.gps.data.position.altitude = g.data.position.altitude := by
    rw [hg]; rfl
  have hnot : ¬ (u.gps.data.position.altitude > SAFETY_ALTITUDE_M) := by
    rw [halt]; exact not_lt.mpr hp
  refine ⟨by rw [hg]; rfl, ?_, ?_⟩
  · rw [hg]
    show (120.5 : Float32) > SAFETY_ALTITUDE_M
    norm_num [SAFETY_ALTITUDE_M]
  · simp [MainTask.dispatch, Gps.getData, hnot]

/-- C7 at the failing input: an armed task, last command `TAKEOFF`, and a GPS
that has parsed one GGA sentence since construction. -/
theorem C7_gga_altitude_not_seen_witness :
    (MainTask.updateSubsystems quietEnv (benchSystemAfterGGA .TAKEOFF)).gps.data.altitude
      = 120.5 ∧
    (MainTask.iteration quietEnv (benchSystemAfterGGA .TAKEOFF) armedTask).2.systemStatus
      = SystemStatus.ARMED := by
  have hu : MainTask.updateSubsystems quietEnv (benchSystemAfterGGA .TAKEOFF)
      = benchSystemAfterGGA .TAKEOFF :=
    updateSubsystems_of_uninitialised _ _ rfl rfl rfl rfl rfl rfl
  have h := C7_gga_altitude_not_seen quietEnv (benchSystemAfterGGA .TAKEOFF) armedTask {}
    (by rw [hu]; rfl)
    (by show (0 : Float32) ≤ SAFETY_ALTITUDE_M; norm_num [SAFETY_ALTITUDE_M])
    rfl rfl
    (by rw [hu]; simp [benchSystemAfterGGA, benchSystem])
    (by rw [hu]; simp [benchSystemAfterGGA, benchSystem])
    (by rw [hu]; simp [benchSystemAfterGGA, benchSystem])
  exact ⟨h.1, h.2.2⟩

/-- Command processing other than `DISARM` and `ATTACK` leaves a task in
`TARGETING` there, with its `armed` and `targetLocked` flags as they were. -/
theorem processCommands_of_targeting (s : System) (t : MainTask)
    (hc1 : s.radio.lastCommand.type ≠ CommandType.DISARM)
    (hc2 : s.radio.lastCommand.type ≠ CommandType.ATTACK)
    (hs : t.systemStatus = SystemStatus.TARGETING) :
    (MainTask.processCommands s t).systemStatus = SystemStatus.TARGETING ∧
    (MainTask.processCommands s t).armed = t.armed ∧
    (MainTask.processCommands s t).targetLocked = t.targetLocked := by
  unfold MainTask.processCommands
  simp only [Radio.getLastCommand]
  cases hty : s.radio.lastCommand.type <;> simp_all

/-- C8, the code at the failing inputs: an iteration that starts in
`TARGETING` with the task flag `targetLocked` set (as it is whenever
`TARGETING` was entered from `FLYING`), a non-critical mode and a command
that neither disarms nor attacks does not end in `FLYING`, whatever Target
Detection reports; the flag is not refreshed in `TARGETING` and stays set,
and when Target Detection reports the target lost or absent the iteration
ends in `TARGETING`. -/
theorem C8_stale_lock_keeps_targeting (env : Env) (s : System) (t : MainTask)
    (hs : t.systemStatus = SystemStatus.TARGETING) (hl : t.targetLocked = true)
    (hm1 : (MainTask.updateSubsystems env s).safetyManager.safetyData.mode
      ≠ SafetyMode.CRITICAL)
    (hm2 : (MainTask.updateSubsystems env s).safetyManager.safetyData.mode
      ≠ SafetyMode.EMERGENCY)
    (hc1 : (MainTask.updateSubsystems env s).radio.lastCommand.type ≠ CommandType.DISARM)
    (hc2 : (MainTask.updateSubsystems env s).radio.lastCommand.type
      ≠ CommandType.ATTACK) :
    (MainTask.iteration env s t).2.systemStatus ≠ SystemStatus.FLYING ∧
    (MainTask.iteration env s t).2.targetLocked = true ∧
    ((MainTask.updateSubsystems env s).targetDetection.targetData.status
        = TargetStatus.TARGET_LOST ∨
      (MainTask.updateSubsystems env s).targetDetection.targetData.status
        = TargetStatus.NO_TARGET →
      (MainTask.iteration env s t).2.systemStatus = SystemStatus.TARGETING) := by
  unfold MainTask.iteration
  simp only []
  generalize MainTask.updateSubsystems env s = u at hm1 hm2 hc1 hc2 ⊢
  rw [checkSafetyConditions_of_noncritical u t hm1 hm2]
  have hp := processCommands_of_targeting u t hc1 hc2 hs
  rw [hl] at hp
  generalize MainTask.processCommands u t = t2 at hp ⊢
  obtain ⟨st, armed, locked, attack⟩ := t2
  simp only at hp
  obtain ⟨h1, -, h3⟩ := hp
  subst h1 h3
  have hrange : (u.targetDetection.targetData.status = TargetStatus.TARGET_LOST ∨
      u.targetDetection.targetData.status = TargetStatus.NO_TARGET) →
      SafetyManager.isInAttackRange u DEFAULT_ATTACK_RANGE_M = false := by
    intro h
    rcases h with h | h <;>
      simp [SafetyManager.isInAttackRange, TargetDetection.isInAttackRange, h]
  refine ⟨?_, ?_, ?_⟩
  · simp only [MainTask.dispatch]
    cases armed <;> cases SafetyManager.isInAttackRange u DEFAULT_ATTACK_RANGE_M <;>
      cases SafetyManager.isSafeToAttack u <;> simp
  · simp only [MainTask.dispatch]
    cases armed <;> cases SafetyManager.isInAttackRange u DEFAULT_ATTACK_RANGE_M <;>
      cases SafetyManager.isSafeToAttack u <;> simp
  · intro h
    simp only [MainTask.dispatch, hrange h]
    cases armed <;> simp

/-- C8 at a failing input: `TARGETING`, armed, flag `targetLocked` set, last
command `TAKEOFF`, Target Detection reporting `TARGET_LOST`: the iteration
ends in `TARGETING`. -/
theorem C8_stale_lock_keeps_targeting_witness :
    (MainTask.updateSubsystems quietEnv (benchSystem .TAKEOFF {}
      { status := TargetStatus.TARGET_LOST })).targetDetection.isTargetLocked = false ∧
    (MainTask.iteration quietEnv (benchSystem .TAKEOFF {}
      { status := TargetStatus.TARGET_LOST }) targetingTask).2.systemStatus
      = SystemStatus.TARGETING := by
  have ht : (MainTask.updateSubsystems quietEnv (benchSystem .TAKEOFF {}
      { status := TargetStatus.TARGET_LOST })).targetDetection.isTargetLocked = false := by
    rw [updateSubsystems_benchSystem]; rfl
  have h := C8_stale_lock_keeps_targeting quietEnv
    (benchSystem .TAKEOFF {} { status := TargetStatus.TARGET_LOST }) targetingTask rfl rfl
    (by rw [updateSubsystems_benchSystem]; simp [benchSystem])
    (by rw [updateSubsystems_benchSystem]; simp [benchSystem])
    (by rw [updateSubsystems_benchSystem]; simp [benchSystem])
    (by rw [updateSubsystems_benchSystem]; simp [benchSystem])
  exact ⟨ht, h.2.2 (Or.inl (by rw [updateSubsystems_benchSystem]; rfl))⟩

/-! ## System initialisation -/

/-- A motor that is not yet initialised cannot be initialised: the `stop()`
issued by `Motor::initialize` is refused by the initialised check of
`setSpeed`. -/
theorem Motor.initialise_eq_false (gpio : HalGpio) (m : Motor) (h : m.initialized = false) :
    (m.initialise gpio).1 = false := by
  unfold Motor.initialise
  simp only [h, Motor.stop, Motor.setSpeed]
  cases gpio.configurePin m.gpioPort m.gpioPin GpioMode.OUTPUT GpioPull.NONE <;> simp

/-- C9, the code at the failing input: starting from the freshly constructed
subsystems the hardware step succeeds and `initializeSystem()` returns
false, because `MotorController::initialize` fails in the control step
whatever the GPIO state (each `Motor::initialize` calls `stop()` before
`initialized_` is set). -/
theorem C9_initializeSystem_fails_from_fresh :
    (SystemInit.initializeHardware {}).1 = true ∧
    (SystemInit.initializeSystem {}).1 = false ∧
    (∀ gpio : HalGpio, (({} : MotorController).initialise gpio).1 = false) := by
  have hgpio : ∀ g : HalGpio, g.initialized = true →
      ∀ (port : GpioPort) (n : Nat) (mode : GpioMode) (pull : GpioPull), n ≤ 15 →
      g.configurePin port n mode pull = true := by
    intro g hg port n mode pull hn
    cases port <;>
      simp [HalGpio.configurePin, HalGpio.MAX_PIN, HalGpio.MAX_PORT, GpioPort.toNat, hg,
        Nat.not_lt.mpr hn]
  have hmc : ∀ gpio : HalGpio, (({} : MotorController).initialise gpio).1 = false := by
    intro gpio
    have hm := Motor.initialise_eq_false gpio { position := MotorPosition.FRONT_LEFT } rfl
    simp [MotorController.initialise, MotorController.onMotor, MotorController.getMotor,
      MotorController.setMotor, andAlso, hm]
  refine ⟨?_, ?_, hmc⟩
  · simp [SystemInit.initializeHardware, SystemInit.configureGpio, SystemInit.configureUart,
      andAlso, HalGpio.initialise, HalUart.initialise, HalUart.configurePort,
      HalUart.isValidPort, HalUart.MAX_PORT, UartPort.toNat, hgpio]
  · simp [SystemInit.initializeSystem, SystemInit.initializeHardware,
      SystemInit.configureGpio, SystemInit.configureUart, SystemInit.initializeCommunication,
      SystemInit.initializeNavigation, SystemInit.initializeControl,
      andAlso, HalGpio.initialise, HalUart.initialise, HalUart.configurePort,
      HalUart.isValidPort, HalUart.MAX_PORT, UartPort.toNat, hgpio,
      Radio.initialise, Radio.radioUartPort, Telemetry.initialise, Telemetry.updateSystem,
      getTicks, Rtos.getTicks, Imu.initialise, Imu.calibrate, Gps.initialise, hmc]

/-! ## The PID controller -/

/-- With the lower limit not above the upper one, the saturation of the PID
code is the `constrain` of `common.hpp`. -/
theorem PidController.saturate_eq_constrain (value min max : Float32) (h : min ≤ max) :
    PidController.saturate value min max = constrain value min max := by
  unfold PidController.saturate constrain
  split_ifs <;> first | rfl | linarith

/-- What `compute` does on an initialised controller in `AUTOMATIC` mode. -/
theorem PidController.compute_of_automatic (c : PidController) (input setpoint : Float32)
    (hi : c.initialized = true) (hm : c.mode = PidMode.AUTOMATIC) :
    c.compute input setpoint =
      (PidController.saturate
          (c.kp * (setpoint - input)
            + PidController.saturate (c.outputSum + c.ki * (setpoint - input))
                c.outputMin c.outputMax
            - c.kd * (input - c.lastInput)) c.outputMin c.outputMax,
       { c with
         outputSum := PidController.saturate (c.outputSum + c.ki * (setpoint - input))
           c.outputMin c.outputMax,
         output := PidController.saturate
           (c.kp * (setpoint - input)
             + PidController.saturate (c.outputSum + c.ki * (setpoint - input))
                 c.outputMin c.outputMax
             - c.kd * (input - c.lastInput)) c.outputMin c.outputMax,
         lastError := setpoint - input,
         lastInput := input }) := by
  simp only [PidController.compute, hi, hm, PidController.saturate]
  simp [sub_eq_add_neg]

/-- What `compute` does on a controller that is not initialised or not in
`AUTOMATIC` mode: nothing. -/
theorem PidController.compute_of_idle (c : PidController) (input setpoint : Float32)
    (h : c.initialized = false ∨ c.mode ≠ PidMode.AUTOMATIC) :
    c.compute input setpoint = (c.output, c) := by
  unfold PidController.compute
  rcases h with h | h
  · simp [h]
  · simp [h]

/-- C14 as stated fails: a controller as constructed is in `AUTOMATIC` mode but
not initialised; `compute(0, 5)` on it returns the held output 0 and stores
nothing, where the claim has the output 5 and `lastError = 5`. -/
theorem C14_counterexample :
    (PidController.new PidControlType.ROLL 1 0 0).mode = PidMode.AUTOMATIC ∧
    ((PidController.new PidControlType.ROLL 1 0 0).compute 0 5).1 = 0 ∧
    ((PidController.new PidControlType.ROLL 1 0 0).compute 0 5).2.lastError = 0 ∧
    PidController.saturate (1 * (5 - 0) + PidController.saturate (0 + 0 * (5 - 0)) 0 100
      - 0 * (0 - 0)) 0 100 = 5 ∧
    ((5 : Float32) - 0 ≠ 0) := by
  refine ⟨rfl, ?_, ?_, ?_, ?_⟩
  · simp [PidController.compute, PidController.new]
  · simp [PidController.compute, PidController.new]
  · norm_num [PidController.saturate]
  · norm_num

/-- C14, amended: for every initialised controller in `AUTOMATIC` mode,
`compute(input, setpoint)` sets `outputSum` to the saturation of
`outputSum + ki * (setpoint - input)`, returns and stores the saturation of
`kp * (setpoint - input) + outputSum' - kd * (input - lastInput)`, stores
`lastError = setpoint - input` and `lastInput = input` and changes no other
member; for every controller that is not initialised or not in `AUTOMATIC`
mode it returns the held output and changes no member.  The saturation is
the clamp into `[outputMin, outputMax]` whenever `outputMin ≤ outputMax`. -/
theorem C14_compute_step (c : PidController) (input setpoint : Float32) :
    (c.initialized = true → c.mode = PidMode.AUTOMATIC →
      c.compute input setpoint =
        (PidController.saturate
            (c.kp * (setpoint - input)
              + PidController.saturate (c.outputSum + c.ki * (setpoint - input))
                  c.outputMin c.outputMax
              - c.kd * (input - c.lastInput)) c.outputMin c.outputMax,
         { c with
           outputSum := PidController.saturate (c.outputSum + c.ki * (setpoint - input))
             c.outputMin c.outputMax,
           output := PidController.saturate
             (c.kp * (setpoint - input)
               + PidController.saturate (c.outputSum + c.ki * (setpoint - input))
                   c.outputMin c.outputMax
               - c.kd * (input - c.lastInput)) c.outputMin c.outputMax,
           lastError := setpoint - input,
           lastInput := input })) ∧
    (c.initialized = false ∨ c.mode ≠ PidMode.AUTOMATIC →
      c.compute input setpoint = (c.output, c)) ∧
    (c.outputMin ≤ c.outputMax → ∀ value : Float32,
      PidController.saturate value c.outputMin c.outputMax
        = constrain value c.outputMin c.outputMax) :=
  ⟨PidController.compute_of_automatic c input setpoint,
   PidController.compute_of_idle c input setpoint,
   fun h value => PidController.saturate_eq_constrain value _ _ h⟩

/-- C14 (amended) on the controller with `kp = ki = 1`, `kd = 0` and limits
`[0, 10]`: `compute(0, 3)` returns 6, with integral sum 3. -/
theorem C14_compute_step_witness :
    (windupController.compute 0 3).1 = 6 ∧
    (windupController.compute 0 3).2.outputSum = 3 ∧
    (windupController.compute 0 3).2.lastError = 3 := by
  have h := (C14_compute_step windupController 0 3).1 rfl rfl
  rw [h]
  norm_num [PidController.saturate, windupController, PidController.new]

/-- C15: on a controller in `MANUAL` mode, whatever its accumulated state,
`setMode(AUTOMATIC)` sets `lastInput`, `outputSum`, `lastError` and `output`
to 0 and the mode to `AUTOMATIC` and changes nothing else (gains, limits,
type, initialised flag); `setMode` on a controller already in `AUTOMATIC`
mode, and `setMode(MANUAL)` on any controller, change nothing but the mode. -/
theorem C15_setMode (c : PidController) :
    (c.mode = PidMode.MANUAL →
      c.setMode PidMode.AUTOMATIC =
        { c with lastInput := 0, outputSum := 0, lastError := 0, output := 0,
                 mode := PidMode.AUTOMATIC }) ∧
    (c.mode = PidMode.AUTOMATIC → ∀ mode : PidMode, c.setMode mode = { c with mode := mode }) ∧
    c.setMode PidMode.MANUAL = { c with mode := PidMode.MANUAL } := by
  refine ⟨?_, ?_, ?_⟩
  · intro h
    simp [PidController.setMode, PidController.reset, h]
  · intro h mode
    simp [PidController.setMode, h]
  · simp [PidController.setMode]

/-- C15 on a `MANUAL` controller with integral sum 40 and output 55: after
`setMode(AUTOMATIC)` both are 0, the gains and limits are as before. -/
theorem C15_setMode_witness :
    (manualController.setMode PidMode.AUTOMATIC).outputSum = 0 ∧
    (manualController.setMode PidMode.AUTOMATIC).output = 0 ∧
    (manualController.setMode PidMode.AUTOMATIC).lastInput = 0 ∧
    (manualController.setMode PidMode.AUTOMATIC).lastError = 0 ∧
    (manualController.setMode PidMode.AUTOMATIC).mode = PidMode.AUTOMATIC ∧
    (manualController.setMode PidMode.AUTOMATIC).kp = manualController.kp ∧
    (manualController.setMode PidMode.AUTOMATIC).outputMax = manualController.outputMax := by
  rw [(C15_setMode manualController).1 rfl]
  exact ⟨rfl, rfl, rfl, rfl, rfl, rfl, rfl⟩

/-- C17: `setTunings(kp, ki, kd)` with a negative gain among the three changes
no member; with all three non-negative it stores exactly those gains and
changes nothing else. -/
theorem C17_setTunings (c : PidController) (kp ki kd : Float32) :
    (kp < 0 ∨ ki < 0 ∨ kd < 0 → c.setTunings kp ki kd = c) ∧
    (0 ≤ kp → 0 ≤ ki → 0 ≤ kd →
      c.setTunings kp ki kd = { c with kp := kp, ki := ki, kd := kd }) := by
  constructor
  · intro h
    simp [PidController.setTunings, h]
  · intro h1 h2 h3
    simp [PidController.setTunings, not_lt.mpr h1, not_lt.mpr h2, not_lt.mpr h3]

/-- C17 on the `MANUAL` controller: gains `(1, -1, 0)` are refused, gains
`(3, 0, 2)` are stored. -/
theorem C17_setTunings_witness :
    manualController.setTunings 1 (-1) 0 = manualController ∧
    (manualController.setTunings 3 0 2).kp = 3 ∧
    (manualController.setTunings 3 0 2).ki = 0 ∧
    (manualController.setTunings 3 0 2).kd = 2 ∧
    (manualController.setTunings 3 0 2).outputSum = manualController.outputSum := by
  have h := (C17_setTunings manualController 3 0 2).2 (by norm_num) (by norm_num)
    (by norm_num)
  refine ⟨(C17_setTunings manualController 1 (-1) 0).1 (Or.inr (Or.inl (by norm_num))),
    ?_, ?_, ?_, ?_⟩ <;> rw [h]

/-! ## The Safety Manager -/

/-- The mode that `updateSafetyMode` stores is the one of the severity table;
no other member of the record changes. -/
theorem SafetyManager.updateSafetyMode_eq (d : SafetyData) :
    SafetyManager.updateSafetyMode d =
      { d with mode := SafetyManager.severityTable d.error d.battery.remaining } := by
  unfold SafetyManager.updateSafetyMode SafetyManager.severityTable
  cases h : d.error <;>
    simp [SafetyManager.CRITICAL_BATTERY_THRESHOLD]
  split_ifs <;> rfl

/-- The effect of `setError` on the safety record; the rest of the process
state apart from the tick counter is left alone. -/
theorem SafetyManager.setError_spec (s : System) (error : ErrorCode) :
    SafetyManager.SameInputs s (SafetyManager.setError s error) ∧
    (SafetyManager.setError s error).safetyManager.safetyData.error = error ∧
    (SafetyManager.setError s error).safetyManager.safetyData.mode =
      SafetyManager.severityTable error s.safetyManager.safetyData.battery.remaining := by
  refine ⟨⟨rfl, rfl, rfl, rfl, rfl, rfl, ?_⟩, ?_, ?_⟩ <;>
    simp [SafetyManager.setError, SafetyManager.setData, getTicks,
      SafetyManager.updateSafetyMode_eq]

/-- The effect of `clearError` on the safety record. -/
theorem SafetyManager.clearError_spec (s : System) :
    SafetyManager.SameInputs s (SafetyManager.clearError s) ∧
    (SafetyManager.clearError s).safetyManager.safetyData.error = ErrorCode.NONE ∧
    (SafetyManager.clearError s).safetyManager.safetyData.mode = SafetyMode.NORMAL := by
  refine ⟨⟨rfl, rfl, rfl, rfl, rfl, rfl, ?_⟩, ?_, ?_⟩ <;>
    simp [SafetyManager.clearError, SafetyManager.setData,
      SafetyManager.updateSafetyMode_eq, SafetyManager.severityTable]

theorem SafetyManager.SameInputs.refl (s : System) : SafetyManager.SameInputs s s :=
  ⟨rfl, rfl, rfl, rfl, rfl, rfl, rfl⟩

theorem SafetyManager.SameInputs.trans {s t u : System}
    (h1 : SafetyManager.SameInputs s t) (h2 : SafetyManager.SameInputs t u) :
    SafetyManager.SameInputs s u := by
  obtain ⟨a1, a2, a3, a4, a5, a6, a7⟩ := h1
  obtain ⟨b1, b2, b3, b4, b5, b6, b7⟩ := h2
  exact ⟨b1.trans a1, b2.trans a2, b3.trans a3, b4.trans a4, b5.trans a5, b6.trans a6,
    b7.trans a7⟩

/-- The battery step stores the placeholder reading (75 % remaining) and
leaves the error code alone. -/
theorem SafetyManager.updateBatteryStatus_spec (s : System) :
    SafetyManager.updateBatteryStatus s =
      SafetyManager.setData s { s.safetyManager.safetyData with battery :=
        { voltage := 11.8, current := 5.2, remaining := 75, temperature := 25 } } := by
  simp only [SafetyManager.updateBatteryStatus, SafetyManager.setData,
    SafetyManager.CRITICAL_BATTERY_THRESHOLD, SafetyManager.LOW_BATTERY_THRESHOLD]
  norm_num

/-- The GPS step. -/
theorem SafetyManager.updateGpsStatus_spec (s : System) :
    SafetyManager.SameInputs s (SafetyManager.updateGpsStatus s) ∧
    (SafetyManager.updateGpsStatus s).safetyManager.safetyData.error =
      (if s.gps.data.status = GpsStatus.NO_FIX then
        (if s.safetyManager.safetyData.error = ErrorCode.NONE then ErrorCode.GPS_LOST
          else s.safetyManager.safetyData.error)
      else (if s.safetyManager.safetyData.error = ErrorCode.GPS_LOST then ErrorCode.NONE
          else s.safetyManager.safetyData.error)) := by
  unfold SafetyManager.updateGpsStatus
  simp only [Gps.getData, SafetyManager.setData]
  split_ifs with h1 h2 h3 <;>
    first
      | exact ⟨(SafetyManager.setError_spec _ _).1, (SafetyManager.setError_spec _ _).2.1⟩
      | exact ⟨(SafetyManager.clearError_spec _).1, (SafetyManager.clearError_spec _).2.1⟩
      | exact ⟨⟨rfl, rfl, rfl, rfl, rfl, rfl, rfl⟩, rfl⟩

/-- The radio step. -/
theorem SafetyManager.updateRadioStatus_spec (s : System) :
    SafetyManager.SameInputs s (SafetyManager.updateRadioStatus s) ∧
    (SafetyManager.updateRadioStatus s).safetyManager.safetyData.error =
      (if s.radio.status = RadioStatus.DISCONNECTED ∨ s.radio.status = RadioStatus.ERROR then
        (if s.safetyManager.safetyData.error = ErrorCode.NONE then
          ErrorCode.COMMUNICATION_ERROR
          else s.safetyManager.safetyData.error)
      else (if s.safetyManager.safetyData.error = ErrorCode.COMMUNICATION_ERROR then
          ErrorCode.NONE
          else s.safetyManager.safetyData.error)) := by
  unfold SafetyManager.updateRadioStatus
  simp only [Radio.getStatus, SafetyManager.setData]
  split_ifs with h1 h2 h3 <;>
    first
      | exact ⟨(SafetyManager.setError_spec _ _).1, (SafetyManager.setError_spec _ _).2.1⟩
      | exact ⟨(SafetyManager.clearError_spec _).1, (SafetyManager.clearError_spec _).2.1⟩
      | exact ⟨⟨rfl, rfl, rfl, rfl, rfl, rfl, rfl⟩, rfl⟩

/-- The sensor (IMU) step. -/
theorem SafetyManager.updateSensorStatus_spec (s : System) :
    SafetyManager.SameInputs s (SafetyManager.updateSensorStatus s) ∧
    (SafetyManager.updateSensorStatus s).safetyManager.safetyData.error =
      (if s.imu.data.status = ImuStatus.ERROR then
        (if s.safetyManager.safetyData.error = ErrorCode.NONE then ErrorCode.IMU_ERROR
          else s.safetyManager.safetyData.error)
      else (if s.safetyManager.safetyData.error = ErrorCode.IMU_ERROR then ErrorCode.NONE
          else s.safetyManager.safetyData.error)) := by
  unfold SafetyManager.updateSensorStatus
  simp only [Imu.getData, SafetyManager.setData]
  split_ifs with h1 h2 h3 <;>
    first
      | exact ⟨(SafetyManager.setError_spec _ _).1, (SafetyManager.setError_spec _ _).2.1⟩
      | exact ⟨(SafetyManager.clearError_spec _).1, (SafetyManager.clearError_spec _).2.1⟩
      | exact ⟨⟨rfl, rfl, rfl, rfl, rfl, rfl, rfl⟩, rfl⟩

/-- The motor step. -/
theorem SafetyManager.updateMotorStatus_spec (s : System) :
    SafetyManager.SameInputs s (SafetyManager.updateMotorStatus s) ∧
    (SafetyManager.updateMotorStatus s).safetyManager.safetyData.error =
      (if SafetyManager.motorFault s && s.safetyManager.safetyData.error == ErrorCode.NONE then
        ErrorCode.MOTOR_ERROR
      else if !SafetyManager.motorFault s &&
          s.safetyManager.safetyData.error == ErrorCode.MOTOR_ERROR then ErrorCode.NONE
      else s.safetyManager.safetyData.error) := by
  have hm : ([MotorPosition.FRONT_LEFT, MotorPosition.FRONT_RIGHT, MotorPosition.REAR_LEFT,
      MotorPosition.REAR_RIGHT].any fun position =>
        (s.motorController.getMotor position).getStatus == MotorStatus.ERROR)
      = SafetyManager.motorFault s := rfl
  unfold SafetyManager.updateMotorStatus
  simp only [SafetyManager.setData, hm]
  split_ifs with h1 h2 <;>
    first
      | exact ⟨(SafetyManager.setError_spec _ _).1, (SafetyManager.setError_spec _ _).2.1⟩
      | exact ⟨(SafetyManager.clearError_spec _).1, (SafetyManager.clearError_spec _).2.1⟩
      | exact ⟨⟨rfl, rfl, rfl, rfl, rfl, rfl, rfl⟩, rfl⟩

/-- The target step. -/
theorem SafetyManager.updateTargetStatus_spec (s : System) :
    SafetyManager.SameInputs s (SafetyManager.updateTargetStatus s) ∧
    (SafetyManager.updateTargetStatus s).safetyManager.safetyData.error =
      (if !decide (s.targetDetection.targetData.status = TargetStatus.TARGET_LOST ∨
            s.targetDetection.targetData.status = TargetStatus.NO_TARGET) &&
          s.safetyManager.safetyData.error == ErrorCode.TARGET_LOST then ErrorCode.NONE
      else s.safetyManager.safetyData.error) := by
  unfold SafetyManager.updateTargetStatus
  simp only [TargetDetection.getTargetData, SafetyManager.setData]
  split_ifs with h1 <;>
    first
      | exact ⟨(SafetyManager.clearError_spec _).1, (SafetyManager.clearError_spec _).2.1⟩
      | exact ⟨⟨rfl, rfl, rfl, rfl, rfl, rfl, rfl⟩, rfl⟩

/-- What `SafetyManager::update` does on an initialised manager: it returns
true, leaves the other singletons alone, stores the placeholder battery
reading (75 % remaining), moves the error code as `errorAfterUpdate` says,
and stores the mode of the severity table for the resulting error code. -/
theorem SafetyManager.update_spec (s : System) (h : s.safetyManager.initialized = true) :
    (SafetyManager.update s).1 = true ∧
    (SafetyManager.update s).2.gps = s.gps ∧
    (SafetyManager.update s).2.radio = s.radio ∧
    (SafetyManager.update s).2.imu = s.imu ∧
    (SafetyManager.update s).2.motorController = s.motorController ∧
    (SafetyManager.update s).2.targetDetection = s.targetDetection ∧
    (SafetyManager.update s).2.safetyManager.safetyData.battery.remaining = 75 ∧
    (SafetyManager.update s).2.safetyManager.safetyData.error =
      SafetyManager.errorAfterUpdate s.safetyManager.safetyData.error
        (decide (s.gps.data.status = GpsStatus.NO_FIX))
        (decide (s.radio.status = RadioStatus.DISCONNECTED ∨
                 s.radio.status = RadioStatus.ERROR))
        (decide (s.imu.data.status = ImuStatus.ERROR))
        (SafetyManager.motorFault s)
        (decide (s.targetDetection.targetData.status = TargetStatus.TARGET_LOST ∨
                 s.targetDetection.targetData.status = TargetStatus.NO_TARGET)) ∧
    (SafetyManager.update s).2.safetyManager.safetyData.mode =
      SafetyManager.severityTable
        (SafetyManager.update s).2.safetyManager.safetyData.error 75 := by
  have hb := SafetyManager.updateBatteryStatus_spec s
  obtain ⟨f1, e1⟩ := SafetyManager.updateGpsStatus_spec (SafetyManager.updateBatteryStatus s)
  obtain ⟨f2, e2⟩ := SafetyManager.updateRadioStatus_spec
    (SafetyManager.updateGpsStatus (SafetyManager.updateBatteryStatus s))
  obtain ⟨f3, e3⟩ := SafetyManager.updateSensorStatus_spec
    (SafetyManager.updateRadioStatus
      (SafetyManager.updateGpsStatus (SafetyManager.updateBatteryStatus s)))
  obtain ⟨f4, e4⟩ := SafetyManager.updateMotorStatus_spec
    (SafetyManager.updateSensorStatus (SafetyManager.updateRadioStatus
      (SafetyManager.updateGpsStatus (SafetyManager.updateBatteryStatus s))))
  obtain ⟨f5, e5⟩ := SafetyManager.updateTargetStatus_spec
    (SafetyManager.updateMotorStatus
      (SafetyManager.updateSensorStatus (SafetyManager.updateRadioStatus
        (SafetyManager.updateGpsStatus (SafetyManager.updateBatteryStatus s)))))
  generalize hs0 : SafetyManager.updateBatteryStatus s = s0 at hb f1 e1 f2 e2 f3 e3 f4 e4 f5 e5
  generalize hs1 : SafetyManager.updateGpsStatus s0 = s1 at f1 e1 f2 e2 f3 e3 f4 e4 f5 e5
  generalize hs2 : SafetyManager.updateRadioStatus s1 = s2 at f2 e2 f3 e3 f4 e4 f5 e5
  generalize hs3 : SafetyManager.updateSensorStatus s2 = s3 at f3 e3 f4 e4 f5 e5
  generalize hs4 : SafetyManager.updateMotorStatus s3 = s4 at f4 e4 f5 e5
  generalize hs5 : SafetyManager.updateTargetStatus s4 = s5 at f5 e5
  have hupd : SafetyManager.update s =
      (true, SafetyManager.setData s5
        (SafetyManager.updateSafetyMode s5.safetyManager.safetyData)) := by
    simp only [SafetyManager.update, h, Bool.not_true, Bool.false_eq_true, if_false]
    simp only [hs0, hs1, hs2, hs3, hs4, hs5]
  have g1 := f1
  have g2 := SafetyManager.SameInputs.trans g1 f2
  have g3 := SafetyManager.SameInputs.trans g2 f3
  have g4 := SafetyManager.SameInputs.trans g3 f4
  have g5 := SafetyManager.SameInputs.trans g4 f5
  have h0gps : s0.gps = s.gps := by rw [hb]; rfl
  have h0radio : s0.radio = s.radio := by rw [hb]; rfl
  have h0imu : s0.imu = s.imu := by rw [hb]; rfl
  have h0mc : s0.motorController = s.motorController := by rw [hb]; rfl
  have h0td : s0.targetDetection = s.targetDetection := by rw [hb]; rfl
  have h0err : s0.safetyManager.safetyData.error = s.safetyManager.safetyData.error := by
    rw [hb]; rfl
  have h0bat : s0.safetyManager.safetyData.battery.remaining = 75 := by rw [hb]; rfl
  have hmf : ∀ a b : System, a.motorController = b.motorController →
      SafetyManager.motorFault a = SafetyManager.motorFault b := by
    intro a b hab
    simp only [SafetyManager.motorFault, hab]
  rw [hupd, SafetyManager.updateSafetyMode_eq]
  refine ⟨rfl, g5.1.trans h0gps, g5.2.1.trans h0radio, g5.2.2.1.trans h0imu,
    g5.2.2.2.1.trans h0mc, g5.2.2.2.2.1.trans h0td, ?_, ?_, ?_⟩
  · show s5.safetyManager.safetyData.battery.remaining = 75
    rw [g5.2.2.2.2.2.2, h0bat]
  · show s5.safetyManager.safetyData.error = _
    rw [e5, e4, e3, e2, e1, h0err, g4.2.2.2.2.1, g2.2.2.1, g1.2.1, h0gps, h0radio, h0imu,
      h0td, hmf s3 s (g3.2.2.2.1.trans h0mc)]
    simp only [SafetyManager.errorAfterUpdate, decide_eq_true_eq]
  · show SafetyManager.severityTable s5.safetyManager.safetyData.error
        s5.safetyManager.safetyData.battery.remaining = _
    rw [g5.2.2.2.2.2.2, h0bat]
    rfl

/-- The health checks never raise `LOW_BATTERY`: it is the error after an
update only if it was the error before. -/
theorem SafetyManager.errorAfterUpdate_eq_lowBattery (error : ErrorCode)
    (gpsNoFix radioDown imuError motorError targetLost : Bool)
    (h : SafetyManager.errorAfterUpdate error gpsNoFix radioDown imuError motorError targetLost
      = ErrorCode.LOW_BATTERY) : error = ErrorCode.LOW_BATTERY := by
  cases error <;> cases gpsNoFix <;> cases radioDown <;> cases imuError <;>
    cases motorError <;> cases targetLost <;>
    first
      | rfl
      | exact absurd h (by decide)

/-- With no error active before, or one that no later check clears, a fault
found by the GPS, radio, IMU or motor check leaves an error active. -/
theorem SafetyManager.errorAfterUpdate_ne_none (error : ErrorCode)
    (gpsNoFix radioDown imuError motorError targetLost : Bool)
    (herr : error = ErrorCode.NONE ∨ error = ErrorCode.GPS_LOST ∨
      error = ErrorCode.INIT_FAILED ∨ error = ErrorCode.SENSOR_ERROR ∨
      error = ErrorCode.LOW_BATTERY ∨ error = ErrorCode.GEOFENCE_BREACH ∨
      error = ErrorCode.ALTITUDE_BREACH)
    (hfault : gpsNoFix = true ∨ radioDown = true ∨ imuError = true ∨ motorError = true) :
    SafetyManager.errorAfterUpdate error gpsNoFix radioDown imuError motorError targetLost
      ≠ ErrorCode.NONE := by
  rcases herr with h | h | h | h | h | h | h <;> subst h <;>
    cases gpsNoFix <;> cases radioDown <;> cases imuError <;>
    cases motorError <;> cases targetLost <;>
    first
      | decide
      | simp at hfault

/-- The severity table gives `NORMAL` only without an error. -/
theorem SafetyManager.severityTable_eq_normal (error : ErrorCode) (remaining : Float32) :
    SafetyManager.severityTable error remaining = SafetyMode.NORMAL ↔
      error = ErrorCode.NONE := by
  cases error <;> simp [SafetyManager.severityTable]
  split_ifs <;> simp

/-- Some motor reports `ERROR` exactly when the loop of `updateMotorStatus`
finds one. -/
theorem SafetyManager.motorFault_iff (s : System) :
    SafetyManager.motorFault s = true ↔
      ∃ position : MotorPosition,
        (s.motorController.getMotor position).status = MotorStatus.ERROR := by
  simp only [SafetyManager.motorFault, List.any_cons, List.any_nil, Bool.or_false,
    Bool.or_eq_true, beq_iff_eq, Motor.getStatus]
  constructor
  · rintro (h | h | h | h) <;> exact ⟨_, h⟩
  · rintro ⟨position, h⟩
    cases position <;> simp [h]

/-- C11, counterexample: an initialised manager with no error active, every
subsystem healthy and a stored battery level of 5 % (respectively 15 %) comes
out of `update()` with no error and mode `NORMAL`, the level overwritten by
the fixed reading of 75 %: neither `LOW_BATTERY` with `CRITICAL` nor `WARNING`
results. -/
theorem C11_counterexample :
    (lowBatteryBench 5).safetyManager.safetyData.battery.remaining = 5 ∧
    (lowBatteryBench 5).safetyManager.safetyData.error = ErrorCode.NONE ∧
    (SafetyManager.update (lowBatteryBench 5)).1 = true ∧
    (SafetyManager.update (lowBatteryBench 5)).2.safetyManager.safetyData.error = ErrorCode.NONE ∧
    (SafetyManager.update (lowBatteryBench 5)).2.safetyManager.safetyData.mode = SafetyMode.NORMAL ∧
    (SafetyManager.update (lowBatteryBench 5)).2.safetyManager.safetyData.battery.remaining = 75 ∧
    (SafetyManager.update (lowBatteryBench 15)).2.safetyManager.safetyData.mode
      = SafetyMode.NORMAL := by
  obtain ⟨h1, -, -, -, -, -, h7, h8, h9⟩ := SafetyManager.update_spec
    (lowBatteryBench 5) rfl
  obtain ⟨-, -, -, -, -, -, -, k8, k9⟩ := SafetyManager.update_spec
    (lowBatteryBench 15) rfl
  have e5 : (SafetyManager.update (lowBatteryBench 5)).2.safetyManager.safetyData.error
      = ErrorCode.NONE := h8.trans (by decide)
  have e15 : (SafetyManager.update (lowBatteryBench 15)).2.safetyManager.safetyData.error
      = ErrorCode.NONE := k8.trans (by decide)
  refine ⟨rfl, rfl, h1, e5, ?_, h7, ?_⟩
  · rw [h9, e5]; rfl
  · rw [k9, e15]; rfl

/-- C11, amended: after `setError(e)` the error is `e` and the mode is the one
the severity table gives for `e` and the stored battery level; after
`clearError()` the error is `NONE` and the mode `NORMAL`. An `update()` of an
initialised manager returns true, stores a battery level of 75 %, ends in the
mode the table gives for the resulting error at that level, and never raises
`LOW_BATTERY`: that error is active afterwards only if it was active before. -/
theorem C11_severity_table :
    (∀ (s : System) (e : ErrorCode),
      (SafetyManager.setError s e).safetyManager.safetyData.error = e ∧
      (SafetyManager.setError s e).safetyManager.safetyData.mode =
        SafetyManager.severityTable e s.safetyManager.safetyData.battery.remaining) ∧
    (∀ s : System,
      (SafetyManager.clearError s).safetyManager.safetyData.error = ErrorCode.NONE ∧
      (SafetyManager.clearError s).safetyManager.safetyData.mode = SafetyMode.NORMAL ∧
      SafetyManager.severityTable ErrorCode.NONE
        s.safetyManager.safetyData.battery.remaining = SafetyMode.NORMAL) ∧
    (∀ s : System, s.safetyManager.initialized = true →
      (SafetyManager.update s).1 = true ∧
      (SafetyManager.update s).2.safetyManager.safetyData.battery.remaining = 75 ∧
      (SafetyManager.update s).2.safetyManager.safetyData.mode =
        SafetyManager.severityTable
          (SafetyManager.update s).2.safetyManager.safetyData.error 75 ∧
      ((SafetyManager.update s).2.safetyManager.safetyData.error = ErrorCode.LOW_BATTERY →
        s.safetyManager.safetyData.error = ErrorCode.LOW_BATTERY)) := by
  refine ⟨fun s e => (SafetyManager.setError_spec s e).2, fun s => ?_, fun s h => ?_⟩
  · exact ⟨(SafetyManager.clearError_spec s).2.1, (SafetyManager.clearError_spec s).2.2, rfl⟩
  · obtain ⟨h1, -, -, -, -, -, h7, h8, h9⟩ := SafetyManager.update_spec s h
    refine ⟨h1, h7, h9, fun hl => ?_⟩
    rw [h8] at hl
    exact SafetyManager.errorAfterUpdate_eq_lowBattery _ _ _ _ _ _ hl

/-- C11, instance: with a stored level of 5 % `setError(LOW_BATTERY)` gives
mode `CRITICAL`, with 15 % it gives `WARNING`; and the update of the healthy
initialised bench state returns true and stores 75 %. -/
theorem C11_severity_table_witness :
    (SafetyManager.setError (lowBatteryBench 5)
        ErrorCode.LOW_BATTERY).safetyManager.safetyData.mode = SafetyMode.CRITICAL ∧
    (SafetyManager.setError (lowBatteryBench 15)
        ErrorCode.LOW_BATTERY).safetyManager.safetyData.mode = SafetyMode.WARNING ∧
    (SafetyManager.update (lowBatteryBench 5)).1 = true ∧
    (SafetyManager.update (lowBatteryBench 5)).2.safetyManager.safetyData.battery.remaining
      = 75 := by
  refine ⟨?_, ?_, ?_, ?_⟩
  · rw [(C11_severity_table.1 _ ErrorCode.LOW_BATTERY).2]
    simp [SafetyManager.severityTable, safetyBench, lowBatteryBench]
    norm_num
  · rw [(C11_severity_table.1 _ ErrorCode.LOW_BATTERY).2]
    simp [SafetyManager.severityTable, safetyBench, lowBatteryBench]
    norm_num
  · exact (C11_severity_table.2.2 _ rfl).1
  · exact (C11_severity_table.2.2 _ rfl).2.1

/-- C12, counterexample: an initialised manager whose active error is the stale
`COMMUNICATION_ERROR` of an earlier radio outage, with the radio connected
again and the GPS at `NO_FIX`: `update()` returns true and leaves no error and
mode `NORMAL`, so `isSafe()` is true although the GPS has no fix. -/
theorem C12_counterexample :
    staleErrorBench.gps.data.status
      = GpsStatus.NO_FIX ∧
    (SafetyManager.update staleErrorBench).1 = true ∧
    (SafetyManager.update staleErrorBench).2.gps.data.status
      = GpsStatus.NO_FIX ∧
    (SafetyManager.update staleErrorBench).2.safetyManager.safetyData.mode = SafetyMode.NORMAL ∧
    (SafetyManager.update staleErrorBench).2.safetyManager.isSafe = true := by
  obtain ⟨h1, h2, -, -, -, -, -, h8, h9⟩ := SafetyManager.update_spec
    staleErrorBench rfl
  have e : (SafetyManager.update staleErrorBench).2.safetyManager.safetyData.error
      = ErrorCode.NONE := h8.trans (by decide)
  have m : (SafetyManager.update staleErrorBench).2.safetyManager.safetyData.mode
      = SafetyMode.NORMAL := by rw [h9, e]; rfl
  refine ⟨rfl, h1, ?_, m, ?_⟩
  · rw [h2]; rfl
  · simp [SafetyManager.isSafe, m]

/-- C12, amended: when the error active before the update is `NONE`, `GPS_LOST`
or one that `update()` never clears (`INIT_FAILED`, `SENSOR_ERROR`,
`LOW_BATTERY`, `GEOFENCE_BREACH`, `ALTITUDE_BREACH`), and `update()` returns
true with the GPS at `NO_FIX`, or the radio `DISCONNECTED` or in `ERROR`, or
the IMU in `ERROR`, or some motor in `ERROR`, then an error is active
afterwards, the mode is not `NORMAL` and `isSafe()` is false. -/
theorem C12_degraded_not_normal (s : System)
    (hret : (SafetyManager.update s).1 = true)
    (herr : s.safetyManager.safetyData.error = ErrorCode.NONE ∨
      s.safetyManager.safetyData.error = ErrorCode.GPS_LOST ∨
      s.safetyManager.safetyData.error = ErrorCode.INIT_FAILED ∨
      s.safetyManager.safetyData.error = ErrorCode.SENSOR_ERROR ∨
      s.safetyManager.safetyData.error = ErrorCode.LOW_BATTERY ∨
      s.safetyManager.safetyData.error = ErrorCode.GEOFENCE_BREACH ∨
      s.safetyManager.safetyData.error = ErrorCode.ALTITUDE_BREACH)
    (hdeg : s.gps.data.status = GpsStatus.NO_FIX ∨
      s.radio.status = RadioStatus.DISCONNECTED ∨
      s.radio.status = RadioStatus.ERROR ∨
      s.imu.data.status = ImuStatus.ERROR ∨
      ∃ position : MotorPosition,
        (s.motorController.getMotor position).status = MotorStatus.ERROR) :
    (SafetyManager.update s).2.gps = s.gps ∧
    (SafetyManager.update s).2.radio = s.radio ∧
    (SafetyManager.update s).2.imu = s.imu ∧
    (SafetyManager.update s).2.motorController = s.motorController ∧
    (SafetyManager.update s).2.safetyManager.safetyData.error ≠ ErrorCode.NONE ∧
    (SafetyManager.update s).2.safetyManager.safetyData.mode ≠ SafetyMode.NORMAL ∧
    (SafetyManager.update s).2.safetyManager.isSafe = false := by
  have hinit : s.safetyManager.initialized = true := by
    cases hi : s.safetyManager.initialized
    · simp [SafetyManager.update, hi] at hret
    · rfl
  obtain ⟨-, h2, h3, h4, h5, -, -, h8, h9⟩ := SafetyManager.update_spec s hinit
  have he : (SafetyManager.update s).2.safetyManager.safetyData.error ≠ ErrorCode.NONE := by
    rw [h8]
    apply SafetyManager.errorAfterUpdate_ne_none _ _ _ _ _ _ herr
    rcases hdeg with h | h | h | h | h
    · exact Or.inl (by simp [h])
    · exact Or.inr (Or.inl (by simp [h]))
    · exact Or.inr (Or.inl (by simp [h]))
    · exact Or.inr (Or.inr (Or.inl (by simp [h])))
    · exact Or.inr (Or.inr (Or.inr ((SafetyManager.motorFault_iff s).2 h)))
  have hm : (SafetyManager.update s).2.safetyManager.safetyData.mode ≠ SafetyMode.NORMAL := by
    rw [h9]
    exact fun hn => he ((SafetyManager.severityTable_eq_normal _ _).1 hn)
  refine ⟨h2, h3, h4, h5, he, hm, ?_⟩
  simp [SafetyManager.isSafe, hm]

/-- C12, instance: the healthy initialised bench state with the GPS at `NO_FIX`
and no error active before. -/
theorem C12_degraded_not_normal_witness :
    (SafetyManager.update noFixBench).1 = true ∧
    (SafetyManager.update noFixBench).2.safetyManager.safetyData.mode ≠ SafetyMode.NORMAL ∧
    (SafetyManager.update noFixBench).2.safetyManager.isSafe = false :=
  have hret := (SafetyManager.update_spec noFixBench rfl).1
  have h := C12_degraded_not_normal noFixBench hret (Or.inl rfl) (Or.inl rfl)
  ⟨hret, h.2.2.2.2.2.1, h.2.2.2.2.2.2⟩

/-! ## Target detection -/

/-- Two consecutive readings of the tick counter are 10 ms apart in 32-bit
arithmetic. -/
theorem sub32_consecutive_ticks (t : Nat) :
    sub32 (wrap32 (wrap32 (t + SYSTEM_TICK_MS) + SYSTEM_TICK_MS))
      (wrap32 (t + SYSTEM_TICK_MS)) = 10 := by
  simp only [sub32, wrap32, SYSTEM_TICK_MS]
  omega

/-- When `elapsed + 10` fits in 32 bits, the next reading of the tick counter
is that far from the reference time. -/
theorem sub32_next_tick (t last : Nat) (h : sub32 t last + 10 < 2 ^ 32) :
    sub32 (wrap32 (t + SYSTEM_TICK_MS)) last = sub32 t last + 10 := by
  simp only [sub32, wrap32, SYSTEM_TICK_MS] at h ⊢
  omega

/-- The vector update keeps the detector initialised and leaves status,
confidence, type and position of the target, and the GPS, alone. -/
theorem TargetDetection.updateTargetVectors_frame (math : FloatMath) (s : System) :
    (TargetDetection.updateTargetVectors math s).targetDetection.initialized
      = s.targetDetection.initialized ∧
    (TargetDetection.updateTargetVectors math s).targetDetection.targetData.status
      = s.targetDetection.targetData.status ∧
    (TargetDetection.updateTargetVectors math s).targetDetection.targetData.confidence
      = s.targetDetection.targetData.confidence ∧
    (TargetDetection.updateTargetVectors math s).targetDetection.targetData.type
      = s.targetDetection.targetData.type ∧
    (TargetDetection.updateTargetVectors math s).targetDetection.targetData.position
      = s.targetDetection.targetData.position ∧
    (TargetDetection.updateTargetVectors math s).gps = s.gps := by
  unfold TargetDetection.updateTargetVectors
  dsimp only
  split_ifs <;> simp [TargetDetection.setData, getTicks]

/-- Outside `TARGET_LOCKED` and `TARGET_ACQUIRING` the vector update leaves
the time stamp of the target alone. -/
theorem TargetDetection.updateTargetVectors_lastUpdateTime (math : FloatMath) (s : System)
    (h1 : s.targetDetection.targetData.status ≠ TargetStatus.TARGET_LOCKED)
    (h2 : s.targetDetection.targetData.status ≠ TargetStatus.TARGET_ACQUIRING) :
    (TargetDetection.updateTargetVectors math s).targetDetection.targetData.lastUpdateTime
      = s.targetDetection.targetData.lastUpdateTime ∧
    (TargetDetection.updateTargetVectors math s).rtos = s.rtos := by
  unfold TargetDetection.updateTargetVectors
  dsimp only
  rw [if_neg (not_or.2 ⟨h1, h2⟩)]
  split_ifs <;> simp [TargetDetection.setData]

/-- With no target, the synthetic detection reports success and places a
static target of confidence 20 north of the drone. -/
theorem TargetDetection.detect_of_no_target (env : Env) (s : System)
    (h : s.targetDetection.targetData.status = TargetStatus.NO_TARGET) :
    (TargetDetection.detectTargetWithSensors env s).1 = true ∧
    (TargetDetection.detectTargetWithSensors env s).2.targetDetection.initialized
      = s.targetDetection.initialized ∧
    (TargetDetection.detectTargetWithSensors env s).2.targetDetection.targetData.status
      = TargetStatus.NO_TARGET ∧
    (TargetDetection.detectTargetWithSensors env s).2.targetDetection.targetData.confidence
      = 20 ∧
    (TargetDetection.detectTargetWithSensors env s).2.targetDetection.targetData.type
      = TargetType.STATIC ∧
    (TargetDetection.detectTargetWithSensors env s).2.targetDetection.targetData.position
      = { s.gps.data.position with latitude := s.gps.data.position.latitude + 0.005 } ∧
    (TargetDetection.detectTargetWithSensors env s).2.gps = s.gps := by
  unfold TargetDetection.detectTargetWithSensors
  dsimp only
  split_ifs <;> simp_all [TargetDetection.setData, getTicks, Gps.getData]

/-- With a target record in any other status, the detection returns the draw,
moves the confidence up by 5 (capped at 100) or down by 10 (floored at 0),
and stamps the record with the new tick. -/
theorem TargetDetection.detect_of_target (env : Env) (s : System)
    (h : s.targetDetection.targetData.status ≠ TargetStatus.NO_TARGET) :
    (TargetDetection.detectTargetWithSensors env s).1
      = decide (env.rand s.randCalls % 100 < 75) ∧
    (TargetDetection.detectTargetWithSensors env s).2.targetDetection.initialized
      = s.targetDetection.initialized ∧
    (TargetDetection.detectTargetWithSensors env s).2.targetDetection.targetData.status
      = s.targetDetection.targetData.status ∧
    (TargetDetection.detectTargetWithSensors env s).2.targetDetection.targetData.confidence
      = (if env.rand s.randCalls % 100 < 75 then
          (if s.targetDetection.targetData.confidence + 5 > 100 then 100
           else s.targetDetection.targetData.confidence + 5)
        else
          (if s.targetDetection.targetData.confidence - 10 < 0 then 0
           else s.targetDetection.targetData.confidence - 10)) ∧
    (TargetDetection.detectTargetWithSensors env s).2.targetDetection.targetData.lastUpdateTime
      = wrap32 (s.rtos.tickCount + SYSTEM_TICK_MS) ∧
    (TargetDetection.detectTargetWithSensors env s).2.rtos.tickCount
      = wrap32 (s.rtos.tickCount + SYSTEM_TICK_MS) := by
  unfold TargetDetection.detectTargetWithSensors
  dsimp only
  by_cases hd : env.rand s.randCalls % 100 < 75
  · simp [hd, h, TargetDetection.setData, getTicks, Rtos.getTicks]
  · simp [hd, h, TargetDetection.setData, getTicks, Rtos.getTicks]

/-- The first update of an initialised detector without a target. -/
theorem TargetDetection.update_of_no_target (env : Env) (s : System)
    (hi : s.targetDetection.initialized = true)
    (hs : s.targetDetection.targetData.status = TargetStatus.NO_TARGET) :
    (TargetDetection.update env s).1 = true ∧
    (TargetDetection.update env s).2.targetDetection.initialized = true ∧
    (TargetDetection.update env s).2.targetDetection.targetData.status
      = TargetStatus.TARGET_ACQUIRING ∧
    (TargetDetection.update env s).2.targetDetection.targetData.confidence = 20 ∧
    (TargetDetection.update env s).2.targetDetection.targetData.type = TargetType.STATIC ∧
    (TargetDetection.update env s).2.targetDetection.targetData.position
      = { s.gps.data.position with latitude := s.gps.data.position.latitude + 0.005 } := by
  obtain ⟨d1, d2, -, d4, d5, d6, -⟩ := TargetDetection.detect_of_no_target env s hs
  simp [TargetDetection.update, hi, hs, d1, d2, d4, d5, d6,
    TargetDetection.updateTargetVectors_frame, TargetDetection.setData]

/-- An update in `TARGET_ACQUIRING` whose draw detects. -/
theorem TargetDetection.update_of_acquiring (env : Env) (s : System)
    (hi : s.targetDetection.initialized = true)
    (hs : s.targetDetection.targetData.status = TargetStatus.TARGET_ACQUIRING)
    (hd : env.rand s.randCalls % 100 < 75) :
    (TargetDetection.update env s).1 = true ∧
    (TargetDetection.update env s).2.targetDetection.initialized = true ∧
    (TargetDetection.update env s).2.targetDetection.targetData.confidence
      = (if s.targetDetection.targetData.confidence + 5 > 100 then 100
         else s.targetDetection.targetData.confidence + 5) ∧
    (TargetDetection.update env s).2.targetDetection.targetData.status
      = (if (TargetDetection.update env s).2.targetDetection.targetData.confidence ≥ 70
         then TargetStatus.TARGET_LOCKED else TargetStatus.TARGET_ACQUIRING) := by
  obtain ⟨-, d2, d3, d4, -, -⟩ := TargetDetection.detect_of_target env s (by simp [hs])
  rw [if_pos hd] at d4
  rw [hs] at d3
  simp only [TargetDetection.update, hi, hs, Bool.not_true, Bool.false_eq_true, if_false,
    TargetDetection.MIN_CONFIDENCE_THRESHOLD, TargetDetection.updateTargetVectors_frame]
  split_ifs with h1 h2 h2 <;>
    simp_all [TargetDetection.setData]

/-- While every draw detects, the updates after the first one climb from
confidence 20 in steps of 5, staying in `TARGET_ACQUIRING` below 70. -/
theorem TargetDetection.updates_climb (env : Env) (s : System)
    (hi : s.targetDetection.initialized = true)
    (hs : s.targetDetection.targetData.status = TargetStatus.NO_TARGET)
    (hd : ∀ i : Nat, env.rand i % 100 < 75) (k : Nat) (hk : k ≤ 9) :
    (TargetDetection.updates env (k + 1) s).targetDetection.initialized = true ∧
    (TargetDetection.updates env (k + 1) s).targetDetection.targetData.status
      = TargetStatus.TARGET_ACQUIRING ∧
    (TargetDetection.updates env (k + 1) s).targetDetection.targetData.confidence
      = 20 + 5 * (k : Float32) := by
  induction k with
  | zero =>
    obtain ⟨-, h2, h3, h4, -, -⟩ := TargetDetection.update_of_no_target env s hi hs
    refine ⟨h2, h3, ?_⟩
    simp only [TargetDetection.updates]
    rw [h4]
    simp
  | succ k ih =>
    obtain ⟨i1, i2, i3⟩ := ih (by omega)
    obtain ⟨-, h2, h3, h4⟩ := TargetDetection.update_of_acquiring env
      (TargetDetection.updates env (k + 1) s) i1 i2 (hd _)
    have hk8 : (k : Float32) ≤ 8 := by
      have : k ≤ 8 := by omega
      exact_mod_cast this
    have hc : (TargetDetection.updates env (k + 1 + 1) s).targetDetection.targetData.confidence
        = 20 + 5 * ((k + 1 : Nat) : Float32) := by
      show (TargetDetection.update env
        (TargetDetection.updates env (k + 1) s)).2.targetDetection.targetData.confidence = _
      rw [h3, i3, if_neg (by linarith)]
      push_cast
      ring
    refine ⟨h2, ?_, hc⟩
    show (TargetDetection.update env
      (TargetDetection.updates env (k + 1) s)).2.targetDetection.targetData.status = _
    rw [h4]
    have hc2 : (TargetDetection.update env
        (TargetDetection.updates env (k + 1) s)).2.targetDetection.targetData.confidence
        = 20 + 5 * ((k + 1 : Nat) : Float32) := hc
    rw [hc2, if_neg]
    push_cast
    linarith

/-- C18: on an initialised detector in `NO_TARGET`, `update()` returns true and
leaves status `TARGET_ACQUIRING`, confidence 20, type `STATIC` and the
position of the drone with the latitude raised by 0.005, whatever the draw.
An update in `TARGET_ACQUIRING` whose draw detects raises the confidence by
5, capped at 100, and leaves `TARGET_LOCKED` exactly when the new confidence
is at least 70. With every draw detecting, the updates after the first one
stay in `TARGET_ACQUIRING` with confidence 20 + 5k after k further updates
(k ≤ 9), and the tenth further update locks the target at confidence 70. -/
theorem C18_acquisition_to_lock :
    (∀ (env : Env) (s : System), s.targetDetection.initialized = true →
      s.targetDetection.targetData.status = TargetStatus.NO_TARGET →
      (TargetDetection.update env s).1 = true ∧
      (TargetDetection.update env s).2.targetDetection.targetData.status
        = TargetStatus.TARGET_ACQUIRING ∧
      (TargetDetection.update env s).2.targetDetection.targetData.confidence = 20 ∧
      (TargetDetection.update env s).2.targetDetection.targetData.type = TargetType.STATIC ∧
      (TargetDetection.update env s).2.targetDetection.targetData.position
        = { s.gps.data.position with latitude := s.gps.data.position.latitude + 0.005 }) ∧
    (∀ (env : Env) (s : System), s.targetDetection.initialized = true →
      s.targetDetection.targetData.status = TargetStatus.TARGET_ACQUIRING →
      env.rand s.randCalls % 100 < 75 →
      (TargetDetection.update env s).1 = true ∧
      (TargetDetection.update env s).2.targetDetection.targetData.confidence
        = (if s.targetDetection.targetData.confidence + 5 > 100 then 100
           else s.targetDetection.targetData.confidence + 5) ∧
      (TargetDetection.update env s).2.targetDetection.targetData.status
        = (if (TargetDetection.update env s).2.targetDetection.targetData.confidence ≥ 70
           then TargetStatus.TARGET_LOCKED else TargetStatus.TARGET_ACQUIRING)) ∧
    (∀ (env : Env) (s : System), s.targetDetection.initialized = true →
      s.targetDetection.targetData.status = TargetStatus.NO_TARGET →
      (∀ i : Nat, env.rand i % 100 < 75) →
      (∀ k : Nat, k ≤ 9 →
        (TargetDetection.updates env (k + 1) s).targetDetection.targetData.status
          = TargetStatus.TARGET_ACQUIRING ∧
        (TargetDetection.updates env (k + 1) s).targetDetection.targetData.confidence
          = 20 + 5 * (k : Float32)) ∧
      (TargetDetection.updates env 11 s).targetDetection.targetData.status
        = TargetStatus.TARGET_LOCKED ∧
      (TargetDetection.updates env 11 s).targetDetection.targetData.confidence = 70) := by
  refine ⟨fun env s hi hs => ?_, fun env s hi hs hd => ?_, fun env s hi hs hd => ?_⟩
  · obtain ⟨h1, -, h3, h4, h5, h6⟩ := TargetDetection.update_of_no_target env s hi hs
    exact ⟨h1, h3, h4, h5, h6⟩
  · obtain ⟨h1, -, h3, h4⟩ := TargetDetection.update_of_acquiring env s hi hs hd
    exact ⟨h1, h3, h4⟩
  · refine ⟨fun k hk => (TargetDetection.updates_climb env s hi hs hd k hk).2, ?_⟩
    obtain ⟨i1, i2, i3⟩ := TargetDetection.updates_climb env s hi hs hd 9 (le_refl 9)
    obtain ⟨-, -, h3, h4⟩ := TargetDetection.update_of_acquiring env
      (TargetDetection.updates env (9 + 1) s) i1 i2 (hd _)
    have hc : (TargetDetection.update env
        (TargetDetection.updates env (9 + 1) s)).2.targetDetection.targetData.confidence
        = 70 := by
      rw [h3, i3]
      norm_num
    refine ⟨?_, hc⟩
    show (TargetDetection.update env
      (TargetDetection.updates env (9 + 1) s)).2.targetDetection.targetData.status = _
    rw [h4, hc]
    norm_num

/-- C18, instance: the bench detector without a target, with every `rand()`
returning 0. -/
theorem C18_acquisition_to_lock_witness :
    (TargetDetection.update quietEnv (targetBench {} 0)).1 = true ∧
    (TargetDetection.update quietEnv (targetBench {} 0)).2.targetDetection.targetData.status
      = TargetStatus.TARGET_ACQUIRING ∧
    (TargetDetection.update quietEnv (targetBench {} 0)).2.targetDetection.targetData.confidence
      = 20 ∧
    (TargetDetection.updates quietEnv 10 (targetBench {} 0)).targetDetection.targetData.status
      = TargetStatus.TARGET_ACQUIRING ∧
    (TargetDetection.updates quietEnv 11 (targetBench {} 0)).targetDetection.targetData.status
      = TargetStatus.TARGET_LOCKED ∧
    (TargetDetection.updates quietEnv 11 (targetBench {} 0)).targetDetection.targetData.confidence
      = 70 :=
  have h1 := C18_acquisition_to_lock.1 quietEnv (targetBench {} 0) rfl rfl
  have h3 := C18_acquisition_to_lock.2.2 quietEnv (targetBench {} 0) rfl rfl
    (fun _ => (by decide : (0 : Nat) % 100 < 75))
  ⟨h1.1, h1.2.1, h1.2.2.1, (h3.1 9 (le_refl 9)).1, h3.2.1, h3.2.2⟩

/-- For a moving target the locked branch re-stamps the record before it
tests the age of the stamp, so the test sees an age of one tick and the
status is kept. -/
theorem TargetDetection.updateLocked_moving (math : FloatMath) (s : System)
    (ht : s.targetDetection.targetData.type = TargetType.MOVING) :
    (TargetDetection.updateLocked math s).targetDetection.initialized
      = s.targetDetection.initialized ∧
    (TargetDetection.updateLocked math s).targetDetection.targetData.status
      = s.targetDetection.targetData.status := by
  unfold TargetDetection.updateLocked
  simp [ht, TargetDetection.setData, getTicks, Rtos.getTicks, sub32_consecutive_ticks]

/-- For a target of another type the locked branch compares the next tick
with the stamp of the record. -/
theorem TargetDetection.updateLocked_fixed (math : FloatMath) (s : System)
    (ht : s.targetDetection.targetData.type ≠ TargetType.MOVING) :
    (TargetDetection.updateLocked math s).targetDetection.initialized
      = s.targetDetection.initialized ∧
    (TargetDetection.updateLocked math s).targetDetection.targetData.status
      = (if sub32 (wrap32 (s.rtos.tickCount + SYSTEM_TICK_MS))
            s.targetDetection.targetData.lastUpdateTime > 5000
         then TargetStatus.TARGET_LOST else s.targetDetection.targetData.status) := by
  unfold TargetDetection.updateLocked
  simp only [ht, if_false, getTicks, Rtos.getTicks]
  split_ifs <;> simp [TargetDetection.setData]

/-- C19: a `TARGET_LOCKED` target of type `MOVING` on an initialised detector
is still `TARGET_LOCKED` after `update()`, however long ago its
`lastUpdateTime` lies: the time-out never fires for it. A locked target of
another type whose `lastUpdateTime` lies more than 5000 ms back (and less than
a full 32-bit period minus one tick) is `TARGET_LOST` after the update. -/
theorem C19_moving_lock_never_times_out :
    (∀ (env : Env) (s : System), s.targetDetection.initialized = true →
      s.targetDetection.targetData.status = TargetStatus.TARGET_LOCKED →
      s.targetDetection.targetData.type = TargetType.MOVING →
      (TargetDetection.update env s).1 = true ∧
      (TargetDetection.update env s).2.targetDetection.targetData.status
        = TargetStatus.TARGET_LOCKED) ∧
    (∀ (env : Env) (s : System), s.targetDetection.initialized = true →
      s.targetDetection.targetData.status = TargetStatus.TARGET_LOCKED →
      s.targetDetection.targetData.type ≠ TargetType.MOVING →
      5000 < sub32 s.rtos.tickCount s.targetDetection.targetData.lastUpdateTime →
      sub32 s.rtos.tickCount s.targetDetection.targetData.lastUpdateTime + 10 < 2 ^ 32 →
      (TargetDetection.update env s).1 = true ∧
      (TargetDetection.update env s).2.targetDetection.targetData.status
        = TargetStatus.TARGET_LOST) := by
  refine ⟨fun env s hi hs ht => ?_, fun env s hi hs ht he hw => ?_⟩
  · obtain ⟨-, h2⟩ := TargetDetection.updateLocked_moving env.math s ht
    simp [TargetDetection.update, hi, hs, TargetDetection.updateTargetVectors_frame, h2]
  · obtain ⟨-, h2⟩ := TargetDetection.updateLocked_fixed env.math s ht
    rw [sub32_next_tick _ _ hw, if_pos (by omega)] at h2
    simp [TargetDetection.update, hi, hs, TargetDetection.updateTargetVectors_frame, h2]

/-- C19, instance: a locked target stamped at tick 0, the counter at 6000:
of type `MOVING` it stays locked, of type `STATIC` it is lost. -/
theorem C19_moving_lock_never_times_out_witness :
    5000 < sub32 6000 0 ∧
    (TargetDetection.update quietEnv
      (targetBench { status := TargetStatus.TARGET_LOCKED, type := TargetType.MOVING }
        6000)).2.targetDetection.targetData.status = TargetStatus.TARGET_LOCKED ∧
    (TargetDetection.update quietEnv
      (targetBench { status := TargetStatus.TARGET_LOCKED, type := TargetType.STATIC }
        6000)).2.targetDetection.targetData.status = TargetStatus.TARGET_LOST :=
  ⟨by decide,
   (C19_moving_lock_never_times_out.1 quietEnv
      (targetBench { status := TargetStatus.TARGET_LOCKED, type := TargetType.MOVING } 6000)
      rfl rfl rfl).2,
   (C19_moving_lock_never_times_out.2 quietEnv
      (targetBench { status := TargetStatus.TARGET_LOCKED, type := TargetType.STATIC } 6000)
      rfl rfl (by decide) (by decide) (by decide)).2⟩

/-- C20: on an initialised detector in `TARGET_LOST`, an `update()` whose
draw fails returns true and leaves the status `TARGET_LOST` with the record
re-stamped at the current tick, however long ago `lastUpdateTime` lay: the
record is never reset to the default `NO_TARGET` record. -/
theorem C20_lost_target_never_cleared (env : Env) (s : System)
    (hi : s.targetDetection.initialized = true)
    (hs : s.targetDetection.targetData.status = TargetStatus.TARGET_LOST)
    (hd : ¬ env.rand s.randCalls % 100 < 75) :
    (TargetDetection.update env s).1 = true ∧
    (TargetDetection.update env s).2.targetDetection.targetData.status
      = TargetStatus.TARGET_LOST ∧
    (TargetDetection.update env s).2.targetDetection.targetData.lastUpdateTime
      = wrap32 (s.rtos.tickCount + SYSTEM_TICK_MS) ∧
    (TargetDetection.update env s).2.targetDetection.targetData ≠ {} := by
  obtain ⟨d1, d2, d3, -, d5, d6⟩ := TargetDetection.detect_of_target env s (by simp [hs])
  have hr : (TargetDetection.detectTargetWithSensors env s).1 = false := by
    rw [d1]; simp [hd]
  have hk : sub32 (getTicks (TargetDetection.detectTargetWithSensors env s).2).1
      (getTicks (TargetDetection.detectTargetWithSensors env s).2).2.targetDetection.targetData.lastUpdateTime
      = 10 := by
    simp only [getTicks, Rtos.getTicks, d5, d6]
    exact sub32_consecutive_ticks _
  have hu : TargetDetection.update env s = (true, TargetDetection.updateTargetVectors env.math
      (getTicks (TargetDetection.detectTargetWithSensors env s).2).2) := by
    simp [TargetDetection.update, hi, hs, hr, hk]
  have hst : (getTicks (TargetDetection.detectTargetWithSensors env
      s).2).2.targetDetection.targetData.status = TargetStatus.TARGET_LOST := by
    simp [getTicks, d3, hs]
  have h2 : (TargetDetection.update env s).2.targetDetection.targetData.status
      = TargetStatus.TARGET_LOST := by
    rw [hu]
    simp [TargetDetection.updateTargetVectors_frame, hst]
  refine ⟨by rw [hu], h2, ?_, fun h => ?_⟩
  · rw [hu]
    obtain ⟨t1, -⟩ := TargetDetection.updateTargetVectors_lastUpdateTime env.math
      (getTicks (TargetDetection.detectTargetWithSensors env s).2).2
      (by rw [hst]; decide) (by rw [hst]; decide)
    simp only [t1]
    simp [getTicks, d5]
  · rw [h] at h2
    exact absurd h2 (by decide)

/-- C20, instance: a lost target stamped at tick 0, the counter at 20000, and
a draw that fails. -/
theorem C20_lost_target_never_cleared_witness :
    10000 < sub32 20000 0 ∧
    (TargetDetection.update failingEnv
      (targetBench { status := TargetStatus.TARGET_LOST } 20000)).1 = true ∧
    (TargetDetection.update failingEnv
      (targetBench { status := TargetStatus.TARGET_LOST }
        20000)).2.targetDetection.targetData.status = TargetStatus.TARGET_LOST ∧
    (TargetDetection.update failingEnv
      (targetBench { status := TargetStatus.TARGET_LOST }
        20000)).2.targetDetection.targetData ≠ {} :=
  have h := C20_lost_target_never_cleared failingEnv
    (targetBench { status := TargetStatus.TARGET_LOST } 20000) rfl rfl (by decide)
  ⟨by decide, h.1, h.2.1, h.2.2.2⟩

/-! ## The RTOS tick counter and task ids -/

/-- The counter after `n + 1` calls of `getTicks`. -/
theorem Rtos.ticksAfter_succ_tickCount (r : Rtos) (n : Nat) :
    (Rtos.ticksAfter (n + 1) r).tickCount = wrap32 (r.tickCount + 10 * (n + 1)) := by
  induction n with
  | zero => simp [Rtos.ticksAfter, Rtos.getTicks, SYSTEM_TICK_MS]
  | succ n ih =>
    have h : (Rtos.ticksAfter (n + 1 + 1) r).tickCount
        = wrap32 ((Rtos.ticksAfter (n + 1) r).tickCount + 10) := rfl
    rw [h, ih]
    simp only [wrap32]
    omega

/-- The value returned by call number `n + 1` of `getTicks`. -/
theorem Rtos.getTicks_ticksAfter (r : Rtos) (n : Nat) :
    (Rtos.getTicks (Rtos.ticksAfter n r)).1 = wrap32 (r.tickCount + 10 * (n + 1)) :=
  Rtos.ticksAfter_succ_tickCount r n

/-- C27, counterexample: starting from the counter as constructed, the
429,496,729th call of `getTicks` returns 4294967290 and the next call returns
4, a smaller value. -/
theorem C27_counterexample :
    (Rtos.getTicks (Rtos.ticksAfter 429496728 {})).1 = 4294967290 ∧
    (Rtos.getTicks (Rtos.ticksAfter 429496729 {})).1 = 4 ∧
    (Rtos.getTicks (Rtos.ticksAfter 429496729 {})).1
      < (Rtos.getTicks (Rtos.ticksAfter 429496728 {})).1 := by
  have h1 : (Rtos.getTicks (Rtos.ticksAfter 429496728 {})).1 = 4294967290 := by
    rw [Rtos.getTicks_ticksAfter]
    norm_num [wrap32]
  have h2 : (Rtos.getTicks (Rtos.ticksAfter 429496729 {})).1 = 4 := by
    rw [Rtos.getTicks_ticksAfter]
    norm_num [wrap32]
  refine ⟨h1, h2, ?_⟩
  rw [h1, h2]
  norm_num

/-- C27, amended: `getTicks` stores and returns the previous counter value plus
10 modulo 2^32.  The result exceeds the previous value by exactly 10 when the
previous value is below 2^32 - 10, and is smaller than it when the previous
value is one of the 32-bit values from 2^32 - 10 on.  From the counter as
constructed the first call returns 10 and call number `n + 1` returns
`10 * (n + 1)` modulo 2^32, which is `10 * (n + 1)` for the first 429,496,729
calls. -/
theorem C27_getTicks_advances (r : Rtos) :
    (Rtos.getTicks r).1 = wrap32 (r.tickCount + 10) ∧
    (Rtos.getTicks r).2.tickCount = (Rtos.getTicks r).1 ∧
    (r.tickCount + 10 < 2 ^ 32 →
      (Rtos.getTicks r).1 = r.tickCount + 10 ∧ r.tickCount < (Rtos.getTicks r).1) ∧
    (r.tickCount < 2 ^ 32 → 2 ^ 32 ≤ r.tickCount + 10 →
      (Rtos.getTicks r).1 = r.tickCount + 10 - 2 ^ 32 ∧ (Rtos.getTicks r).1 < r.tickCount) ∧
    (Rtos.getTicks {}).1 = 10 ∧
    (∀ n : Nat, (Rtos.getTicks (Rtos.ticksAfter n {})).1 = wrap32 (10 * (n + 1))) ∧
    (∀ n : Nat, n < 429496729 →
      (Rtos.getTicks (Rtos.ticksAfter n {})).1 = 10 * (n + 1)) := by
  have hn : ∀ n : Nat, (Rtos.getTicks (Rtos.ticksAfter n {})).1 = wrap32 (10 * (n + 1)) := by
    intro n
    rw [Rtos.getTicks_ticksAfter]
    simp
  refine ⟨rfl, rfl, fun h => ?_, fun h1 h2 => ?_, rfl, hn, fun n h => ?_⟩
  · simp only [Rtos.getTicks, SYSTEM_TICK_MS, wrap32]
    omega
  · simp only [Rtos.getTicks, SYSTEM_TICK_MS, wrap32]
    omega
  · rw [hn]
    simp only [wrap32]
    omega

/-- C27, instance: from a counter at 50 the call returns 60; from a counter at
4294967290 it returns 4. -/
theorem C27_getTicks_advances_witness :
    ((Rtos.getTicks { tickCount := 50 }).1 = 50 + 10 ∧
      50 < (Rtos.getTicks { tickCount := 50 }).1) ∧
    ((Rtos.getTicks { tickCount := 4294967290 }).1 = 4294967290 + 10 - 2 ^ 32 ∧
      (Rtos.getTicks { tickCount := 4294967290 }).1 < 4294967290) :=
  ⟨(C27_getTicks_advances { tickCount := 50 }).2.2.1 (by decide),
   (C27_getTicks_advances { tickCount := 4294967290 }).2.2.2.1 (by decide) (by decide)⟩

/-- The static `nextTaskId` after a list of `registerTask` calls on an
initialised RTOS: one id is consumed per call that passes a task. -/
theorem Rtos.registerAll_nextTaskId (calls : List (Option Task × TaskPriority)) :
    ∀ r : Rtos, r.initialized = true → r.nextTaskId < 2 ^ 32 →
      (Rtos.registerAll r calls).initialized = true ∧
      (Rtos.registerAll r calls).nextTaskId
        = wrap32 (r.nextTaskId + Rtos.withTask calls) := by
  induction calls with
  | nil =>
    intro r h hlt
    refine ⟨h, ?_⟩
    simp only [Rtos.registerAll, Rtos.withTask, wrap32, List.filter_nil, List.length_nil]
    omega
  | cons call calls ih =>
    intro r h hlt
    rcases call with ⟨task, priority⟩
    cases task with
    | none =>
      have hr : (Rtos.registerTask r none priority).2.1 = r := by
        simp [Rtos.registerTask]
      simp only [Rtos.registerAll, hr]
      simpa [Rtos.withTask] using ih r h hlt
    | some t =>
      have hr : (Rtos.registerTask r (some t) priority).2.1
          = { r with nextTaskId := wrap32 (r.nextTaskId + 1) } := by
        simp [Rtos.registerTask, h]
      simp only [Rtos.registerAll, hr]
      obtain ⟨i1, i2⟩ := ih { r with nextTaskId := wrap32 (r.nextTaskId + 1) } h
        (by simp only [wrap32]; omega)
      refine ⟨i1, ?_⟩
      rw [i2]
      simp only [Rtos.withTask, wrap32, List.filter_cons, Option.isSome_some, if_true,
        List.length_cons]
      omega

/-- C28: with the RTOS uninitialised or a null task, `registerTask` returns 0
and changes neither the task nor the id counter.  On an initialised RTOS a
call with a task returns the current `nextTaskId`, stores it and the given
priority in the task and advances the counter by one.  Hence, on an
initialised RTOS with the counter as constructed, the call with a task that
follows any sequence of calls of which `k - 1` passed a task returns `k` and
stores `k` and its priority in the task, for every `k` below 2^32. -/
theorem C28_registerTask_ids :
    (∀ (r : Rtos) (task : Option Task) (priority : TaskPriority),
      r.initialized = false ∨ task = none →
      Rtos.registerTask r task priority = (0, r, task)) ∧
    (∀ (r : Rtos) (t : Task) (priority : TaskPriority), r.initialized = true →
      Rtos.registerTask r (some t) priority
        = (r.nextTaskId, { r with nextTaskId := wrap32 (r.nextTaskId + 1) },
           some { t with priority := priority, id := r.nextTaskId })) ∧
    (∀ (r : Rtos) (calls : List (Option Task × TaskPriority)) (k : Nat) (t : Task)
      (priority : TaskPriority),
      r.initialized = true → r.nextTaskId = 1 → Rtos.withTask calls + 1 = k → k < 2 ^ 32 →
      (Rtos.registerTask (Rtos.registerAll r calls) (some t) priority).1 = k ∧
      (Rtos.registerTask (Rtos.registerAll r calls) (some t) priority).2.2
        = some { t with priority := priority, id := k }) := by
  refine ⟨fun r task priority h => ?_, fun r t priority h => ?_,
    fun r calls k t priority hi h1 hk hlt => ?_⟩
  · rcases h with h | h
    · simp [Rtos.registerTask, h]
    · subst h
      cases hr : r.initialized <;> simp [Rtos.registerTask, hr]
  · simp [Rtos.registerTask, h]
  · obtain ⟨i1, i2⟩ := Rtos.registerAll_nextTaskId calls r hi (by rw [h1]; norm_num)
    have hid : (Rtos.registerAll r calls).nextTaskId = k := by
      rw [i2, h1]
      simp only [wrap32]
      omega
    simp [Rtos.registerTask, i1, hid]

/-- C28, instance: on the initialised RTOS, after a call with a task, a call
with a null task and another call with a task, the next call returns 3 and
stores 3 and the priority `HIGH`; a call with a null task returns 0. -/
theorem C28_registerTask_ids_witness :
    (Rtos.registerTask
      (Rtos.registerAll { initialized := true }
        [(some {}, TaskPriority.LOW), (none, TaskPriority.NORMAL),
         (some {}, TaskPriority.CRITICAL)])
      (some {}) TaskPriority.HIGH).1 = 3 ∧
    (Rtos.registerTask
      (Rtos.registerAll { initialized := true }
        [(some {}, TaskPriority.LOW), (none, TaskPriority.NORMAL),
         (some {}, TaskPriority.CRITICAL)])
      (some {}) TaskPriority.HIGH).2.2
      = some { priority := TaskPriority.HIGH, id := 3 } ∧
    Rtos.registerTask { initialized := true } none TaskPriority.HIGH
      = (0, { initialized := true }, none) :=
  have h := C28_registerTask_ids.2.2 { initialized := true }
    [(some {}, TaskPriority.LOW), (none, TaskPriority.NORMAL),
     (some {}, TaskPriority.CRITICAL)] 3 {} TaskPriority.HIGH rfl rfl rfl (by norm_num)
  ⟨h.1, h.2, C28_registerTask_ids.1 { initialized := true } none TaskPriority.HIGH
    (Or.inr rfl)⟩

/-! ## The UART driver -/

/-- The time-out placeholder of the UART driver never reports a time-out. -/
theorem HalUart.checkTimeout_eq_false (u : HalUart) (startTime timeoutMs : Nat) :
    u.checkTimeout startTime timeoutMs = false := by
  unfold HalUart.checkTimeout
  split_ifs with h
  · rfl
  · have h0 : sub32 startTime startTime = 0 := by
      simp only [sub32]
      omega
    simp only [h0, ge_iff_le, Nat.le_zero_eq, decide_eq_false_iff_not]
    exact h

/-- C29: `transmit` returns 0 with `INVALID_PORT` when the port index is 3 or
more; else 0 with `BUFFER_NULL` when the buffer is null; else 0 with no error
when the size is 0, initialised or not; else 0 with `NOT_INITIALIZED` when the
UART is not initialised; otherwise the size with no error.  It changes
nothing but `lastError`, and for no time-out value is `lastError` ever
`TIMEOUT` afterwards. -/
theorem C29_transmit_cases (u : HalUart) (port : UartPort) (data : Option (List Nat))
    (size timeoutMs : Nat) :
    (3 ≤ port.toNat →
      u.transmit port data size timeoutMs
        = (0, { u with lastError := UartError.INVALID_PORT })) ∧
    (port.toNat < 3 → data = none →
      u.transmit port data size timeoutMs
        = (0, { u with lastError := UartError.BUFFER_NULL })) ∧
    (port.toNat < 3 → data ≠ none → size = 0 →
      u.transmit port data size timeoutMs = (0, { u with lastError := UartError.NONE })) ∧
    (port.toNat < 3 → data ≠ none → size ≠ 0 → u.initialized = false →
      u.transmit port data size timeoutMs
        = (0, { u with lastError := UartError.NOT_INITIALIZED })) ∧
    (port.toNat < 3 → data ≠ none → size ≠ 0 → u.initialized = true →
      u.transmit port data size timeoutMs
        = (size, { u with lastError := UartError.NONE })) ∧
    (u.transmit port data size timeoutMs).2.lastError ≠ UartError.TIMEOUT := by
  refine ⟨fun hp => ?_, fun hp hd => ?_, fun hp hd hs => ?_, fun hp hd hs hi => ?_,
    fun hp hd hs hi => ?_, ?_⟩
  · simp [HalUart.transmit, HalUart.isValidPort, HalUart.MAX_PORT, hp]
  · simp [HalUart.transmit, HalUart.isValidPort, HalUart.MAX_PORT, hp, hd]
  · cases data with
    | none => exact absurd rfl hd
    | some bytes => simp [HalUart.transmit, HalUart.isValidPort, HalUart.MAX_PORT, hp, hs]
  · cases data with
    | none => exact absurd rfl hd
    | some bytes =>
      simp [HalUart.transmit, HalUart.isValidPort, HalUart.MAX_PORT, hp, hs, hi]
  · cases data with
    | none => exact absurd rfl hd
    | some bytes =>
      simp [HalUart.transmit, HalUart.isValidPort, HalUart.MAX_PORT, hp, hs, hi,
        HalUart.checkTimeout_eq_false]
  · unfold HalUart.transmit
    simp only [HalUart.checkTimeout_eq_false, Bool.false_eq_true, if_false]
    split_ifs <;> simp

/-- C29, instance: on the UART as constructed, port index 7 is refused, a
null buffer is refused, an empty transmission reports no error, a transmission
of 4 bytes is refused as uninitialised; on the initialised UART it reports 4
bytes, with a time-out of 1 ms as well. -/
theorem C29_transmit_cases_witness :
    HalUart.transmit {} (UartPort.OTHER 7) (some [1, 2, 3, 4]) 4 0
      = (0, { lastError := UartError.INVALID_PORT }) ∧
    HalUart.transmit {} UartPort.UART1 none 4 0 = (0, { lastError := UartError.BUFFER_NULL }) ∧
    HalUart.transmit { lastError := UartError.TIMEOUT } UartPort.UART1 (some []) 0 0
      = (0, { lastError := UartError.NONE }) ∧
    HalUart.transmit {} UartPort.UART3 (some [1, 2, 3, 4]) 4 0
      = (0, { lastError := UartError.NOT_INITIALIZED }) ∧
    HalUart.transmit { initialized := true } UartPort.UART3 (some [1, 2, 3, 4]) 4 1
      = (4, { initialized := true, lastError := UartError.NONE }) :=
  ⟨(C29_transmit_cases {} (UartPort.OTHER 7) (some [1, 2, 3, 4]) 4 0).1 (by decide),
   (C29_transmit_cases {} UartPort.UART1 none 4 0).2.1 (by decide) rfl,
   (C29_transmit_cases { lastError := UartError.TIMEOUT } UartPort.UART1 (some []) 0
      0).2.2.1 (by decide) (by decide) rfl,
   (C29_transmit_cases {} UartPort.UART3 (some [1, 2, 3, 4]) 4 0).2.2.2.1 (by decide)
      (by decide) (by decide) rfl,
   (C29_transmit_cases { initialized := true } UartPort.UART3 (some [1, 2, 3, 4]) 4
      1).2.2.2.2.1 (by decide) (by decide) (by decide) rfl⟩

/-! ## The radio link -/

/-- A value in `[0, 256)` is converted to its integer part. -/
theorem castUint8_of_range (x : Float32) (h0 : 0 ≤ x) (h1 : x < 256) :
    ((castUint8 x : Nat) : Float32) = ((⌊x⌋ : Int) : Float32) := by
  have hf0 : 0 ≤ ⌊x⌋ := Int.floor_nonneg.mpr h0
  have hf1 : ⌊x⌋ < 256 := Int.floor_lt.mpr (by exact_mod_cast h1)
  have hc : castUint8 x = ⌊x⌋.toNat := by
    unfold castUint8
    rw [if_neg (not_lt.mpr h0), Int.emod_eq_of_lt hf0 hf1]
  rw [hc]
  have : ((⌊x⌋.toNat : Nat) : Int) = ⌊x⌋ := Int.toNat_of_nonneg hf0
  exact_mod_cast congrArg (fun z : Int => (z : Float32)) this

/-- The enumerators of `CommandType` survive the cast to a byte and back. -/
theorem CommandType.ofNat_toNat (t : CommandType) (h : ∀ code, t ≠ CommandType.UNKNOWN code) :
    CommandType.ofNat t.toNat = t := by
  cases t with
  | UNKNOWN code => exact absurd rfl (h code)
  | _ => rfl

/-- The bytes that `decodeCommand` reads from the message `encodeCommand` wrote. -/
theorem Radio.encodeCommand_payload (command : Command) (message : RadioMessage)
    (hlen : message.payload.length = 32) :
    (Radio.encodeCommand command message).1 = true ∧
    (Radio.encodeCommand command message).2.type = RadioMessageType.COMMAND ∧
    (Radio.encodeCommand command message).2.length = 17 ∧
    (Radio.encodeCommand command message).2.payload.getD 0 0 = command.type.toNat ∧
    (Radio.encodeCommand command message).2.payload.getD 1 0 = castUint8 command.param1 ∧
    (Radio.encodeCommand command message).2.payload.getD 5 0 = castUint8 command.param2 ∧
    (Radio.encodeCommand command message).2.payload.getD 9 0 = castUint8 command.param3 ∧
    (Radio.encodeCommand command message).2.payload.getD 13 0 = castUint8 command.param4 := by
  simp [Radio.encodeCommand, List.getD_eq_getElem?_getD, List.getElem?_set, hlen]

/-- The result of `decodeCommand` on a command message of positive length. -/
theorem Radio.decodeCommand_of_command (message : RadioMessage) (command : Command)
    (ht : message.type = RadioMessageType.COMMAND) (hl : message.length ≠ 0) :
    Radio.decodeCommand message command =
      (true,
        { type := CommandType.ofNat (message.payload.getD 0 0),
          param1 := if 5 ≤ message.length then ((message.payload.getD 1 0 : Nat) : Float32)
            else command.param1,
          param2 := if 9 ≤ message.length then ((message.payload.getD 5 0 : Nat) : Float32)
            else command.param2,
          param3 := if 13 ≤ message.length then ((message.payload.getD 9 0 : Nat) : Float32)
            else command.param3,
          param4 := if 17 ≤ message.length then ((message.payload.getD 13 0 : Nat) : Float32)
            else command.param4 }) := by
  have hl1 : ¬ message.length < 1 := by omega
  simp only [Radio.decodeCommand, ht, hl1, bne_self_eq_false, decide_False, Bool.or_false,
    Bool.false_eq_true, if_false, ge_iff_le]
  split_ifs <;> rfl

/-- C21: for every command whose type is one of the eight enumerators and whose
four parameters lie in `[0, 256)`, `encodeCommand` succeeds and
`decodeCommand` applied to its message succeeds, whatever the command record
held before, and yields the original type with every parameter replaced by
its integer part; when the four parameters are whole numbers, it yields
exactly the original command. -/
theorem C21_command_round_trip (command prior : Command) (message : RadioMessage)
    (hlen : message.payload.length = 32)
    (htype : ∀ code, command.type ≠ CommandType.UNKNOWN code)
    (h1 : 0 ≤ command.param1 ∧ command.param1 < 256)
    (h2 : 0 ≤ command.param2 ∧ command.param2 < 256)
    (h3 : 0 ≤ command.param3 ∧ command.param3 < 256)
    (h4 : 0 ≤ command.param4 ∧ command.param4 < 256) :
    (Radio.encodeCommand command message).1 = true ∧
    Radio.decodeCommand (Radio.encodeCommand command message).2 prior
      = (true, { type := command.type,
                 param1 := ((⌊command.param1⌋ : Int) : Float32),
                 param2 := ((⌊command.param2⌋ : Int) : Float32),
                 param3 := ((⌊command.param3⌋ : Int) : Float32),
                 param4 := ((⌊command.param4⌋ : Int) : Float32) }) ∧
    (((⌊command.param1⌋ : Int) : Float32) = command.param1 →
      ((⌊command.param2⌋ : Int) : Float32) = command.param2 →
      ((⌊command.param3⌋ : Int) : Float32) = command.param3 →
      ((⌊command.param4⌋ : Int) : Float32) = command.param4 →
      Radio.decodeCommand (Radio.encodeCommand command message).2 prior
        = (true, command)) := by
  obtain ⟨e1, e2, e3, e4, e5, e6, e7, e8⟩ := Radio.encodeCommand_payload command message hlen
  have hd : Radio.decodeCommand (Radio.encodeCommand command message).2 prior
      = (true, { type := command.type,
                 param1 := ((⌊command.param1⌋ : Int) : Float32),
                 param2 := ((⌊command.param2⌋ : Int) : Float32),
                 param3 := ((⌊command.param3⌋ : Int) : Float32),
                 param4 := ((⌊command.param4⌋ : Int) : Float32) }) := by
    rw [Radio.decodeCommand_of_command _ _ e2 (by rw [e3]; norm_num)]
    simp only [e3, e4, e5, e6, e7, e8, CommandType.ofNat_toNat _ htype,
      castUint8_of_range _ h1.1 h1.2, castUint8_of_range _ h2.1 h2.2,
      castUint8_of_range _ h3.1 h3.2, castUint8_of_range _ h4.1 h4.2]
    norm_num
  refine ⟨e1, hd, fun w1 w2 w3 w4 => ?_⟩
  rw [hd, w1, w2, w3, w4]

/-- C21, instance: `GOTO` with `param1 = 12` decodes to `GOTO` with
`param1 = 12`; with `param1 = 12.75` it decodes to `param1 = 12`. -/
theorem C21_command_round_trip_witness :
    Radio.decodeCommand (Radio.encodeCommand (gotoCommand 12) {}).2 {}
      = (true, gotoCommand 12) ∧
    (Radio.decodeCommand (Radio.encodeCommand (gotoCommand (51 / 4)) {}).2 {}).2.param1
      = 12 := by
  have hz : (0 : Float32) ≤ 0 ∧ (0 : Float32) < 256 := by norm_num
  have a := C21_command_round_trip (gotoCommand 12) {} {} rfl
    (fun code h => by simp [gotoCommand] at h)
    (by simp only [gotoCommand]; norm_num) hz hz hz
  have b := C21_command_round_trip (gotoCommand (51 / 4)) {} {} rfl
    (fun code h => by simp [gotoCommand] at h)
    (by simp only [gotoCommand]; norm_num) hz hz hz
  refine ⟨a.2.2 ?_ ?_ ?_ ?_, ?_⟩
  · simp [gotoCommand]
  · simp [gotoCommand]
  · simp [gotoCommand]
  · simp [gotoCommand]
  · rw [b.2.1]
    have hf : ⌊(51 / 4 : Float32)⌋ = 12 := by
      rw [Int.floor_eq_iff]
      norm_num
    simp [gotoCommand, hf]

/-- C22: `decodeCommand` returns false exactly when the message type is not
`COMMAND` or the length is 0, and then leaves the command record unchanged;
otherwise it returns true, takes the type from `payload[0]`, takes
parameter k (k = 1..4) from `payload[4k - 3]` exactly when the length is at
least `4k + 1`, and leaves every other parameter at its prior value. -/
theorem C22_decodeCommand (message : RadioMessage) (command : Command) :
    ((Radio.decodeCommand message command).1 = false ↔
      (message.type ≠ RadioMessageType.COMMAND ∨ message.length = 0)) ∧
    (message.type ≠ RadioMessageType.COMMAND ∨ message.length = 0 →
      Radio.decodeCommand message command = (false, command)) ∧
    (message.type = RadioMessageType.COMMAND → message.length ≠ 0 →
      Radio.decodeCommand message command =
        (true,
          { type := CommandType.ofNat (message.payload.getD 0 0),
            param1 := if 5 ≤ message.length then ((message.payload.getD 1 0 : Nat) : Float32)
              else command.param1,
            param2 := if 9 ≤ message.length then ((message.payload.getD 5 0 : Nat) : Float32)
              else command.param2,
            param3 := if 13 ≤ message.length then ((message.payload.getD 9 0 : Nat) : Float32)
              else command.param3,
            param4 := if 17 ≤ message.length then ((message.payload.getD 13 0 : Nat) : Float32)
              else command.param4 })) := by
  have hfalse : message.type ≠ RadioMessageType.COMMAND ∨ message.length = 0 →
      Radio.decodeCommand message command = (false, command) := by
    intro h
    rcases h with h | h
    · simp [Radio.decodeCommand, h]
    · simp [Radio.decodeCommand, h]
  refine ⟨⟨fun h => ?_, fun h => by rw [hfalse h]⟩, hfalse,
    Radio.decodeCommand_of_command message command⟩
  by_contra hc
  rw [not_or, not_not] at hc
  rw [Radio.decodeCommand_of_command message command hc.1 hc.2] at h
  exact Bool.noConfusion h

/-- C22, instance: a 9-byte `ATTACK` message sets the type and the first two
parameters of the default command record and leaves the other two at 0; the
same payload in a message of length 0 is refused. -/
theorem C22_decodeCommand_witness :
    Radio.decodeCommand (attackMessage 9) {}
      = (true, { type := CommandType.ATTACK, param1 := 11, param2 := 22 }) ∧
    Radio.decodeCommand (attackMessage 0) (gotoCommand 5) = (false, gotoCommand 5) := by
  refine ⟨?_, (C22_decodeCommand (attackMessage 0) (gotoCommand 5)).2.1 (Or.inr rfl)⟩
  rw [(C22_decodeCommand (attackMessage 9) {}).2.2 rfl (by decide)]
  simp [attackMessage, CommandType.ofNat]

/-- C23: on an uninitialised radio `sendMessage` makes no call of
`HalUart::transmit`, returns false and leaves the UART untouched.  On an
initialised radio, for a message of length at most 32, it makes exactly one
call of `HalUart::transmit`, on `UART3`, with the size `2 + length` (at most
34) and a buffer of which that is the number of bytes composed: byte 0 is the
message type code, byte 1 the length, and byte `2 + i` is `payload[i]` for
every `i` below the length; over an initialised UART the call reports that
size, `sendMessage` returns true and the UART is left with no error. -/
theorem C23_sendMessage_frame (uart : HalUart) (r : Radio) (message : RadioMessage) :
    (r.initialized = false → Radio.sendMessageTraced uart r message = (false, uart, [])) ∧
    (r.initialized = true → message.length ≤ 32 → message.payload.length = 32 →
      ∃ bytes : List Nat,
        (Radio.sendMessageTraced uart r message).2.2
          = [{ port := UartPort.UART3, data := bytes, size := 2 + message.length,
               timeoutMs := 0 }] ∧
        bytes.length = 2 + message.length ∧
        2 + message.length ≤ 34 ∧
        bytes.getD 0 0 = message.type.toNat ∧
        bytes.getD 1 0 = message.length ∧
        (∀ i : Nat, i < message.length → bytes.getD (2 + i) 0 = message.payload.getD i 0) ∧
        (uart.initialized = true →
          (Radio.sendMessageTraced uart r message).1 = true ∧
          (Radio.sendMessageTraced uart r message).2.1
            = { uart with lastError := UartError.NONE })) ∧
    Radio.sendMessage uart r message
      = ((Radio.sendMessageTraced uart r message).1,
         (Radio.sendMessageTraced uart r message).2.1) := by
  refine ⟨fun h => by simp [Radio.sendMessageTraced, h], fun hr hl hp =>
    ⟨message.type.toNat :: message.length :: message.payload.take (min message.length 32),
      ?_⟩, rfl⟩
  have hw : wrap32 (2 + message.length) = 2 + message.length := by
    simp only [wrap32]
    omega
  refine ⟨by simp [Radio.sendMessageTraced, hr, hw, Radio.radioUartPort], ?_, by omega, rfl,
    rfl, fun i hi => ?_, fun hu => ?_⟩
  · simp [hp, hl]
    omega
  · have h2 : 2 + i = i + 1 + 1 := by omega
    simp only [h2, List.getD_cons_succ]
    simp only [List.getD_eq_getElem?_getD, List.getElem?_take]
    rw [if_pos (by omega)]
  · simp [Radio.sendMessageTraced, hr, hw, Radio.radioUartPort, HalUart.transmit,
      HalUart.isValidPort, HalUart.MAX_PORT, UartPort.toNat, hu, HalUart.checkTimeout]

/-- C23, instance: a telemetry message with payload bytes 7, 8, 9 on the
initialised radio is handed to `UART3` as the five bytes 1, 3, 7, 8, 9 and,
the UART being initialised, `sendMessage` returns true; on the radio as
constructed no call is made. -/
theorem C23_sendMessage_frame_witness :
    (Radio.sendMessageTraced { initialized := true } { initialized := true } shortMessage).2.2
      = [{ port := UartPort.UART3, data := [1, 3, 7, 8, 9], size := 5 }] ∧
    Radio.sendMessage { initialized := true } { initialized := true } shortMessage
      = (true, { initialized := true, lastError := UartError.NONE }) ∧
    Radio.sendMessageTraced { initialized := true } {} shortMessage
      = (false, { initialized := true }, []) := by
  have h := C23_sendMessage_frame { initialized := true } { initialized := true } shortMessage
  obtain ⟨bytes, -, -, -, -, -, -, h8⟩ := h.2.1 rfl (by decide) rfl
  have h0 := (C23_sendMessage_frame { initialized := true } {} shortMessage).1 rfl
  refine ⟨rfl, ?_, h0⟩
  rw [h.2.2, (h8 rfl).1, (h8 rfl).2]

/-! ## Telemetry encoding -/

/-- Storing at one index leaves the element at another index alone. -/
theorem getD_set_of_ne (l : List Nat) (k i v d : Nat) (h : i ≠ k) :
    (l.set k v).getD i d = l.getD i d := by
  simp [List.getD_eq_getElem?_getD, List.getElem?_set, Ne.symm h]

/-- Storing at an index of the list makes the element there the stored one. -/
theorem getD_set_self (l : List Nat) (k v d : Nat) (h : k < l.length) :
    (l.set k v).getD k d = v := by
  simp [List.getD_eq_getElem?_getD, List.getElem?_set, h]

/-- The four bytes of a 32-bit value, most significant first, give the value
back. -/
theorem byteOf_big_endian (t : Nat) (h : t < 2 ^ 32) :
    byteOf t 24 * 2 ^ 24 + byteOf t 16 * 2 ^ 16 + byteOf t 8 * 2 ^ 8 + byteOf t 0 = t := by
  have hb : ∀ k : Nat, byteOf t k = t / 2 ^ k % 256 := by
    intro k
    unfold byteOf
    rw [Nat.shiftRight_eq_div_pow]
    exact Nat.and_pow_two_sub_one_eq_mod _ 8
  rw [hb, hb, hb, hb]
  norm_num at h ⊢
  omega

/-- The result, message type, length and payload size that `encodeData`
produces. -/
theorem Telemetry.encodeData_header (rep : Reinterpret) (data : TelemetryData)
    (message : RadioMessage) :
    (Telemetry.encodeData rep data message).1 = true ∧
    (Telemetry.encodeData rep data message).2.type = RadioMessageType.TELEMETRY ∧
    (Telemetry.encodeData rep data message).2.length = Telemetry.encodedLength data.type ∧
    (Telemetry.encodeData rep data message).2.payload.length = message.payload.length := by
  rcases data with ⟨type, timestamp, payload⟩
  cases type <;> cases payload <;>
    simp [Telemetry.encodeData, Telemetry.setBytes, Telemetry.encodedLength]

/-- Payload bytes at indices that `encodeData` does not assign keep their
value. -/
theorem Telemetry.encodeData_frame (rep : Reinterpret) (data : TelemetryData)
    (message : RadioMessage) (i : Nat) (hi : i ∉ Telemetry.writtenIndices data.type) :
    (Telemetry.encodeData rep data message).2.payload.getD i 0 = message.payload.getD i 0 := by
  rcases data with ⟨type, timestamp, payload⟩
  cases type <;> cases payload <;>
    (simp only [Telemetry.writtenIndices, List.mem_cons, List.mem_singleton, not_or,
      List.not_mem_nil, not_false_eq_true, and_true] at hi) <;>
    (simp only [Telemetry.encodeData, Telemetry.setBytes, List.foldl_cons, List.foldl_nil,
      List.getD_eq_getElem?_getD]) <;>
    simp (disch := omega) only [List.getElem?_set_ne]

/-- The first five payload bytes that `encodeData` writes: the type code and
the four bytes of the time stamp. -/
theorem Telemetry.encodeData_stamp (rep : Reinterpret) (data : TelemetryData)
    (message : RadioMessage) (h : 4 < message.payload.length) :
    (Telemetry.encodeData rep data message).2.payload.getD 0 0 = data.type.toNat ∧
    (Telemetry.encodeData rep data message).2.payload.getD 1 0 = byteOf data.timestamp 24 ∧
    (Telemetry.encodeData rep data message).2.payload.getD 2 0 = byteOf data.timestamp 16 ∧
    (Telemetry.encodeData rep data message).2.payload.getD 3 0 = byteOf data.timestamp 8 ∧
    (Telemetry.encodeData rep data message).2.payload.getD 4 0 = byteOf data.timestamp 0 := by
  rcases data with ⟨type, timestamp, payload⟩
  have h0 : 0 < message.payload.length := by omega
  have h1 : 1 < message.payload.length := by omega
  have h2 : 2 < message.payload.length := by omega
  have h3 : 3 < message.payload.length := by omega
  cases type <;> cases payload <;>
    (simp only [Telemetry.encodeData, Telemetry.setBytes, List.foldl_cons, List.foldl_nil,
      List.getD_eq_getElem?_getD]) <;>
    (simp (disch := omega) only [List.getElem?_set_ne]) <;>
    simp [List.getElem?_set, h, h0, h1, h2, h3]

/-- The bytes that `encodeData` writes for a `SYSTEM` record after the time
stamp: status, error and the four bytes of the uptime. -/
theorem Telemetry.encodeData_system (rep : Reinterpret) (timestamp : Nat)
    (status : SystemStatus) (error : ErrorCode) (uptime : Nat) (message : RadioMessage)
    (h : 10 < message.payload.length) :
    (Telemetry.encodeData rep
      { type := TelemetryType.SYSTEM, timestamp := timestamp,
        data := TelemetryPayload.system status error uptime } message).2.payload.getD 5 0
      = status.toNat ∧
    (Telemetry.encodeData rep
      { type := TelemetryType.SYSTEM, timestamp := timestamp,
        data := TelemetryPayload.system status error uptime } message).2.payload.getD 6 0
      = error.toNat ∧
    (Telemetry.encodeData rep
      { type := TelemetryType.SYSTEM, timestamp := timestamp,
        data := TelemetryPayload.system status error uptime } message).2.payload.getD 7 0
      = byteOf uptime 24 ∧
    (Telemetry.encodeData rep
      { type := TelemetryType.SYSTEM, timestamp := timestamp,
        data := TelemetryPayload.system status error uptime } message).2.payload.getD 8 0
      = byteOf uptime 16 ∧
    (Telemetry.encodeData rep
      { type := TelemetryType.SYSTEM, timestamp := timestamp,
        data := TelemetryPayload.system status error uptime } message).2.payload.getD 9 0
      = byteOf uptime 8 ∧
    (Telemetry.encodeData rep
      { type := TelemetryType.SYSTEM, timestamp := timestamp,
        data := TelemetryPayload.system status error uptime } message).2.payload.getD 10 0
      = byteOf uptime 0 := by
  have h5 : 5 < message.payload.length := by omega
  have h6 : 6 < message.payload.length := by omega
  have h7 : 7 < message.payload.length := by omega
  have h8 : 8 < message.payload.length := by omega
  have h9 : 9 < message.payload.length := by omega
  simp only [Telemetry.encodeData, List.getD_eq_getElem?_getD]
  simp (disch := omega) only [List.getElem?_set_ne]
  simp [List.getElem?_set, h, h5, h6, h7, h8, h9]

/-- C24: for every telemetry record, `encodeData` returns true, sets the
message type to `TELEMETRY`, `payload[0]` to the telemetry type code and the
length to 17, 30, 17, 11, 15, 32 for `ATTITUDE`, `GPS`, `BATTERY`, `SYSTEM`,
`MISSION`, `TARGET`; the length is at most 32, every payload index it
assigns is below the length, and the payload bytes at all other indices keep
their value. -/
theorem C24_encodeData_layout (rep : Reinterpret) (data : TelemetryData)
    (message : RadioMessage) :
    (Telemetry.encodeData rep data message).1 = true ∧
    (Telemetry.encodeData rep data message).2.type = RadioMessageType.TELEMETRY ∧
    (message.payload.length = 32 →
      (Telemetry.encodeData rep data message).2.payload.getD 0 0 = data.type.toNat) ∧
    (Telemetry.encodeData rep data message).2.length =
      (match data.type with
       | .ATTITUDE => 17 | .GPS => 30 | .BATTERY => 17 | .SYSTEM => 11 | .MISSION => 15
       | .TARGET => 32) ∧
    (Telemetry.encodeData rep data message).2.length ≤ 32 ∧
    (∀ i : Nat, i ∈ Telemetry.writtenIndices data.type →
      i < (Telemetry.encodeData rep data message).2.length) ∧
    (∀ i : Nat, i ∉ Telemetry.writtenIndices data.type →
      (Telemetry.encodeData rep data message).2.payload.getD i 0
        = message.payload.getD i 0) := by
  obtain ⟨h1, h2, h3, -⟩ := Telemetry.encodeData_header rep data message
  refine ⟨h1, h2, fun hl => (Telemetry.encodeData_stamp rep data message (by omega)).1,
    ?_, ?_, ?_, Telemetry.encodeData_frame rep data message⟩
  · rw [h3]
    cases data.type <;> rfl
  · rw [h3]
    cases data.type <;> simp [Telemetry.encodedLength]
  · intro i hi
    rw [h3]
    revert hi
    cases data.type <;>
      simp only [Telemetry.writtenIndices, Telemetry.encodedLength, List.mem_cons,
        List.mem_singleton, List.not_mem_nil, or_false] <;>
      omega

/-- C24, instance: a `SYSTEM` record encoded into a fresh message gives length
11 and type code 3 in `payload[0]`; index 10 is assigned and below the
length, index 11 is not assigned and keeps its byte. -/
theorem C24_encodeData_layout_witness :
    (Telemetry.encodeData zeroBits systemRecord {}).2.length = 11 ∧
    (Telemetry.encodeData zeroBits systemRecord {}).2.payload.getD 0 0 = 3 ∧
    10 < (Telemetry.encodeData zeroBits systemRecord {}).2.length ∧
    (Telemetry.encodeData zeroBits systemRecord {}).2.payload.getD 11 0 = 0 :=
  have h := C24_encodeData_layout zeroBits systemRecord {}
  ⟨h.2.2.2.1, h.2.2.1 rfl, h.2.2.2.2.2.1 10 (by decide), h.2.2.2.2.2.2 11 (by decide)⟩

/-- C25: for every record with a 32-bit time stamp `t`, `encodeData` writes `t`
into `payload[1..4]` most significant byte first, so that
`payload[1] * 2^24 + payload[2] * 2^16 + payload[3] * 2^8 + payload[4] = t`;
for a `SYSTEM` record the 32-bit uptime is recovered in the same way from
`payload[7..10]`. -/
theorem C25_timestamp_big_endian (rep : Reinterpret) (message : RadioMessage)
    (hlen : message.payload.length = 32) :
    (∀ data : TelemetryData, data.timestamp < 2 ^ 32 →
      (Telemetry.encodeData rep data message).2.payload.getD 1 0 * 2 ^ 24
        + (Telemetry.encodeData rep data message).2.payload.getD 2 0 * 2 ^ 16
        + (Telemetry.encodeData rep data message).2.payload.getD 3 0 * 2 ^ 8
        + (Telemetry.encodeData rep data message).2.payload.getD 4 0 = data.timestamp) ∧
    (∀ (timestamp : Nat) (status : SystemStatus) (error : ErrorCode) (uptime : Nat),
      uptime < 2 ^ 32 →
      (Telemetry.encodeData rep
        { type := TelemetryType.SYSTEM, timestamp := timestamp,
          data := TelemetryPayload.system status error uptime } message).2.payload.getD 7 0
          * 2 ^ 24
        + (Telemetry.encodeData rep
        { type := TelemetryType.SYSTEM, timestamp := timestamp,
          data := TelemetryPayload.system status error uptime } message).2.payload.getD 8 0
          * 2 ^ 16
        + (Telemetry.encodeData rep
        { type := TelemetryType.SYSTEM, timestamp := timestamp,
          data := TelemetryPayload.system status error uptime } message).2.payload.getD 9 0
          * 2 ^ 8
        + (Telemetry.encodeData rep
        { type := TelemetryType.SYSTEM, timestamp := timestamp,
          data := TelemetryPayload.system status error uptime } message).2.payload.getD 10 0
        = uptime) := by
  refine ⟨fun data ht => ?_, fun timestamp status error uptime hu => ?_⟩
  · obtain ⟨-, b1, b2, b3, b4⟩ := Telemetry.encodeData_stamp rep data message (by omega)
    rw [b1, b2, b3, b4]
    exact byteOf_big_endian _ ht
  · obtain ⟨-, -, b7, b8, b9, b10⟩ := Telemetry.encodeData_system rep timestamp status error
      uptime message (by omega)
    rw [b7, b8, b9, b10]
    exact byteOf_big_endian _ hu

/-- C25, instance: the `SYSTEM` record stamped at 0x01020304 with uptime
0x0A0B0C0D gives the payload bytes 1, 2, 3, 4 at indices 1 to 4 and 10, 11, 12,
13 at indices 7 to 10. -/
theorem C25_timestamp_big_endian_witness :
    (Telemetry.encodeData zeroBits systemRecord {}).2.payload.getD 1 0 * 2 ^ 24
      + (Telemetry.encodeData zeroBits systemRecord {}).2.payload.getD 2 0 * 2 ^ 16
      + (Telemetry.encodeData zeroBits systemRecord {}).2.payload.getD 3 0 * 2 ^ 8
      + (Telemetry.encodeData zeroBits systemRecord {}).2.payload.getD 4 0 = 16909060 ∧
    (Telemetry.encodeData zeroBits systemRecord {}).2.payload.getD 7 0 * 2 ^ 24
      + (Telemetry.encodeData zeroBits systemRecord {}).2.payload.getD 8 0 * 2 ^ 16
      + (Telemetry.encodeData zeroBits systemRecord {}).2.payload.getD 9 0 * 2 ^ 8
      + (Telemetry.encodeData zeroBits systemRecord {}).2.payload.getD 10 0 = 168496141 ∧
    (Telemetry.encodeData zeroBits systemRecord {}).2.payload.take 11
      = [3, 1, 2, 3, 4, 3, 6, 10, 11, 12, 13] :=
  have h := C25_timestamp_big_endian zeroBits {} rfl
  ⟨h.1 systemRecord (by decide),
   h.2 16909060 SystemStatus.FLYING ErrorCode.GPS_LOST 168496141 (by decide), by decide⟩

/-! ## Telemetry rate limit -/

/-- Reducing once more modulo 2^32 after an addition changes nothing. -/
theorem wrap32_add_wrap32 (a b : Nat) : wrap32 (wrap32 a + b) = wrap32 (a + b) := by
  simp only [wrap32]
  omega

/-- An `update()` of an initialised reporter that comes too early returns
false and changes nothing but the tick counter, which it advances once. -/
theorem Telemetry.update_idle (s : System) (hi : s.telemetry.initialized = true)
    (h : sub32 (wrap32 (s.rtos.tickCount + SYSTEM_TICK_MS)) s.telemetry.lastUpdateMs
      < s.telemetry.updateRateMs) :
    Telemetry.update s
      = (false, { s with rtos := { s.rtos with
          tickCount := wrap32 (s.rtos.tickCount + SYSTEM_TICK_MS) } }) := by
  simp [Telemetry.update, hi, getTicks, Rtos.getTicks, h]

/-- An `update()` of an initialised reporter that is due returns true, records
the tick it read and refreshes the six records, reading seven further
ticks for their time stamps and the uptime. -/
theorem Telemetry.update_refresh (s : System) (hi : s.telemetry.initialized = true)
    (h : ¬ sub32 (wrap32 (s.rtos.tickCount + SYSTEM_TICK_MS)) s.telemetry.lastUpdateMs
      < s.telemetry.updateRateMs) :
    (Telemetry.update s).1 = true ∧
    (Telemetry.update s).2.telemetry.initialized = true ∧
    (Telemetry.update s).2.telemetry.updateRateMs = s.telemetry.updateRateMs ∧
    (Telemetry.update s).2.telemetry.lastUpdateMs = wrap32 (s.rtos.tickCount + 10) ∧
    (Telemetry.update s).2.rtos.tickCount = wrap32 (s.rtos.tickCount + 80) ∧
    (Telemetry.update s).2.telemetry.attitudeData =
      { s.telemetry.attitudeData with
        timestamp := wrap32 (s.rtos.tickCount + 20),
        data := .attitude s.imu.data.orientation.x s.imu.data.orientation.y
          s.imu.data.orientation.z } ∧
    (Telemetry.update s).2.telemetry.gpsData =
      { s.telemetry.gpsData with
        timestamp := wrap32 (s.rtos.tickCount + 30),
        data := .gps s.gps.data.position.latitude s.gps.data.position.longitude
          s.gps.data.position.altitude s.gps.data.speed s.gps.data.satellites } ∧
    (Telemetry.update s).2.telemetry.batteryData =
      { s.telemetry.batteryData with
        timestamp := wrap32 (s.rtos.tickCount + 40), data := .battery 11.8 5.2 75 } ∧
    (Telemetry.update s).2.telemetry.systemData =
      { s.telemetry.systemData with
        timestamp := wrap32 (s.rtos.tickCount + 50),
        data := .system SystemStatus.READY ErrorCode.NONE (wrap32 (s.rtos.tickCount + 60)) } ∧
    (Telemetry.update s).2.telemetry.missionData =
      { s.telemetry.missionData with
        timestamp := wrap32 (s.rtos.tickCount + 70), data := .mission 1 0 0 0 } ∧
    (Telemetry.update s).2.telemetry.targetData =
      { s.telemetry.targetData with
        timestamp := wrap32 (s.rtos.tickCount + 80),
        data := .target s.targetDetection.targetData.position.latitude
          s.targetDetection.targetData.position.longitude
          s.targetDetection.targetData.distance s.targetDetection.targetData.bearing
          s.targetDetection.targetData.confidence
          s.targetDetection.targetData.status.toNat s.targetDetection.targetData.type.toNat
          s.targetDetection.targetData.speed (Telemetry.calculateTimeToIntercept s) } := by
  simp only [SYSTEM_TICK_MS] at h
  simp [Telemetry.update, hi, getTicks, Rtos.getTicks, h, andAlso, Telemetry.updateAttitude,
    Telemetry.updateGps, Telemetry.updateBattery, Telemetry.updateSystem,
    Telemetry.updateMission, Telemetry.updateTarget, Telemetry.calculateTimeToIntercept,
    wrap32_add_wrap32, SYSTEM_TICK_MS, Imu.getData, Gps.getData, add_assoc]

/-- On an initialised reporter `update()` returns true exactly when it is
due. -/
theorem Telemetry.update_fst (s : System) (hi : s.telemetry.initialized = true) :
    (Telemetry.update s).1 = true ↔
      ¬ sub32 (wrap32 (s.rtos.tickCount + SYSTEM_TICK_MS)) s.telemetry.lastUpdateMs
        < s.telemetry.updateRateMs := by
  constructor
  · intro h hc
    rw [Telemetry.update_idle s hi hc] at h
    exact Bool.noConfusion h
  · intro h
    exact (Telemetry.update_refresh s hi h).1

/-- A run of `update()` calls that all return false leaves the reporter as it
was. -/
theorem Telemetry.updates_idle (s : System) (hi : s.telemetry.initialized = true) (n : Nat)
    (hidle : ∀ i : Nat, i < n → (Telemetry.update (Telemetry.updates i s)).1 = false) :
    (Telemetry.updates n s).telemetry = s.telemetry := by
  induction n with
  | zero => rfl
  | succ n ih =>
    have ih1 := ih (fun i h => hidle i (by omega))
    have hin : (Telemetry.updates n s).telemetry.initialized = true := by rw [ih1]; exact hi
    have hf := hidle n (by omega)
    by_cases hc : sub32 (wrap32 ((Telemetry.updates n s).rtos.tickCount + SYSTEM_TICK_MS))
        (Telemetry.updates n s).telemetry.lastUpdateMs
        < (Telemetry.updates n s).telemetry.updateRateMs
    · show (Telemetry.update (Telemetry.updates n s)).2.telemetry = s.telemetry
      rw [Telemetry.update_idle _ hin hc]
      exact ih1
    · rw [(Telemetry.update_fst _ hin).2 hc] at hf
      exact Bool.noConfusion hf

/-- C26: on an initialised reporter `update()` reads the tick `t` and, when
`(t - lastUpdateMs_) mod 2^32` is below `updateRateMs_`, returns false and
changes nothing but the tick counter (so `lastUpdateMs_` and the six records
stay); otherwise it returns true, sets `lastUpdateMs_` to `t` and refreshes
the six records, stamping them with the ticks it reads next.  Hence, when a
refreshing call at tick `t1` is followed by calls that return false and then
by a refreshing call at tick `t2`, `(t2 - t1) mod 2^32` is at least
`updateRateMs_`. -/
theorem C26_update_rate_limit :
    (∀ s : System, s.telemetry.initialized = true →
      sub32 (wrap32 (s.rtos.tickCount + 10)) s.telemetry.lastUpdateMs
        < s.telemetry.updateRateMs →
      Telemetry.update s
        = (false, { s with rtos := { s.rtos with
            tickCount := wrap32 (s.rtos.tickCount + 10) } }) ∧
      (Telemetry.update s).2.telemetry = s.telemetry) ∧
    (∀ s : System, s.telemetry.initialized = true →
      ¬ sub32 (wrap32 (s.rtos.tickCount + 10)) s.telemetry.lastUpdateMs
        < s.telemetry.updateRateMs →
      (Telemetry.update s).1 = true ∧
      (Telemetry.update s).2.telemetry.lastUpdateMs = wrap32 (s.rtos.tickCount + 10) ∧
      (Telemetry.update s).2.telemetry.attitudeData =
        { s.telemetry.attitudeData with
          timestamp := wrap32 (s.rtos.tickCount + 20),
          data := .attitude s.imu.data.orientation.x s.imu.data.orientation.y
            s.imu.data.orientation.z } ∧
      (Telemetry.update s).2.telemetry.gpsData =
        { s.telemetry.gpsData with
          timestamp := wrap32 (s.rtos.tickCount + 30),
          data := .gps s.gps.data.position.latitude s.gps.data.position.longitude
            s.gps.data.position.altitude s.gps.data.speed s.gps.data.satellites } ∧
      (Telemetry.update s).2.telemetry.batteryData =
        { s.telemetry.batteryData with
          timestamp := wrap32 (s.rtos.tickCount + 40), data := .battery 11.8 5.2 75 } ∧
      (Telemetry.update s).2.telemetry.systemData =
        { s.telemetry.systemData with
          timestamp := wrap32 (s.rtos.tickCount + 50),
          data := .system SystemStatus.READY ErrorCode.NONE
            (wrap32 (s.rtos.tickCount + 60)) } ∧
      (Telemetry.update s).2.telemetry.missionData =
        { s.telemetry.missionData with
          timestamp := wrap32 (s.rtos.tickCount + 70), data := .mission 1 0 0 0 } ∧
      (Telemetry.update s).2.telemetry.targetData =
        { s.telemetry.targetData with
          timestamp := wrap32 (s.rtos.tickCount + 80),
          data := .target s.targetDetection.targetData.position.latitude
            s.targetDetection.targetData.position.longitude
            s.targetDetection.targetData.distance s.targetDetection.targetData.bearing
            s.targetDetection.targetData.confidence
            s.targetDetection.targetData.status.toNat
            s.targetDetection.targetData.type.toNat
            s.targetDetection.targetData.speed (Telemetry.calculateTimeToIntercept s) }) ∧
    (∀ (s : System) (n : Nat), s.telemetry.initialized = true →
      (Telemetry.update s).1 = true →
      (∀ i : Nat, i < n →
        (Telemetry.update (Telemetry.updates i (Telemetry.update s).2)).1 = false) →
      (Telemetry.update (Telemetry.updates n (Telemetry.update s).2)).1 = true →
      s.telemetry.updateRateMs
        ≤ sub32 (wrap32 ((Telemetry.updates n (Telemetry.update s).2).rtos.tickCount + 10))
            (wrap32 (s.rtos.tickCount + 10))) := by
  refine ⟨fun s hi h => ?_, fun s hi h => ?_, fun s n hi h1 hidle h2 => ?_⟩
  · have e := Telemetry.update_idle s hi h
    exact ⟨e, by rw [e]⟩
  · obtain ⟨r1, -, -, r4, -, r6, r7, r8, r9, r10, r11⟩ := Telemetry.update_refresh s hi h
    exact ⟨r1, r4, r6, r7, r8, r9, r10, r11⟩
  · obtain ⟨-, r2, r3, r4, -⟩ := Telemetry.update_refresh s hi ((Telemetry.update_fst s hi).1 h1)
    have ht := Telemetry.updates_idle (Telemetry.update s).2 r2 n hidle
    have hin : (Telemetry.updates n (Telemetry.update s).2).telemetry.initialized = true := by
      rw [ht]; exact r2
    have hc := (Telemetry.update_fst _ hin).1 h2
    rw [ht, r3, r4] at hc
    exact not_lt.mp hc

/-- C26, instance: with the rate at 100 ms and `lastUpdateMs_` at 0, a call at
counter 0 reads tick 10 and returns false; a call at counter 90 reads tick
100 and refreshes; the two calls after it read ticks 180 and 190 and return
false, and the next one reads tick 200 and refreshes, 100 ms after the first. -/
theorem C26_update_rate_limit_witness :
    (Telemetry.update (telemetryBench 0 0)).1 = false ∧
    (Telemetry.update (telemetryBench 0 0)).2.telemetry = (telemetryBench 0 0).telemetry ∧
    (Telemetry.update (telemetryBench 90 0)).1 = true ∧
    (Telemetry.update (telemetryBench 90 0)).2.telemetry.lastUpdateMs = 100 ∧
    (Telemetry.update
      (Telemetry.updates 2 (Telemetry.update (telemetryBench 90 0)).2)).1 = true ∧
    (telemetryBench 90 0).telemetry.updateRateMs
      ≤ sub32
          (wrap32 ((Telemetry.updates 2
            (Telemetry.update (telemetryBench 90 0)).2).rtos.tickCount + 10))
          (wrap32 ((telemetryBench 90 0).rtos.tickCount + 10)) := by
  have a := C26_update_rate_limit.1 (telemetryBench 0 0) rfl (by decide)
  have b := C26_update_rate_limit.2.1 (telemetryBench 90 0) rfl (by decide)
  obtain ⟨-, r2, r3, r4, r5, -⟩ := Telemetry.update_refresh (telemetryBench 90 0) rfl
    (by decide)
  have r3a : (Telemetry.update (telemetryBench 90 0)).2.telemetry.updateRateMs = 100 := r3
  have r4a : (Telemetry.update (telemetryBench 90 0)).2.telemetry.lastUpdateMs = 100 :=
    r4.trans (by decide)
  have r5a : (Telemetry.update (telemetryBench 90 0)).2.rtos.tickCount = 170 :=
    r5.trans (by decide)
  have e1 := Telemetry.update_idle (Telemetry.update (telemetryBench 90 0)).2 r2
    (by rw [r3a, r4a, r5a]; decide)
  have u1 : Telemetry.updates 1 (Telemetry.update (telemetryBench 90 0)).2
      = (Telemetry.update (Telemetry.update (telemetryBench 90 0)).2).2 := rfl
  rw [e1] at u1
  have e2 := Telemetry.update_idle (Telemetry.updates 1 (Telemetry.update
    (telemetryBench 90 0)).2) (by rw [u1]; exact r2)
    (by rw [u1]; simp only [r3a, r4a, r5a]; decide)
  have u2 : Telemetry.updates 2 (Telemetry.update (telemetryBench 90 0)).2
      = (Telemetry.update (Telemetry.updates 1
          (Telemetry.update (telemetryBench 90 0)).2)).2 := rfl
  rw [e2] at u2
  have hidle : ∀ i : Nat, i < 2 →
      (Telemetry.update (Telemetry.updates i (Telemetry.update
        (telemetryBench 90 0)).2)).1 = false := by
    intro i hi
    interval_cases i
    · show (Telemetry.update (Telemetry.update (telemetryBench 90 0)).2).1 = false
      rw [e1]
    · rw [e2]
  have hdue : (Telemetry.update (Telemetry.updates 2 (Telemetry.update
      (telemetryBench 90 0)).2)).1 = true := by
    refine (Telemetry.update_fst _ (by rw [u2, u1]; exact r2)).2 ?_
    rw [u2, u1]
    simp only [r3a, r4a, r5a]
    decide
  have c := C26_update_rate_limit.2.2 (telemetryBench 90 0) 2 rfl b.1 hidle hdue
  refine ⟨?_, a.2, b.1, b.2.1.trans (by decide), hdue, c⟩
  rw [a.1]

/-! ## The mission state machine -/

/-- The safety check never leaves `EMERGENCY`. -/
theorem checkSafetyConditions_of_emergency (s : System) (t : MainTask)
    (h : t.systemStatus = SystemStatus.EMERGENCY) :
    (MainTask.checkSafetyConditions s t).systemStatus = SystemStatus.EMERGENCY := by
  unfold MainTask.checkSafetyConditions
  split_ifs
  · rfl
  · exact h

/-- The state switch in `EMERGENCY` runs `handleEmergency`. -/
theorem dispatch_of_emergency (env : Env) (s : System) (t : MainTask)
    (h : t.systemStatus = SystemStatus.EMERGENCY) :
    MainTask.dispatch env s t = MainTask.handleEmergency s t := by
  obtain ⟨st, armed, locked, attack⟩ := t
  simp only at h
  subst h
  rfl

/-- An iteration that starts in `EMERGENCY` ends in `EMERGENCY`. -/
theorem iteration_of_emergency (env : Env) (s : System) (t : MainTask)
    (h : t.systemStatus = SystemStatus.EMERGENCY) :
    (MainTask.iteration env s t).2.systemStatus = SystemStatus.EMERGENCY := by
  unfold MainTask.iteration
  simp only []
  have h1 := checkSafetyConditions_of_emergency (MainTask.updateSubsystems env s) t h
  have h2 := processCommands_of_emergency (MainTask.updateSubsystems env s) _ h1
  rw [dispatch_of_emergency _ _ _ h2, handleEmergency_systemStatus]
  exact h2

/-- C34: an iteration that starts with `systemStatus = EMERGENCY` ends with
`systemStatus = EMERGENCY`, for every environment, every state of the
singletons (so every last command and every safety mode); hence after any
number of further iterations the status is still `EMERGENCY`. -/
theorem C34_emergency_absorbing :
    (∀ (env : Env) (s : System) (t : MainTask),
      t.systemStatus = SystemStatus.EMERGENCY →
      (MainTask.iteration env s t).2.systemStatus = SystemStatus.EMERGENCY) ∧
    (∀ (inputs : List (Env × System)) (t : MainTask),
      t.systemStatus = SystemStatus.EMERGENCY →
      (MainTask.runs inputs t).systemStatus = SystemStatus.EMERGENCY) := by
  refine ⟨iteration_of_emergency, fun inputs => ?_⟩
  induction inputs with
  | nil => intro t h; exact h
  | cons input rest ih =>
    intro t h
    exact ih _ (iteration_of_emergency input.1 input.2 t h)

/-- C34, instance: the armed task in `EMERGENCY`, the safety mode back at
`NORMAL`, stays in `EMERGENCY` through an iteration with last command `ARM`
and through three iterations with the commands `ARM`, `DISARM`, `ABORT`. -/
theorem C34_emergency_absorbing_witness :
    (benchSystem CommandType.ARM {} {}).safetyManager.safetyData.mode = SafetyMode.NORMAL ∧
    (MainTask.iteration quietEnv (benchSystem CommandType.ARM {} {})
      emergencyTask).2.systemStatus = SystemStatus.EMERGENCY ∧
    (MainTask.runs
      [(quietEnv, benchSystem CommandType.ARM {} {}),
       (quietEnv, benchSystem CommandType.DISARM {} {}),
       (quietEnv, benchSystem CommandType.ABORT {} {})] emergencyTask).systemStatus
      = SystemStatus.EMERGENCY :=
  ⟨rfl, C34_emergency_absorbing.1 quietEnv _ emergencyTask rfl,
   C34_emergency_absorbing.2 _ emergencyTask rfl⟩

/-- The safety check keeps the flags in agreement with the state. -/
theorem checkSafetyConditions_flagsAgree (s : System) (t : MainTask)
    (h : MainTask.FlagsAgree t) : MainTask.FlagsAgree (MainTask.checkSafetyConditions s t) := by
  unfold MainTask.checkSafetyConditions
  split_ifs
  · simp [MainTask.FlagsAgree]
  · exact h

/-- Command processing keeps the flags in agreement with the state. -/
theorem processCommands_flagsAgree (s : System) (t : MainTask)
    (h : MainTask.FlagsAgree t) : MainTask.FlagsAgree (MainTask.processCommands s t) := by
  obtain ⟨st, armed, locked, attack⟩ := t
  unfold MainTask.processCommands
  simp only [Radio.getLastCommand]
  cases s.radio.lastCommand.type <;> cases st <;> cases locked <;>
    simp_all [MainTask.FlagsAgree]

/-- The state switch keeps the flags in agreement with the state. -/
theorem dispatch_flagsAgree (env : Env) (s : System) (t : MainTask)
    (h : MainTask.FlagsAgree t) : MainTask.FlagsAgree (MainTask.dispatch env s t).2 := by
  obtain ⟨st, armed, locked, attack⟩ := t
  cases st <;> simp only [MainTask.dispatch, MainTask.handleEmergency, MainTask.handleError,
    MainTask.checkAndUpdateTarget] <;>
    (try split_ifs) <;> simp_all [MainTask.FlagsAgree]

/-- A loop iteration keeps the flags in agreement with the state. -/
theorem iteration_flagsAgree (env : Env) (s : System) (t : MainTask)
    (h : MainTask.FlagsAgree t) : MainTask.FlagsAgree (MainTask.iteration env s t).2 :=
  dispatch_flagsAgree env _ _
    (processCommands_flagsAgree _ _ (checkSafetyConditions_flagsAgree _ _ h))

/-- C36: the main task as constructed has its flags in agreement with its
state, and every loop iteration keeps them so, whatever the environment and
the state of the singletons; hence after any sequence of iterations from the
constructed task, `ARMED`, `FLYING`, `TARGETING` or `ATTACKING` implies
`armed`, and `ATTACKING` implies `inAttackMode`. -/
theorem C36_flags_agree_with_state :
    (∀ (env : Env) (s : System) (t : MainTask), MainTask.FlagsAgree t →
      MainTask.FlagsAgree (MainTask.iteration env s t).2) ∧
    (∀ inputs : List (Env × System),
      ((MainTask.runs inputs {}).systemStatus = SystemStatus.ARMED ∨
        (MainTask.runs inputs {}).systemStatus = SystemStatus.FLYING ∨
        (MainTask.runs inputs {}).systemStatus = SystemStatus.TARGETING ∨
        (MainTask.runs inputs {}).systemStatus = SystemStatus.ATTACKING →
        (MainTask.runs inputs {}).armed = true) ∧
      ((MainTask.runs inputs {}).systemStatus = SystemStatus.ATTACKING →
        (MainTask.runs inputs {}).inAttackMode = true)) := by
  refine ⟨iteration_flagsAgree, fun inputs => ?_⟩
  have key : ∀ (inputs : List (Env × System)) (t : MainTask), MainTask.FlagsAgree t →
      MainTask.FlagsAgree (MainTask.runs inputs t) := by
    intro inputs
    induction inputs with
    | nil => intro t h; exact h
    | cons input rest ih =>
      intro t h
      exact ih _ (iteration_flagsAgree input.1 input.2 t h)
  exact key inputs {} (by simp [MainTask.FlagsAgree])

/-- C36, instance: the armed task agrees, and still agrees after an iteration
with last command `TAKEOFF`; after three iterations from the constructed
task with the commands `ARM`, `TAKEOFF`, `ATTACK` the flags agree. -/
theorem C36_flags_agree_with_state_witness :
    MainTask.FlagsAgree armedTask ∧
    MainTask.FlagsAgree
      (MainTask.iteration quietEnv (benchSystem CommandType.TAKEOFF {} {}) armedTask).2 ∧
    ((MainTask.runs
        [(quietEnv, benchSystem CommandType.ARM {} {}),
         (quietEnv, benchSystem CommandType.TAKEOFF {} {}),
         (quietEnv, benchSystem CommandType.ATTACK {} {})] {}).systemStatus
        = SystemStatus.ATTACKING →
      (MainTask.runs
        [(quietEnv, benchSystem CommandType.ARM {} {}),
         (quietEnv, benchSystem CommandType.TAKEOFF {} {}),
         (quietEnv, benchSystem CommandType.ATTACK {} {})] {}).inAttackMode = true) :=
  have h : MainTask.FlagsAgree armedTask := by simp [MainTask.FlagsAgree, armedTask]
  ⟨h, C36_flags_agree_with_state.1 quietEnv _ armedTask h,
   (C36_flags_agree_with_state.2 _).2⟩

/-! ## What a loop iteration leaves alone -/

/-- Polling the radio returns false and leaves the radio as it was: the UART
never reports a byte. -/
theorem Radio.processReceivedMessages_eq (uart : HalUart) (r : Radio) :
    (r.processReceivedMessages uart).1 = false ∧ (r.processReceivedMessages uart).2.2 = r := by
  unfold Radio.processReceivedMessages
  have ha : (uart.available r.radioUartPort).1 = 0 := by
    unfold HalUart.available
    simp only []
    split_ifs <;> rfl
  simp only [ha]
  split_ifs <;> exact ⟨rfl, rfl⟩

/-- `Telemetry::update` leaves the motors and the radio alone. -/
theorem Telemetry.update_keeps_actuators (s : System) :
    (Telemetry.update s).2.motorController = s.motorController ∧
    (Telemetry.update s).2.radio = s.radio := by
  unfold Telemetry.update
  split_ifs
  · exact ⟨rfl, rfl⟩
  · simp only []
    split_ifs
    · exact ⟨rfl, rfl⟩
    · simp [getTicks, andAlso, Telemetry.updateAttitude, Telemetry.updateGps,
        Telemetry.updateBattery, Telemetry.updateSystem, Telemetry.updateMission,
        Telemetry.updateTarget]

/-- `Telemetry::send` leaves the motors and the radio alone. -/
theorem Telemetry.send_actuators (s : System) :
    (Telemetry.send s).2.motorController = s.motorController ∧
    (Telemetry.send s).2.radio = s.radio := by
  have h : ∀ (s : System) (type : TelemetryType),
      (Telemetry.sendData s type).2.motorController = s.motorController ∧
      (Telemetry.sendData s type).2.radio = s.radio := by
    intro s type
    unfold Telemetry.sendData
    split_ifs <;> exact ⟨rfl, rfl⟩
  have ha : ∀ (acc : Bool × System) (type : TelemetryType),
      (andAlso acc (fun s => Telemetry.sendData s type)).2.motorController
        = acc.2.motorController ∧
      (andAlso acc (fun s => Telemetry.sendData s type)).2.radio = acc.2.radio := by
    intro acc type
    unfold andAlso
    split_ifs
    · exact h acc.2 type
    · exact ⟨rfl, rfl⟩
  unfold Telemetry.send
  refine ⟨?_, ?_⟩
  · rw [(ha _ _).1, (ha _ _).1, (ha _ _).1, (ha _ _).1, (ha _ _).1, (ha _ _).1]
  · rw [(ha _ _).2, (ha _ _).2, (ha _ _).2, (ha _ _).2, (ha _ _).2, (ha _ _).2]

/-- The vector update leaves the motors and the radio alone. -/
theorem TargetDetection.updateTargetVectors_actuators (math : FloatMath) (s : System) :
    (TargetDetection.updateTargetVectors math s).motorController = s.motorController ∧
    (TargetDetection.updateTargetVectors math s).radio = s.radio := by
  unfold TargetDetection.updateTargetVectors
  dsimp only
  split_ifs <;> simp [TargetDetection.setData, getTicks]

/-- The synthetic detection leaves the motors and the radio alone. -/
theorem TargetDetection.detect_actuators (env : Env) (s : System) :
    (TargetDetection.detectTargetWithSensors env s).2.motorController = s.motorController ∧
    (TargetDetection.detectTargetWithSensors env s).2.radio = s.radio := by
  unfold TargetDetection.detectTargetWithSensors
  dsimp only
  split_ifs <;> simp [TargetDetection.setData, getTicks]

/-- The locked branch leaves the motors and the radio alone. -/
theorem TargetDetection.updateLocked_actuators (math : FloatMath) (s : System) :
    (TargetDetection.updateLocked math s).motorController = s.motorController ∧
    (TargetDetection.updateLocked math s).radio = s.radio := by
  unfold TargetDetection.updateLocked
  dsimp only
  split_ifs <;> simp [TargetDetection.setData, getTicks]

/-- `TargetDetection::update` leaves the motors and the radio alone. -/
theorem TargetDetection.update_leaves_actuators (env : Env) (s : System) :
    (TargetDetection.update env s).2.motorController = s.motorController ∧
    (TargetDetection.update env s).2.radio = s.radio := by
  unfold TargetDetection.update
  split_ifs with hi
  · exact ⟨rfl, rfl⟩
  · simp only [(TargetDetection.updateTargetVectors_actuators _ _).1,
      (TargetDetection.updateTargetVectors_actuators _ _).2]
    split <;> (try split_ifs) <;>
      simp [TargetDetection.setData, getTicks, TargetDetection.detect_actuators,
        TargetDetection.updateLocked_actuators]

/-- `SafetyManager::update` leaves the motors and the radio alone. -/
theorem SafetyManager.update_spares_actuators (s : System) :
    (SafetyManager.update s).2.motorController = s.motorController ∧
    (SafetyManager.update s).2.radio = s.radio := by
  cases hi : s.safetyManager.initialized
  · simp [SafetyManager.update, hi]
  · obtain ⟨-, -, h3, -, h5, -⟩ := SafetyManager.update_spec s hi
    exact ⟨h5, h3⟩

/-- The update of the subsystems at the head of a loop iteration leaves the
motors and the radio (so the last command) alone. -/
theorem updateSubsystems_actuators (env : Env) (s : System) :
    (MainTask.updateSubsystems env s).motorController = s.motorController ∧
    (MainTask.updateSubsystems env s).radio = s.radio := by
  unfold MainTask.updateSubsystems
  simp only [(SafetyManager.update_spares_actuators _).1, (SafetyManager.update_spares_actuators _).2,
    (TargetDetection.update_leaves_actuators _ _).1, (TargetDetection.update_leaves_actuators _ _).2,
    (Telemetry.send_actuators _).1, (Telemetry.send_actuators _).2,
    (Telemetry.update_keeps_actuators _).1, (Telemetry.update_keeps_actuators _).2,
    (Radio.processReceivedMessages_eq _ _).2, and_self]

/-- On the action recommended for any safety mode, `executeAction` returns
true and changes nothing, and `handleEmergency` only clears `inAttackMode`. -/
theorem handleEmergency_eq (s : System) (t : MainTask) :
    MainTask.handleEmergency s t = (s, { t with inAttackMode := false }) := by
  unfold MainTask.handleEmergency
  cases hm : s.safetyManager.getMode <;>
    simp [SafetyManager.getRecommendedAction, SafetyManager.executeAction]

/-- What a loop iteration that starts in `EMERGENCY` does. -/
theorem iteration_emergency_spec (env : Env) (s : System) (t : MainTask)
    (h : t.systemStatus = SystemStatus.EMERGENCY) :
    (MainTask.iteration env s t).1.motorController = s.motorController ∧
    (MainTask.iteration env s t).2.systemStatus = SystemStatus.EMERGENCY ∧
    (MainTask.iteration env s t).2.inAttackMode = false ∧
    (MainTask.iteration env s t).2.targetLocked = t.targetLocked ∧
    (MainTask.iteration env s t).2.armed
      = (if s.radio.lastCommand.type = CommandType.DISARM then false else t.armed) := by
  obtain ⟨hmc, hr⟩ := updateSubsystems_actuators env s
  unfold MainTask.iteration
  simp only []
  generalize MainTask.updateSubsystems env s = u at hmc hr ⊢
  obtain ⟨st, armed, locked, attack⟩ := t
  simp only at h
  subst h
  have hc : MainTask.checkSafetyConditions u
      { systemStatus := SystemStatus.EMERGENCY, armed := armed, targetLocked := locked,
        inAttackMode := attack }
      = { systemStatus := SystemStatus.EMERGENCY, armed := armed, targetLocked := locked,
          inAttackMode := attack } := by
    unfold MainTask.checkSafetyConditions
    split_ifs <;> rfl
  rw [hc]
  simp only [MainTask.processCommands, Radio.getLastCommand, hr]
  cases hcmd : s.radio.lastCommand.type <;>
    simp [MainTask.dispatch, handleEmergency_eq, hmc]

/-- C35, counterexample: the armed task in `EMERGENCY`, with the default last
command `DISARM`: the iteration ends with `armed` cleared. -/
theorem C35_counterexample :
    emergencyTask.systemStatus = SystemStatus.EMERGENCY ∧
    emergencyTask.armed = true ∧
    (benchSystem CommandType.DISARM {} {}).radio.getLastCommand = {} ∧
    (MainTask.iteration quietEnv (benchSystem CommandType.DISARM {} {})
      emergencyTask).2.systemStatus = SystemStatus.EMERGENCY ∧
    (MainTask.iteration quietEnv (benchSystem CommandType.DISARM {} {})
      emergencyTask).2.armed = false := by
  obtain ⟨-, h2, -, -, h5⟩ := iteration_emergency_spec quietEnv
    (benchSystem CommandType.DISARM {} {}) emergencyTask rfl
  exact ⟨rfl, rfl, rfl, h2, by rw [h5]; rfl⟩

/-- C35, amended: for each of the four safety modes `getRecommendedAction`
returns `NONE`, `ALERT`, `RTL` or `LAND`, never `DISARM` or `ABORT`, and
`executeAction` on that action returns true and changes nothing.  Hence a loop
iteration that starts in `EMERGENCY` leaves the motor controller as it was,
stays in `EMERGENCY`, clears `inAttackMode`, keeps `targetLocked`, and keeps
`armed` unless the last received command is `DISARM`, in which case it
clears `armed`. -/
theorem C35_emergency_iteration :
    (∀ (m : SafetyManager) (mode : SafetyMode),
      m.getRecommendedAction mode =
        (match mode with
         | .NORMAL => SafetyAction.NONE | .WARNING => SafetyAction.ALERT
         | .CRITICAL => SafetyAction.RTL | .EMERGENCY => SafetyAction.LAND) ∧
      m.getRecommendedAction mode ≠ SafetyAction.DISARM ∧
      m.getRecommendedAction mode ≠ SafetyAction.ABORT) ∧
    (∀ (s : System) (m : SafetyManager) (mode : SafetyMode),
      SafetyManager.executeAction s (m.getRecommendedAction mode) = (true, s)) ∧
    (∀ (env : Env) (s : System) (t : MainTask), t.systemStatus = SystemStatus.EMERGENCY →
      (MainTask.iteration env s t).1.motorController = s.motorController ∧
      (MainTask.iteration env s t).2.systemStatus = SystemStatus.EMERGENCY ∧
      (MainTask.iteration env s t).2.inAttackMode = false ∧
      (MainTask.iteration env s t).2.targetLocked = t.targetLocked ∧
      (MainTask.iteration env s t).2.armed
        = (if s.radio.lastCommand.type = CommandType.DISARM then false else t.armed)) := by
  refine ⟨fun m mode => ?_, fun s m mode => ?_, iteration_emergency_spec⟩
  · cases mode <;> simp [SafetyManager.getRecommendedAction]
  · cases mode <;> rfl

/-- C35, instance: the armed task in `EMERGENCY` with last command `ABORT`
keeps `armed`, clears `inAttackMode` and leaves the motors as they were. -/
theorem C35_emergency_iteration_witness :
    (MainTask.iteration quietEnv (benchSystem CommandType.ABORT {} {})
      emergencyTask).1.motorController = {} ∧
    (MainTask.iteration quietEnv (benchSystem CommandType.ABORT {} {})
      emergencyTask).2.armed = true ∧
    (MainTask.iteration quietEnv (benchSystem CommandType.ABORT {} {})
      emergencyTask).2.inAttackMode = false :=
  have h := C35_emergency_iteration.2.2 quietEnv (benchSystem CommandType.ABORT {} {})
    emergencyTask rfl
  ⟨h.1, h.2.2.2.2.trans rfl, h.2.2.1⟩

/-! ## Invariants of the Safety Manager, the radio, the motors and the detector -/

/-- The target step keeps the stored mode in agreement with the severity
table. -/
theorem SafetyManager.updateTargetStatus_modeAgrees (s : System)
    (h : SafetyManager.ModeAgrees s.safetyManager) :
    SafetyManager.ModeAgrees (SafetyManager.updateTargetStatus s).safetyManager := by
  unfold SafetyManager.updateTargetStatus
  simp only [TargetDetection.getTargetData, SafetyManager.setData]
  split_ifs
  · unfold SafetyManager.ModeAgrees
    rw [(SafetyManager.clearError_spec _).2.1, (SafetyManager.clearError_spec _).2.2]
    rfl
  · exact h

/-- Every public operation keeps the stored mode in agreement with the
severity table. -/
theorem SafetyManager.apply_modeAgrees (s : System) (op : SafetyManager.Op)
    (h : SafetyManager.ModeAgrees s.safetyManager) :
    SafetyManager.ModeAgrees (SafetyManager.apply s op).safetyManager := by
  cases op with
  | initialise =>
    simp only [SafetyManager.apply, SafetyManager.initialise]
    split_ifs
    · exact h
    · rfl
  | update =>
    simp only [SafetyManager.apply]
    cases hi : s.safetyManager.initialized
    · simpa [SafetyManager.update, hi] using h
    · obtain ⟨-, -, -, -, -, -, h7, -, h9⟩ := SafetyManager.update_spec s hi
      unfold SafetyManager.ModeAgrees
      rw [h9, h7]
  | setError error =>
    obtain ⟨h1, h2, h3⟩ := SafetyManager.setError_spec s error
    unfold SafetyManager.ModeAgrees
    simp only [SafetyManager.apply]
    rw [h3, h2, h1.2.2.2.2.2.2]
  | clearError =>
    obtain ⟨-, h2, h3⟩ := SafetyManager.clearError_spec s
    unfold SafetyManager.ModeAgrees
    simp only [SafetyManager.apply]
    rw [h3, h2]
    rfl
  | checkTargetConditions =>
    have hu := SafetyManager.updateTargetStatus_modeAgrees s h
    simp only [SafetyManager.apply, SafetyManager.checkTargetConditions]
    split_ifs
    · obtain ⟨h1, h2, h3⟩ := SafetyManager.setError_spec (SafetyManager.updateTargetStatus s)
        ErrorCode.TARGET_LOST
      unfold SafetyManager.ModeAgrees
      rw [h3, h2, h1.2.2.2.2.2.2]
    · exact hu
    · exact hu
  | executeAction action =>
    cases action <;> exact h

/-- C37: the manager as constructed has its mode in agreement with the
severity table; each public operation (`initialize`, `update`, `setError`,
`clearError`, `checkTargetConditions`, `executeAction`) keeps it so, whatever
the state of the other singletons; hence after any sequence of these
operations the stored mode is the one the table gives for the stored error
and battery level, and `isSafe()` holds exactly when the stored error is
`NONE`. -/
theorem C37_mode_agrees_with_table :
    SafetyManager.ModeAgrees {} ∧
    (∀ (s : System) (op : SafetyManager.Op), SafetyManager.ModeAgrees s.safetyManager →
      SafetyManager.ModeAgrees (SafetyManager.apply s op).safetyManager) ∧
    (∀ calls : List (System × SafetyManager.Op),
      (SafetyManager.runs calls {}).safetyData.mode
        = SafetyManager.severityTable (SafetyManager.runs calls {}).safetyData.error
            (SafetyManager.runs calls {}).safetyData.battery.remaining ∧
      ((SafetyManager.runs calls {}).isSafe = true ↔
        (SafetyManager.runs calls {}).safetyData.error = ErrorCode.NONE)) := by
  have key : ∀ (calls : List (System × SafetyManager.Op)) (m : SafetyManager),
      SafetyManager.ModeAgrees m → SafetyManager.ModeAgrees (SafetyManager.runs calls m) := by
    intro calls
    induction calls with
    | nil => intro m h; exact h
    | cons call rest ih =>
      intro m h
      exact ih _ (SafetyManager.apply_modeAgrees { call.1 with safetyManager := m } call.2 h)
  refine ⟨rfl, SafetyManager.apply_modeAgrees, fun calls => ?_⟩
  have h := key calls {} rfl
  refine ⟨h, ?_⟩
  unfold SafetyManager.isSafe
  rw [h, beq_iff_eq]
  exact SafetyManager.severityTable_eq_normal _ _

/-- C37, instance: on the healthy bench state, whose mode agrees with the
table, `setError(LOW_BATTERY)` leaves a mode that agrees with the table. -/
theorem C37_mode_agrees_with_table_witness :
    SafetyManager.ModeAgrees (lowBatteryBench 5).safetyManager ∧
    SafetyManager.ModeAgrees
      (SafetyManager.apply (lowBatteryBench 5)
        (SafetyManager.Op.setError ErrorCode.LOW_BATTERY)).safetyManager :=
  have h : SafetyManager.ModeAgrees (lowBatteryBench 5).safetyManager := rfl
  ⟨h, C37_mode_agrees_with_table.2.1 _ _ h⟩

/-- C38: `HalUart::available` returns 0 for every port and state, so
`Radio::processReceivedMessages` returns false and leaves the radio as it
was; hence after any sequence of public operations on the radio as
constructed, whatever the UART state at each of them, `getLastCommand()` is
the default command (`DISARM`, all parameters 0) and the status is not
`CONNECTED`. -/
theorem C38_radio_never_receives :
    (∀ (uart : HalUart) (port : UartPort), (uart.available port).1 = 0) ∧
    (∀ (uart : HalUart) (r : Radio),
      (r.processReceivedMessages uart).1 = false ∧
      (r.processReceivedMessages uart).2.2 = r) ∧
    (∀ calls : List (HalUart × Radio.Op),
      (Radio.runs calls {}).getLastCommand
        = { type := CommandType.DISARM, param1 := 0, param2 := 0, param3 := 0, param4 := 0 } ∧
      (Radio.runs calls {}).getStatus ≠ RadioStatus.CONNECTED) := by
  have key : ∀ (calls : List (HalUart × Radio.Op)) (r : Radio),
      r.lastCommand = {} → r.status ≠ RadioStatus.CONNECTED →
      (Radio.runs calls r).lastCommand = {} ∧
      (Radio.runs calls r).status ≠ RadioStatus.CONNECTED := by
    intro calls
    induction calls with
    | nil => intro r h1 h2; exact ⟨h1, h2⟩
    | cons call rest ih =>
      intro r h1 h2
      rcases call with ⟨uart, op⟩
      cases op with
      | initialise =>
        refine ih _ ?_ ?_
        · simp only [Radio.apply, Radio.initialise]
          split_ifs <;> exact h1
        · simp only [Radio.apply, Radio.initialise]
          split_ifs
          · exact h2
          · simp
          · simp
      | processReceivedMessages =>
        have e : Radio.apply uart r Radio.Op.processReceivedMessages = r :=
          (Radio.processReceivedMessages_eq uart r).2
        simp only [Radio.runs, e]
        exact ih r h1 h2
      | sendMessage message => exact ih r h1 h2
      | sendCommand command => exact ih r h1 h2
  refine ⟨fun uart port => ?_, Radio.processReceivedMessages_eq, fun calls => ?_⟩
  · unfold HalUart.available
    simp only []
    split_ifs <;> rfl
  · exact key calls {} rfl (by decide)

/-- On a motor that is not initialised, `initialize`, `setSpeed` and `stop`
return false and change nothing. -/
theorem Motor.uninitialised_ops (gpio : HalGpio) (m : Motor) (h : m.initialized = false) :
    m.initialise gpio = (false, m) ∧
    (∀ speed : Float32, m.setSpeed gpio speed = (false, m)) ∧
    m.stop gpio = (false, m) := by
  obtain ⟨position, speed, status, initialized⟩ := m
  simp only at h
  subst h
  refine ⟨?_, fun speed => ?_, ?_⟩
  · unfold Motor.initialise
    simp only [Motor.stop, Motor.setSpeed]
    cases gpio.configurePin _ _ GpioMode.OUTPUT GpioPull.NONE <;> simp
  · simp [Motor.setSpeed]
  · simp [Motor.stop, Motor.setSpeed]

/-- On the controller as constructed every operation returns false and
changes nothing. -/
theorem MotorController.apply_fresh (gpio : HalGpio) (op : MotorController.Op) :
    MotorController.apply gpio {} op = (false, {}) := by
  have hm : ∀ position : MotorPosition,
      (({} : MotorController).getMotor position).initialized = false := by
    intro position
    cases position <;> rfl
  have hs : ∀ a b c d : Float32,
      ({} : MotorController).setSpeeds gpio a b c d = (false, {}) := by
    intro a b c d
    simp [MotorController.setSpeeds]
  cases op with
  | motorInitialise position =>
    simp only [MotorController.apply, MotorController.onMotor,
      (Motor.uninitialised_ops gpio _ (hm position)).1]
    cases position <;> rfl
  | motorSetSpeed position speed =>
    simp only [MotorController.apply, MotorController.onMotor,
      (Motor.uninitialised_ops gpio _ (hm position)).2.1 speed]
    cases position <;> rfl
  | motorStop position =>
    simp only [MotorController.apply, MotorController.onMotor,
      (Motor.uninitialised_ops gpio _ (hm position)).2.2]
    cases position <;> rfl
  | initialise =>
    have h1 : Motor.initialise gpio { position := MotorPosition.FRONT_LEFT }
        = (false, { position := MotorPosition.FRONT_LEFT }) :=
      (Motor.uninitialised_ops gpio _ rfl).1
    simp [MotorController.apply, MotorController.initialise, MotorController.onMotor,
      andAlso, h1, MotorController.setMotor, MotorController.getMotor]
  | setSpeeds a b c d => exact hs a b c d
  | setAllSpeeds speed => exact hs speed speed speed speed
  | stopAll => exact hs 0 0 0 0

/-- C33: on a motor that is not initialised `Motor::initialize()` returns
false and leaves the motor as it was, whatever the GPIO state; hence after
any sequence of motor and controller operations on the controller as
constructed the controller is still as constructed: no motor is initialised,
every motor has speed 0 and status `IDLE`, and `MotorController::initialize`,
`setSpeeds`, `setAllSpeeds` and `stopAll` all return false. -/
theorem C33_motors_never_initialise :
    (∀ (gpio : HalGpio) (m : Motor), m.initialized = false →
      m.initialise gpio = (false, m)) ∧
    (∀ calls : List (HalGpio × MotorController.Op),
      MotorController.runs calls {} = {} ∧
      (∀ position : MotorPosition,
        ((MotorController.runs calls {}).getMotor position).initialized = false ∧
        ((MotorController.runs calls {}).getMotor position).getSpeed = 0 ∧
        ((MotorController.runs calls {}).getMotor position).getStatus = MotorStatus.IDLE) ∧
      (∀ (gpio : HalGpio) (op : MotorController.Op),
        (MotorController.apply gpio (MotorController.runs calls {}) op).1 = false) ∧
      (∀ (gpio : HalGpio) (a b c d : Float32),
        ((MotorController.runs calls {}).initialise gpio).1 = false ∧
        ((MotorController.runs calls {}).setSpeeds gpio a b c d).1 = false ∧
        ((MotorController.runs calls {}).setAllSpeeds gpio a).1 = false ∧
        ((MotorController.runs calls {}).stopAll gpio).1 = false)) := by
  have key : ∀ calls : List (HalGpio × MotorController.Op),
      MotorController.runs calls {} = {} := by
    intro calls
    induction calls with
    | nil => rfl
    | cons call rest ih =>
      rcases call with ⟨gpio, op⟩
      simp only [MotorController.runs, MotorController.apply_fresh, ih]
  refine ⟨fun gpio m h => (Motor.uninitialised_ops gpio m h).1, fun calls => ?_⟩
  rw [key calls]
  refine ⟨rfl, fun position => ?_, fun gpio op => ?_, fun gpio a b c d => ?_⟩
  · cases position <;> exact ⟨rfl, rfl, rfl⟩
  · rw [MotorController.apply_fresh]
  · have h1 := MotorController.apply_fresh gpio MotorController.Op.initialise
    have h2 := MotorController.apply_fresh gpio (MotorController.Op.setSpeeds a b c d)
    have h3 := MotorController.apply_fresh gpio (MotorController.Op.setAllSpeeds a)
    have h4 := MotorController.apply_fresh gpio MotorController.Op.stopAll
    simp only [MotorController.apply] at h1 h2 h3 h4
    rw [h1, h2, h3, h4]
    exact ⟨rfl, rfl, rfl, rfl⟩

/-- C33, instance: on an initialised GPIO driver the front-left motor as
constructed refuses to initialise; after initialising the controller and
asking for full speed on it, the controller refuses `stopAll`. -/
theorem C33_motors_never_initialise_witness :
    (Motor.new MotorPosition.FRONT_LEFT).initialise { initialized := true }
      = (false, Motor.new MotorPosition.FRONT_LEFT) ∧
    ((MotorController.runs
      [({ initialized := true }, MotorController.Op.initialise),
       ({ initialized := true }, MotorController.Op.setAllSpeeds 100)] {}).stopAll
        { initialized := true }).1 = false :=
  ⟨C33_motors_never_initialise.1 { initialized := true }
      (Motor.new MotorPosition.FRONT_LEFT) rfl,
   ((C33_motors_never_initialise.2 _).2.2.2 { initialized := true } 0 0 0 0).2.2.2⟩

/-- The locked branch leaves the confidence alone. -/
theorem TargetDetection.updateLocked_confidence (math : FloatMath) (s : System) :
    (TargetDetection.updateLocked math s).targetDetection.targetData.confidence
      = s.targetDetection.targetData.confidence := by
  unfold TargetDetection.updateLocked
  dsimp only
  split_ifs <;> simp [TargetDetection.setData, getTicks]

/-- The synthetic detection keeps the confidence between 0 and 100. -/
theorem TargetDetection.detect_confidenceInRange (env : Env) (s : System)
    (h : TargetDetection.ConfidenceInRange s.targetDetection) :
    TargetDetection.ConfidenceInRange
      (TargetDetection.detectTargetWithSensors env s).2.targetDetection := by
  unfold TargetDetection.ConfidenceInRange at h ⊢
  by_cases hs : s.targetDetection.targetData.status = TargetStatus.NO_TARGET
  · rw [(TargetDetection.detect_of_no_target env s hs).2.2.2.1]
    norm_num
  · rw [(TargetDetection.detect_of_target env s hs).2.2.2.1]
    split_ifs <;> constructor <;> linarith

/-- `TargetDetection::update` keeps the confidence between 0 and 100. -/
theorem TargetDetection.update_confidenceInRange (env : Env) (s : System)
    (h : TargetDetection.ConfidenceInRange s.targetDetection) :
    TargetDetection.ConfidenceInRange (TargetDetection.update env s).2.targetDetection := by
  have hd := TargetDetection.detect_confidenceInRange env s h
  unfold TargetDetection.ConfidenceInRange at h hd ⊢
  unfold TargetDetection.update
  split_ifs with hi
  · exact h
  · simp only [(TargetDetection.updateTargetVectors_frame _ _).2.2.1]
    split
    · split_ifs <;> simpa [TargetDetection.setData] using hd
    · split_ifs <;> simpa [TargetDetection.setData] using hd
    · rw [TargetDetection.updateLocked_confidence]
      exact h
    · split_ifs
      · simpa [TargetDetection.setData] using hd
      · simp [TargetDetection.clearTarget, getTicks]
        split_ifs
        · exact hd
        · norm_num
      · simpa [getTicks] using hd

/-- Every public operation keeps the confidence between 0 and 100. -/
theorem TargetDetection.apply_confidenceInRange (s : System) (op : TargetDetection.Op)
    (h : TargetDetection.ConfidenceInRange s.targetDetection) :
    TargetDetection.ConfidenceInRange (TargetDetection.apply s op).targetDetection := by
  cases op with
  | initialise =>
    simp only [TargetDetection.apply, TargetDetection.initialise, TargetDetection.clearTarget]
    split_ifs <;> first
      | exact h
      | (unfold TargetDetection.ConfidenceInRange; simp)
  | update env => exact TargetDetection.update_confidenceInRange env s h
  | setTarget math targetPosition targetType =>
    simp only [TargetDetection.apply, TargetDetection.setTarget]
    split_ifs
    · exact h
    · unfold TargetDetection.ConfidenceInRange
      simp only [(TargetDetection.updateTargetVectors_frame _ _).2.2.1]
      simp [TargetDetection.setData, getTicks]
  | clearTarget =>
    simp only [TargetDetection.apply, TargetDetection.clearTarget]
    split_ifs
    · exact h
    · unfold TargetDetection.ConfidenceInRange
      simp

/-- C39: the detector as constructed has confidence 0; `initialize`, `update`
(with any detection draw), `setTarget` and `clearTarget` each keep the
confidence between 0 and 100, whatever the state of the other singletons;
hence after any sequence of these operations `0 <= confidence <= 100`. -/
theorem C39_confidence_in_range :
    (∀ (s : System) (op : TargetDetection.Op),
      TargetDetection.ConfidenceInRange s.targetDetection →
      TargetDetection.ConfidenceInRange (TargetDetection.apply s op).targetDetection) ∧
    (∀ calls : List (System × TargetDetection.Op),
      0 ≤ (TargetDetection.runs calls {}).targetData.confidence ∧
      (TargetDetection.runs calls {}).targetData.confidence ≤ 100) := by
  have key : ∀ (calls : List (System × TargetDetection.Op)) (t : TargetDetection),
      TargetDetection.ConfidenceInRange t →
      TargetDetection.ConfidenceInRange (TargetDetection.runs calls t) := by
    intro calls
    induction calls with
    | nil => intro t h; exact h
    | cons call rest ih =>
      intro t h
      exact ih _ (TargetDetection.apply_confidenceInRange
        { call.1 with targetDetection := t } call.2 h)
  refine ⟨TargetDetection.apply_confidenceInRange, fun calls => ?_⟩
  exact key calls {} (by unfold TargetDetection.ConfidenceInRange; simp)

/-- C39, instance: a locked target of confidence 100 keeps a confidence in
range through an update; the confidence after `initialize`, an update whose
draw detects and one whose draw fails is in range. -/
theorem C39_confidence_in_range_witness :
    TargetDetection.ConfidenceInRange
      (TargetDetection.apply (targetBench (lockedTarget 30) 0)
        (TargetDetection.Op.update failingEnv)).targetDetection ∧
    0 ≤ (TargetDetection.runs
      [({}, TargetDetection.Op.initialise), ({}, TargetDetection.Op.update quietEnv),
       ({}, TargetDetection.Op.update failingEnv)] {}).targetData.confidence :=
  ⟨C39_confidence_in_range.1 (targetBench (lockedTarget 30) 0) _
      (by unfold TargetDetection.ConfidenceInRange; simp [targetBench, lockedTarget]),
   (C39_confidence_in_range.2 _).1⟩

/-! ## Destination point -/

theorem Binary32.overflow_pos : (0 : ℚ) < Binary32.OVERFLOW := by
  norm_num [Binary32.OVERFLOW]

theorem Binary32.neg_def (a : Binary32) : -a = Binary32.neg a := rfl
theorem Binary32.add_def (a b : Binary32) : a + b = Binary32.add a b := rfl
theorem Binary32.sub_def (a b : Binary32) : a - b = Binary32.add a (Binary32.neg b) := rfl
theorem Binary32.mul_def (a b : Binary32) : a * b = Binary32.mul a b := rfl
theorem Binary32.div_def (a b : Binary32) : a / b = Binary32.div a b := rfl

/-- An exact result becomes a number or an infinity, never NaN. -/
theorem Binary32.ofExact_ne_nan (q : ℚ) : Binary32.ofExact q ≠ Binary32.nan := by
  unfold Binary32.ofExact
  split_ifs <;> simp

/-- An exact result below the overflow threshold stays as it is. -/
theorem Binary32.ofExact_of_small (q : ℚ) (h1 : -Binary32.OVERFLOW < q)
    (h2 : q < Binary32.OVERFLOW) : Binary32.ofExact q = Binary32.num q := by
  unfold Binary32.ofExact
  rw [if_neg (not_le.mpr h2), if_neg (not_le.mpr h1)]

theorem Binary32.ofExact_neg (q : ℚ) : Binary32.ofExact (-q) = Binary32.neg (Binary32.ofExact q) := by
  have hp := Binary32.overflow_pos
  unfold Binary32.ofExact
  by_cases h1 : Binary32.OVERFLOW ≤ q
  · have h2 : ¬ Binary32.OVERFLOW ≤ -q := by linarith
    have h3 : -q ≤ -Binary32.OVERFLOW := by linarith
    simp [h1, h2, h3, Binary32.neg]
  · by_cases h2 : q ≤ -Binary32.OVERFLOW
    · have h3 : Binary32.OVERFLOW ≤ -q := by linarith
      simp [h1, h2, h3, Binary32.neg]
    · have h3 : ¬ Binary32.OVERFLOW ≤ -q := by linarith
      have h4 : ¬ -q ≤ -Binary32.OVERFLOW := by linarith
      simp [h1, h2, h3, h4, Binary32.neg]

theorem Binary32.neg_neg_eq (a : Binary32) : Binary32.neg (Binary32.neg a) = a := by
  cases a <;> simp [Binary32.neg]

theorem Binary32.add_comm_eq (a b : Binary32) : Binary32.add a b = Binary32.add b a := by
  cases a <;> cases b <;> simp [Binary32.add, add_comm]
  rename_i s t
  cases s <;> cases t <;> simp

theorem Binary32.mul_comm_eq (a b : Binary32) : Binary32.mul a b = Binary32.mul b a := by
  cases a <;> cases b <;> simp [Binary32.mul, mul_comm]
  rename_i s t
  cases s <;> cases t <;> simp

theorem Binary32.neg_add_eq (a b : Binary32) :
    Binary32.neg (Binary32.add a b) = Binary32.add (Binary32.neg a) (Binary32.neg b) := by
  cases a with
  | num x =>
    cases b with
    | num y =>
      show Binary32.neg (Binary32.ofExact (x + y)) = Binary32.ofExact (-x + -y)
      rw [← Binary32.ofExact_neg]
      congr 1
      ring
    | inf t => rfl
    | nan => rfl
  | inf s =>
    cases b with
    | num y => rfl
    | inf t => cases s <;> cases t <;> rfl
    | nan => rfl
  | nan => rfl

/-- Swapping the operands of a subtraction negates the result. -/
theorem Binary32.sub_swap (a b : Binary32) : a - b = -(b - a) := by
  simp only [Binary32.sub_def, Binary32.neg_def, Binary32.neg_add_eq, Binary32.neg_neg_eq]
  exact Binary32.add_comm_eq _ _

theorem Binary32.mul_neg_eq (a b : Binary32) :
    Binary32.mul a (Binary32.neg b) = Binary32.neg (Binary32.mul a b) := by
  cases a with
  | num x =>
    cases b with
    | num y =>
      show Binary32.ofExact (x * -y) = Binary32.neg (Binary32.ofExact (x * y))
      rw [← Binary32.ofExact_neg]
      congr 1
      ring
    | inf t =>
      show (if x = 0 then Binary32.nan else Binary32.inf ((!t) != decide (x < 0)))
        = Binary32.neg (if x = 0 then Binary32.nan else Binary32.inf (t != decide (x < 0)))
      by_cases h : x = 0
      · simp [h, Binary32.neg]
      · simp only [h, if_false, Binary32.neg]
        cases t <;> by_cases h2 : x < 0 <;> simp [h2]
    | nan => rfl
  | inf s =>
    cases b with
    | num y =>
      show (if -y = 0 then Binary32.nan else Binary32.inf (s != decide (-y < 0)))
        = Binary32.neg (if y = 0 then Binary32.nan else Binary32.inf (s != decide (y < 0)))
      by_cases h : y = 0
      · simp [h, Binary32.neg]
      · have h1 : ¬ -y = 0 := fun e => h (by linarith)
        simp only [h, h1, if_false, Binary32.neg]
        rcases lt_or_gt_of_ne h with h2 | h2
        · have h3 : ¬ -y < 0 := by linarith
          cases s <;> simp [h2, h3]
        · have h3 : -y < 0 := by linarith
          have h4 : ¬ y < 0 := by linarith
          cases s <;> simp [h3, h4]
    | inf t => cases s <;> cases t <;> rfl
    | nan => rfl
  | nan => rfl

theorem Binary32.neg_mul_neg (a b : Binary32) : (-a) * (-b) = a * b := by
  simp only [Binary32.mul_def, Binary32.neg_def, Binary32.mul_neg_eq]
  rw [Binary32.mul_comm_eq, Binary32.mul_neg_eq, Binary32.neg_neg_eq, Binary32.mul_comm_eq]

theorem Binary32.neg_div_two (a : Binary32) :
    (-a) / Binary32.num 2 = -(a / Binary32.num 2) := by
  cases a with
  | num x =>
    show Binary32.div (Binary32.num (-x)) (Binary32.num 2)
      = Binary32.neg (Binary32.div (Binary32.num x) (Binary32.num 2))
    simp only [Binary32.div, if_neg (by norm_num : ¬ (2 : ℚ) = 0)]
    rw [← Binary32.ofExact_neg]
    congr 1
    ring
  | inf s => cases s <;> simp [Binary32.div_def, Binary32.neg_def, Binary32.div, Binary32.neg]
  | nan => rfl

/-- A product of two numbers that stays in range is the exact product. -/
theorem Binary32.num_mul_num (a b : ℚ) (h1 : -Binary32.OVERFLOW < a * b)
    (h2 : a * b < Binary32.OVERFLOW) : Binary32.num a * Binary32.num b = Binary32.num (a * b) :=
  Binary32.ofExact_of_small _ h1 h2

/-- A sum of two numbers that stays in range is the exact sum. -/
theorem Binary32.num_add_num (a b : ℚ) (h1 : -Binary32.OVERFLOW < a + b)
    (h2 : a + b < Binary32.OVERFLOW) : Binary32.num a + Binary32.num b = Binary32.num (a + b) :=
  Binary32.ofExact_of_small _ h1 h2

/-- A difference of two numbers that stays in range is the exact difference. -/
theorem Binary32.num_sub_num (a b : ℚ) (h1 : -Binary32.OVERFLOW < a - b)
    (h2 : a - b < Binary32.OVERFLOW) : Binary32.num a - Binary32.num b = Binary32.num (a - b) := by
  show Binary32.ofExact (a + -b) = _
  rw [← sub_eq_add_neg]
  exact Binary32.ofExact_of_small _ h1 h2

/-- A non-zero number times a value that is not NaN is not NaN. -/
theorem Binary32.num_mul_ne_nan (k : ℚ) (x : Binary32) (hk : k ≠ 0) (hx : x ≠ Binary32.nan) :
    Binary32.num k * x ≠ Binary32.nan := by
  cases x with
  | num b => exact Binary32.ofExact_ne_nan _
  | inf t => simp [Binary32.mul_def, Binary32.mul, hk]
  | nan => exact absurd rfl hx

/-! ## The PID controller with overflow and NaN -/

/-- NaN passes both tests of the saturation. -/
theorem Binary32.saturate_nan (lo hi : Binary32) :
    Binary32.saturate Binary32.nan lo hi = Binary32.nan := by
  cases lo <;> cases hi <;> rfl

/-- A value in a range is not NaN. -/
theorem Binary32.InRange.ne_nan {x lo hi : Binary32} (h : Binary32.InRange x lo hi) :
    x ≠ Binary32.nan := by
  intro e
  rw [e] at h
  have := h.2
  cases hi <;> simp [Binary32.le] at this

/-- With the limits in order, the saturation of a value that is not NaN lies
between the limits. -/
theorem Binary32.saturate_inRange (x lo hi : Binary32) (h : lo.lt hi = true)
    (hx : x ≠ Binary32.nan) : Binary32.InRange (Binary32.saturate x lo hi) lo hi := by
  rcases x with a | (_ | _) | _ <;> rcases lo with l | (_ | _) | _ <;>
    rcases hi with u | (_ | _) | _ <;>
    first
      | exact absurd rfl hx
      | (simp [Binary32.lt] at h; done)
      | (simp only [Binary32.lt, decide_eq_true_eq] at h
         simp only [Binary32.saturate, Binary32.gt, Binary32.lt, Binary32.InRange,
           decide_eq_true_eq, Bool.not_true, Bool.not_false, Bool.false_eq_true, if_false,
           if_true]
         split_ifs <;> simp [Binary32.le] <;> (try constructor) <;> linarith)
      | (simp [Binary32.saturate, Binary32.gt, Binary32.lt, Binary32.InRange, Binary32.le]; done)
      | (simp only [Binary32.lt, decide_eq_true_eq] at h
         simp [Binary32.saturate, Binary32.gt, Binary32.lt, Binary32.InRange, Binary32.le, h.le])

/-- With finite limits in order, the saturation of a value that is not NaN is
a number between the limits. -/
theorem Binary32.saturate_num (x : Binary32) (l u : ℚ) (h : l < u) (hx : x ≠ Binary32.nan) :
    ∃ y : ℚ, Binary32.saturate x (Binary32.num l) (Binary32.num u) = Binary32.num y ∧
      l ≤ y ∧ y ≤ u := by
  have hr := Binary32.saturate_inRange x (Binary32.num l) (Binary32.num u)
    (by simp [Binary32.lt, h]) hx
  generalize Binary32.saturate x (Binary32.num l) (Binary32.num u) = y at hr
  cases y with
  | num q => exact ⟨q, rfl, by simpa [Binary32.le] using hr.1, by simpa [Binary32.le] using hr.2⟩
  | inf s => cases s <;> simp [Binary32.InRange, Binary32.le] at hr
  | nan => simp [Binary32.InRange, Binary32.le] at hr

/-- What `compute` does on an initialised controller in `AUTOMATIC` mode. -/
theorem Ieee.PidController.compute_when_automatic (c : Ieee.PidController)
    (input setpoint : Binary32)
    (hi : c.initialized = true) (hm : c.mode = PidMode.AUTOMATIC) :
    c.compute input setpoint =
      (Binary32.saturate
          (c.kp * (setpoint - input)
            + Binary32.saturate (c.outputSum + c.ki * (setpoint - input))
                c.outputMin c.outputMax
            + (-c.kd) * (input - c.lastInput)) c.outputMin c.outputMax,
       { c with
         outputSum := Binary32.saturate (c.outputSum + c.ki * (setpoint - input))
           c.outputMin c.outputMax,
         output := Binary32.saturate
           (c.kp * (setpoint - input)
             + Binary32.saturate (c.outputSum + c.ki * (setpoint - input))
                 c.outputMin c.outputMax
             + (-c.kd) * (input - c.lastInput)) c.outputMin c.outputMax,
         lastError := setpoint - input,
         lastInput := input }) := by
  simp [Ieee.PidController.compute, hi, hm, Binary32.saturate]

/-- A sum with a NaN term is NaN. -/
theorem Binary32.add_nan (x : Binary32) : x + Binary32.nan = Binary32.nan := by
  cases x <;> rfl

theorem Binary32.nan_add (x : Binary32) : Binary32.nan + x = Binary32.nan := rfl

/-- A number plus a value that is not NaN is not NaN. -/
theorem Binary32.finite_add_ne_nan (x y : Binary32) (hx : x.isFinite = true)
    (hy : y ≠ Binary32.nan) : x + y ≠ Binary32.nan := by
  cases x with
  | num a =>
    cases y with
    | num b => exact Binary32.ofExact_ne_nan _
    | inf t => simp [Binary32.add_def, Binary32.add]
    | nan => exact absurd rfl hy
  | inf s => simp [Binary32.isFinite] at hx
  | nan => simp [Binary32.isFinite] at hx

/-- A value that is not NaN plus a number is not NaN. -/
theorem Binary32.add_finite_ne_nan (x y : Binary32) (hx : x ≠ Binary32.nan)
    (hy : y.isFinite = true) : x + y ≠ Binary32.nan := by
  rw [Binary32.add_def, Binary32.add_comm_eq]
  exact Binary32.finite_add_ne_nan y x hy hx

/-- A product is a number only when both factors are. -/
theorem Binary32.isFinite_of_mul (x y : Binary32) (h : (x * y).isFinite = true) :
    x.isFinite = true ∧ y.isFinite = true := by
  cases x with
  | num a =>
    cases y with
    | num b => exact ⟨rfl, rfl⟩
    | inf t =>
      simp only [Binary32.mul_def, Binary32.mul] at h
      split_ifs at h <;> simp [Binary32.isFinite] at h
    | nan => simp [Binary32.mul_def, Binary32.mul, Binary32.isFinite] at h
  | inf s =>
    cases y with
    | num b =>
      simp only [Binary32.mul_def, Binary32.mul] at h
      split_ifs at h <;> simp [Binary32.isFinite] at h
    | inf t => simp [Binary32.mul_def, Binary32.mul, Binary32.isFinite] at h
    | nan => simp [Binary32.mul_def, Binary32.mul, Binary32.isFinite] at h
  | nan => simp [Binary32.mul_def, Binary32.mul, Binary32.isFinite] at h

/-- A product of two numbers is not NaN. -/
theorem Binary32.finite_mul_ne_nan (x y : Binary32) (hx : x.isFinite = true)
    (hy : y.isFinite = true) : x * y ≠ Binary32.nan := by
  cases x with
  | num a =>
    cases y with
    | num b => exact Binary32.ofExact_ne_nan _
    | inf t => simp [Binary32.isFinite] at hy
    | nan => simp [Binary32.isFinite] at hy
  | inf s => simp [Binary32.isFinite] at hx
  | nan => simp [Binary32.isFinite] at hx

/-- The members that `compute` never changes. -/
theorem Ieee.PidController.compute_frame (c : Ieee.PidController) (input setpoint : Binary32) :
    (c.compute input setpoint).2.initialized = c.initialized ∧
    (c.compute input setpoint).2.mode = c.mode ∧
    (c.compute input setpoint).2.outputMin = c.outputMin ∧
    (c.compute input setpoint).2.outputMax = c.outputMax ∧
    (c.compute input setpoint).2.kp = c.kp ∧
    (c.compute input setpoint).2.ki = c.ki ∧
    (c.compute input setpoint).2.kd = c.kd := by
  unfold Ieee.PidController.compute
  split_ifs <;> simp

/-- One `compute` on an initialised `AUTOMATIC` controller whose limits are in
order: the integral sum and the output each come out NaN or between the
limits, and the returned value is the stored output. -/
theorem Ieee.PidController.compute_nan_or_inRange (c : Ieee.PidController)
    (input setpoint : Binary32)
    (hi : c.initialized = true) (hm : c.mode = PidMode.AUTOMATIC)
    (hlim : c.outputMin.lt c.outputMax = true) :
    ((c.compute input setpoint).2.outputSum = Binary32.nan ∨
      Binary32.InRange (c.compute input setpoint).2.outputSum c.outputMin c.outputMax) ∧
    ((c.compute input setpoint).1 = Binary32.nan ∨
      Binary32.InRange (c.compute input setpoint).1 c.outputMin c.outputMax) ∧
    (c.compute input setpoint).2.output = (c.compute input setpoint).1 := by
  rw [Ieee.PidController.compute_when_automatic c input setpoint hi hm]
  have key : ∀ x : Binary32, Binary32.saturate x c.outputMin c.outputMax = Binary32.nan ∨
      Binary32.InRange (Binary32.saturate x c.outputMin c.outputMax) c.outputMin
        c.outputMax := by
    intro x
    by_cases hx : x = Binary32.nan
    · left
      rw [hx, Binary32.saturate_nan]
    · exact Or.inr (Binary32.saturate_inRange x _ _ hlim hx)
  exact ⟨key _, key _, rfl⟩

/-- One `compute` in which nothing overflows: with a finite integral gain and
integral sum and finite proportional and derivative terms, the integral sum
and the output come out between the limits. -/
theorem Ieee.PidController.compute_inRange (c : Ieee.PidController)
    (input setpoint : Binary32)
    (hi : c.initialized = true) (hm : c.mode = PidMode.AUTOMATIC)
    (hlim : c.outputMin.lt c.outputMax = true)
    (hki : c.ki.isFinite = true) (hsum : c.outputSum.isFinite = true)
    (hp : (c.kp * (setpoint - input)).isFinite = true)
    (hd : ((-c.kd) * (input - c.lastInput)).isFinite = true) :
    Binary32.InRange (c.compute input setpoint).2.outputSum c.outputMin c.outputMax ∧
    Binary32.InRange (c.compute input setpoint).1 c.outputMin c.outputMax := by
  rw [Ieee.PidController.compute_when_automatic c input setpoint hi hm]
  have herr := (Binary32.isFinite_of_mul _ _ hp).2
  have h1 : c.outputSum + c.ki * (setpoint - input) ≠ Binary32.nan :=
    Binary32.finite_add_ne_nan _ _ hsum (Binary32.finite_mul_ne_nan _ _ hki herr)
  have h2 := Binary32.saturate_inRange _ _ _ hlim h1
  refine ⟨h2, Binary32.saturate_inRange _ _ _ hlim ?_⟩
  exact Binary32.add_finite_ne_nan _ _ (Binary32.finite_add_ne_nan _ _ hp h2.ne_nan) hd

/-- Once the integral sum is NaN it stays NaN, and so is every output. -/
theorem Ieee.PidController.compute_of_nan (c : Ieee.PidController)
    (input setpoint : Binary32)
    (hi : c.initialized = true) (hm : c.mode = PidMode.AUTOMATIC)
    (hsum : c.outputSum = Binary32.nan) :
    (c.compute input setpoint).2.outputSum = Binary32.nan ∧
    (c.compute input setpoint).1 = Binary32.nan := by
  rw [Ieee.PidController.compute_when_automatic c input setpoint hi hm]
  simp only [hsum, Binary32.nan_add, Binary32.saturate_nan, Binary32.add_nan, and_self]

/-- A sum is a number only when both terms are. -/
theorem Binary32.isFinite_of_sub (x y : Binary32) (h : (x - y).isFinite = true) :
    x.isFinite = true ∧ y.isFinite = true := by
  rcases x with a | s | _ <;> rcases y with b | t | _ <;>
    first
      | exact ⟨rfl, rfl⟩
      | (simp [Binary32.sub_def, Binary32.add, Binary32.neg, Binary32.isFinite] at h; done)
      | (simp only [Binary32.sub_def, Binary32.add, Binary32.neg] at h
         split_ifs at h <;> simp [Binary32.isFinite] at h)

/-- A value above zero is not NaN. -/
theorem Binary32.ne_nan_of_pos (x : Binary32) (h : (Binary32.num 0).lt x = true) :
    x ≠ Binary32.nan := by
  intro e
  rw [e] at h
  simp [Binary32.lt] at h

/-- With a zero derivative gain the derivative term of a finite input change
is zero. -/
theorem Binary32.neg_zero_mul (x : Binary32) (h : x.isFinite = true) :
    (-(Binary32.num 0)) * x = Binary32.num 0 := by
  cases x with
  | num d =>
    show Binary32.ofExact (-0 * d) = Binary32.num 0
    rw [Binary32.ofExact_of_small _ (by simp [Binary32.overflow_pos])
      (by simp [Binary32.overflow_pos])]
    simp
  | inf s => simp [Binary32.isFinite] at h
  | nan => simp [Binary32.isFinite] at h

/-- The anti-windup example, one step: with `kp = 1`, `ki = 1`, `kd = 0`,
limits `[0, 10]`, a finite integral sum, a finite input change and a positive
error (which may overflow to infinity), `compute` leaves the integral sum and
the output numbers between 0 and 10. -/
theorem Ieee.PidController.windup_step (c : Ieee.PidController) (input setpoint : Binary32)
    (hi : c.initialized = true) (hm : c.mode = PidMode.AUTOMATIC)
    (hkp : c.kp = Binary32.num 1) (hki : c.ki = Binary32.num 1) (hkd : c.kd = Binary32.num 0)
    (hmin : c.outputMin = Binary32.num 0) (hmax : c.outputMax = Binary32.num 10)
    (hsum : c.outputSum.isFinite = true) (hd : (input - c.lastInput).isFinite = true)
    (hpos : (Binary32.num 0).lt (setpoint - input) = true) :
    ∃ x y : ℚ,
      (c.compute input setpoint).2.outputSum = Binary32.num x ∧ 0 ≤ x ∧ x ≤ 10 ∧
      (c.compute input setpoint).2.output = Binary32.num y ∧ 0 ≤ y ∧ y ≤ 10 ∧
      (c.compute input setpoint).1 = Binary32.num y := by
  rw [Ieee.PidController.compute_when_automatic c input setpoint hi hm]
  simp only [hkp, hki, hkd, hmin, hmax, Binary32.neg_zero_mul _ hd]
  have herr := Binary32.ne_nan_of_pos _ hpos
  have hp : Binary32.num 1 * (setpoint - input) ≠ Binary32.nan :=
    Binary32.num_mul_ne_nan 1 _ (by norm_num) herr
  obtain ⟨x, hx, hx0, hx1⟩ := Binary32.saturate_num
    (c.outputSum + Binary32.num 1 * (setpoint - input)) 0 10 (by norm_num)
    (Binary32.finite_add_ne_nan _ _ hsum hp)
  rw [hx]
  obtain ⟨y, hy, hy0, hy1⟩ := Binary32.saturate_num
    (Binary32.num 1 * (setpoint - input) + Binary32.num x + Binary32.num 0) 0 10 (by norm_num)
    (Binary32.add_finite_ne_nan _ _ (Binary32.add_finite_ne_nan _ _ hp rfl) rfl)
  rw [hy]
  exact ⟨x, y, rfl, hx0, hx1, rfl, hy0, hy1, rfl⟩

/-- The anti-windup example over any number of calls: the integral sum and the
output are numbers between 0 and 10 after every `compute`. -/
theorem Ieee.PidController.windup_repeated (c : Ieee.PidController)
    (input setpoint : Binary32)
    (hi : c.initialized = true) (hm : c.mode = PidMode.AUTOMATIC)
    (hkp : c.kp = Binary32.num 1) (hki : c.ki = Binary32.num 1) (hkd : c.kd = Binary32.num 0)
    (hmin : c.outputMin = Binary32.num 0) (hmax : c.outputMax = Binary32.num 10)
    (hsum : c.outputSum.isFinite = true) (hd : (input - c.lastInput).isFinite = true)
    (hpos : (Binary32.num 0).lt (setpoint - input) = true) (n : Nat) (hn : 0 < n) :
    ∃ x y : ℚ,
      (c.computeRepeated input setpoint n).outputSum = Binary32.num x ∧ 0 ≤ x ∧ x ≤ 10 ∧
      (c.computeRepeated input setpoint n).output = Binary32.num y ∧ 0 ≤ y ∧ y ≤ 10 := by
  have hin := (Binary32.isFinite_of_sub _ _ hd).1
  have hinv : ∀ m : Nat,
      (c.computeRepeated input setpoint m).initialized = true ∧
      (c.computeRepeated input setpoint m).mode = PidMode.AUTOMATIC ∧
      (c.computeRepeated input setpoint m).kp = Binary32.num 1 ∧
      (c.computeRepeated input setpoint m).ki = Binary32.num 1 ∧
      (c.computeRepeated input setpoint m).kd = Binary32.num 0 ∧
      (c.computeRepeated input setpoint m).outputMin = Binary32.num 0 ∧
      (c.computeRepeated input setpoint m).outputMax = Binary32.num 10 ∧
      (c.computeRepeated input setpoint m).outputSum.isFinite = true ∧
      (input - (c.computeRepeated input setpoint m).lastInput).isFinite = true := by
    intro m
    induction m with
    | zero => exact ⟨hi, hm, hkp, hki, hkd, hmin, hmax, hsum, hd⟩
    | succ m ih =>
      obtain ⟨i1, i2, i3, i4, i5, i6, i7, i8, i9⟩ := ih
      have hf := Ieee.PidController.compute_frame (c.computeRepeated input setpoint m)
        input setpoint
      obtain ⟨x, y, hx, -, -, -, -, -, -⟩ := Ieee.PidController.windup_step
        (c.computeRepeated input setpoint m) input setpoint i1 i2 i3 i4 i5 i6 i7 i8 i9 hpos
      have hl : ((c.computeRepeated input setpoint m).compute input setpoint).2.lastInput
          = input := by
        rw [Ieee.PidController.compute_when_automatic _ input setpoint i1 i2]
      simp only [Ieee.PidController.computeRepeated]
      refine ⟨hf.1.trans i1, hf.2.1.trans i2, hf.2.2.2.2.1.trans i3, hf.2.2.2.2.2.1.trans i4,
        hf.2.2.2.2.2.2.trans i5, hf.2.2.1.trans i6, hf.2.2.2.1.trans i7, ?_, ?_⟩
      · rw [hx]
        rfl
      · rw [hl]
        cases input with
        | num q =>
          show (Binary32.ofExact (q + -q)).isFinite = true
          rw [Binary32.ofExact_of_small _ (by simp [Binary32.overflow_pos])
            (by simp [Binary32.overflow_pos])]
          rfl
        | inf s => simp [Binary32.isFinite] at hin
        | nan => simp [Binary32.isFinite] at hin
  obtain ⟨m, rfl⟩ : ∃ m, n = m + 1 := ⟨n - 1, by omega⟩
  obtain ⟨i1, i2, i3, i4, i5, i6, i7, i8, i9⟩ := hinv m
  obtain ⟨x, y, hx, hx0, hx1, hy, hy0, hy1, -⟩ := Ieee.PidController.windup_step
    (c.computeRepeated input setpoint m) input setpoint i1 i2 i3 i4 i5 i6 i7 i8 i9 hpos
  exact ⟨x, y, hx, hx0, hx1, hy, hy0, hy1⟩

/-- The default controller at an input and a setpoint whose difference
overflows: the error is an infinity, the integral term `0 * error` is NaN,
and NaN passes the saturation of the integral sum and of the output. -/
theorem Ieee.PidController.compute_overflow :
    (Ieee.defaultController.compute (Binary32.num (-(3 * 10 ^ 38)))
      (Binary32.num (3 * 10 ^ 38))).1 = Binary32.nan ∧
    (Ieee.defaultController.compute (Binary32.num (-(3 * 10 ^ 38)))
      (Binary32.num (3 * 10 ^ 38))).2.outputSum = Binary32.nan ∧
    (Ieee.defaultController.compute (Binary32.num (-(3 * 10 ^ 38)))
      (Binary32.num (3 * 10 ^ 38))).2.output = Binary32.nan := by
  have he : Binary32.num (3 * 10 ^ 38) - Binary32.num (-(3 * 10 ^ 38))
      = Binary32.inf false := by
    show Binary32.ofExact _ = _
    unfold Binary32.ofExact
    rw [if_pos (by norm_num [Binary32.OVERFLOW])]
  have hs : Ieee.defaultController.outputSum + Ieee.defaultController.ki * Binary32.inf false
      = Binary32.nan := by
    show Binary32.add (Binary32.num 0) (Binary32.mul (Binary32.num DEFAULT_PID_I) _) = _
    simp [Binary32.mul, Binary32.add, DEFAULT_PID_I]
  rw [Ieee.PidController.compute_when_automatic _ _ _ rfl rfl, he, hs]
  simp only [Binary32.saturate_nan, Binary32.add_nan, Binary32.nan_add, and_self]

/-- On numbers the saturation over `Binary32` is the saturation in exact
arithmetic. -/
theorem Binary32.saturate_of_numbers (x lo hi : ℚ) :
    Binary32.saturate (Binary32.num x) (Binary32.num lo) (Binary32.num hi)
      = Binary32.num (PidController.saturate x lo hi) := by
  simp only [Binary32.saturate, Binary32.gt, Binary32.lt, decide_eq_true_eq,
    PidController.saturate, gt_iff_lt]
  split_ifs <;> rfl

/-- Where nothing overflows the two embeddings of `compute` agree: when the
gains, the limits, the stored input and integral sum, the input and the
setpoint are all at most `10 ^ 18` in magnitude, `compute` over `Binary32`
returns the numbers that `compute` in exact arithmetic returns. -/
theorem Ieee.PidController.compute_of_numbers (c : Control.PidController)
    (input setpoint : ℚ)
    (hkp : |c.kp| ≤ 10 ^ 18) (hki : |c.ki| ≤ 10 ^ 18) (hkd : |c.kd| ≤ 10 ^ 18)
    (hmin : |c.outputMin| ≤ 10 ^ 18) (hmax : |c.outputMax| ≤ 10 ^ 18)
    (hlast : |c.lastInput| ≤ 10 ^ 18) (hsum : |c.outputSum| ≤ 10 ^ 18)
    (hin : |input| ≤ 10 ^ 18) (hset : |setpoint| ≤ 10 ^ 18) :
    (Ieee.PidController.ofNumbers c).compute (Binary32.num input) (Binary32.num setpoint)
      = (Binary32.num (c.compute input setpoint).1,
         Ieee.PidController.ofNumbers (c.compute input setpoint).2) := by
  by_cases hidle : c.initialized = false ∨ c.mode ≠ PidMode.AUTOMATIC
  · rw [PidController.compute_of_idle c input setpoint hidle]
    unfold Ieee.PidController.compute
    rcases hidle with h | h
    · simp [Ieee.PidController.ofNumbers, h]
    · simp [Ieee.PidController.ofNumbers, h]
  · have hi : c.initialized = true := by
      cases hc : c.initialized
      · exact absurd (Or.inl hc) hidle
      · rfl
    have hm : c.mode = PidMode.AUTOMATIC := by
      by_contra hc
      exact hidle (Or.inr hc)
    have hO : (10 : ℚ) ^ 38 < Binary32.OVERFLOW := by norm_num [Binary32.OVERFLOW]
    have herr : |setpoint - input| ≤ 2 * 10 ^ 18 := by
      have := abs_sub setpoint input
      linarith
    have hdin : |input - c.lastInput| ≤ 2 * 10 ^ 18 := by
      have := abs_sub input c.lastInput
      linarith
    have hp : |c.kp * (setpoint - input)| ≤ 2 * 10 ^ 36 := by
      rw [abs_mul]
      calc |c.kp| * |setpoint - input| ≤ 10 ^ 18 * (2 * 10 ^ 18) :=
            mul_le_mul hkp herr (abs_nonneg _) (by norm_num)
        _ = 2 * 10 ^ 36 := by norm_num
    have hi2 : |c.ki * (setpoint - input)| ≤ 2 * 10 ^ 36 := by
      rw [abs_mul]
      calc |c.ki| * |setpoint - input| ≤ 10 ^ 18 * (2 * 10 ^ 18) :=
            mul_le_mul hki herr (abs_nonneg _) (by norm_num)
        _ = 2 * 10 ^ 36 := by norm_num
    have hd : |-c.kd * (input - c.lastInput)| ≤ 2 * 10 ^ 36 := by
      rw [abs_mul, abs_neg]
      calc |c.kd| * |input - c.lastInput| ≤ 10 ^ 18 * (2 * 10 ^ 18) :=
            mul_le_mul hkd hdin (abs_nonneg _) (by norm_num)
        _ = 2 * 10 ^ 36 := by norm_num
    have hs1 : |c.outputSum + c.ki * (setpoint - input)| ≤ 3 * 10 ^ 36 := by
      have := abs_add c.outputSum (c.ki * (setpoint - input))
      have h18 : (10 : ℚ) ^ 18 ≤ 10 ^ 36 := by norm_num
      linarith
    have hsat : ∀ x : ℚ, |x| ≤ 7 * 10 ^ 36 →
        |PidController.saturate x c.outputMin c.outputMax| ≤ 7 * 10 ^ 36 := by
      intro x hx
      have h18 : (10 : ℚ) ^ 18 ≤ 7 * 10 ^ 36 := by norm_num
      unfold PidController.saturate
      split_ifs
      · exact hmax.trans h18
      · exact hmin.trans h18
      · exact hx
    have hs2 := hsat _ (hs1.trans (by norm_num))
    have e1 : Binary32.num setpoint - Binary32.num input = Binary32.num (setpoint - input) :=
      Binary32.num_sub_num _ _ (by linarith [neg_abs_le (setpoint - input)])
        (by linarith [le_abs_self (setpoint - input)])
    have e2 : Binary32.num input - Binary32.num c.lastInput
        = Binary32.num (input - c.lastInput) :=
      Binary32.num_sub_num _ _ (by linarith [neg_abs_le (input - c.lastInput)])
        (by linarith [le_abs_self (input - c.lastInput)])
    have e3 : Binary32.num c.kp * Binary32.num (setpoint - input)
        = Binary32.num (c.kp * (setpoint - input)) :=
      Binary32.num_mul_num _ _ (by linarith [neg_abs_le (c.kp * (setpoint - input))])
        (by linarith [le_abs_self (c.kp * (setpoint - input))])
    have e4 : Binary32.num c.ki * Binary32.num (setpoint - input)
        = Binary32.num (c.ki * (setpoint - input)) :=
      Binary32.num_mul_num _ _ (by linarith [neg_abs_le (c.ki * (setpoint - input))])
        (by linarith [le_abs_self (c.ki * (setpoint - input))])
    have e5 : (-Binary32.num c.kd) * Binary32.num (input - c.lastInput)
        = Binary32.num (-c.kd * (input - c.lastInput)) :=
      Binary32.num_mul_num _ _ (by linarith [neg_abs_le (-c.kd * (input - c.lastInput))])
        (by linarith [le_abs_self (-c.kd * (input - c.lastInput))])
    have e6 : Binary32.num c.outputSum + Binary32.num (c.ki * (setpoint - input))
        = Binary32.num (c.outputSum + c.ki * (setpoint - input)) :=
      Binary32.num_add_num _ _
        (by linarith [neg_abs_le (c.outputSum + c.ki * (setpoint - input))])
        (by linarith [le_abs_self (c.outputSum + c.ki * (setpoint - input))])
    have hps : |c.kp * (setpoint - input)
        + PidController.saturate (c.outputSum + c.ki * (setpoint - input))
            c.outputMin c.outputMax| ≤ 9 * 10 ^ 36 := by
      have := abs_add (c.kp * (setpoint - input))
        (PidController.saturate (c.outputSum + c.ki * (setpoint - input))
          c.outputMin c.outputMax)
      linarith
    have e7 : Binary32.num (c.kp * (setpoint - input))
        + Binary32.num (PidController.saturate (c.outputSum + c.ki * (setpoint - input))
            c.outputMin c.outputMax)
        = Binary32.num (c.kp * (setpoint - input)
            + PidController.saturate (c.outputSum + c.ki * (setpoint - input))
                c.outputMin c.outputMax) :=
      Binary32.num_add_num _ _ (by linarith [neg_abs_le (c.kp * (setpoint - input)
            + PidController.saturate (c.outputSum + c.ki * (setpoint - input))
                c.outputMin c.outputMax)])
        (by linarith [le_abs_self (c.kp * (setpoint - input)
            + PidController.saturate (c.outputSum + c.ki * (setpoint - input))
                c.outputMin c.outputMax)])
    have hall : |c.kp * (setpoint - input)
        + PidController.saturate (c.outputSum + c.ki * (setpoint - input))
            c.outputMin c.outputMax
        + -c.kd * (input - c.lastInput)| ≤ 11 * 10 ^ 36 := by
      have := abs_add (c.kp * (setpoint - input)
        + PidController.saturate (c.outputSum + c.ki * (setpoint - input))
            c.outputMin c.outputMax) (-c.kd * (input - c.lastInput))
      linarith
    have e8 : Binary32.num (c.kp * (setpoint - input)
            + PidController.saturate (c.outputSum + c.ki * (setpoint - input))
                c.outputMin c.outputMax)
        + Binary32.num (-c.kd * (input - c.lastInput))
        = Binary32.num (c.kp * (setpoint - input)
            + PidController.saturate (c.outputSum + c.ki * (setpoint - input))
                c.outputMin c.outputMax
            + -c.kd * (input - c.lastInput)) :=
      Binary32.num_add_num _ _ (by linarith [neg_abs_le (c.kp * (setpoint - input)
            + PidController.saturate (c.outputSum + c.ki * (setpoint - input))
                c.outputMin c.outputMax
            + -c.kd * (input - c.lastInput))])
        (by linarith [le_abs_self (c.kp * (setpoint - input)
            + PidController.saturate (c.outputSum + c.ki * (setpoint - input))
                c.outputMin c.outputMax
            + -c.kd * (input - c.lastInput))])
    rw [PidController.compute_of_automatic c input setpoint hi hm,
      Ieee.PidController.compute_when_automatic _ _ _ hi hm]
    simp only [Ieee.PidController.ofNumbers, e1, e2, e3, e4, e5, e6,
      Binary32.saturate_of_numbers, e7, e8]
    have e9 : c.kp * (setpoint - input)
        + PidController.saturate (c.outputSum + c.ki * (setpoint - input))
            c.outputMin c.outputMax
        + -c.kd * (input - c.lastInput)
        = c.kp * (setpoint - input)
        + PidController.saturate (c.outputSum + c.ki * (setpoint - input))
            c.outputMin c.outputMax
        - c.kd * (input - c.lastInput) := by ring
    rw [e9]

/-- C13, the code with overflow taken into account.  On an initialised
controller in `AUTOMATIC` mode with `outputMin < outputMax`, for every input,
setpoint and prior state: the saturation leaves the integral sum and the
returned (and stored) output each between the limits or NaN, since a NaN
passes both of its tests; they are between the limits when the integral gain
and the prior integral sum are finite and neither the proportional nor the
derivative term overflows; once the integral sum is NaN, it and the output
stay NaN.  The anti-windup example holds: with `kp = 1`, `ki = 1`, `kd = 0`,
limits `[0, 10]`, a finite prior integral sum, a finite first input change
and a constant positive error, the integral sum and the output are numbers
between 0 and 10 after any positive number of `compute` calls. -/
theorem C13_saturation_lets_nan_through (c : Ieee.PidController) (input setpoint : Binary32)
    (hi : c.initialized = true) (hm : c.mode = PidMode.AUTOMATIC)
    (hlim : c.outputMin.lt c.outputMax = true) :
    (((c.compute input setpoint).2.outputSum = Binary32.nan ∨
        Binary32.InRange (c.compute input setpoint).2.outputSum c.outputMin c.outputMax) ∧
      ((c.compute input setpoint).1 = Binary32.nan ∨
        Binary32.InRange (c.compute input setpoint).1 c.outputMin c.outputMax) ∧
      (c.compute input setpoint).2.output = (c.compute input setpoint).1) ∧
    (c.ki.isFinite = true → c.outputSum.isFinite = true →
      (c.kp * (setpoint - input)).isFinite = true →
      ((-c.kd) * (input - c.lastInput)).isFinite = true →
      Binary32.InRange (c.compute input setpoint).2.outputSum c.outputMin c.outputMax ∧
      Binary32.InRange (c.compute input setpoint).1 c.outputMin c.outputMax) ∧
    (c.outputSum = Binary32.nan →
      (c.compute input setpoint).2.outputSum = Binary32.nan ∧
      (c.compute input setpoint).1 = Binary32.nan) ∧
    (c.kp = Binary32.num 1 → c.ki = Binary32.num 1 → c.kd = Binary32.num 0 →
      c.outputMin = Binary32.num 0 → c.outputMax = Binary32.num 10 →
      c.outputSum.isFinite = true → (input - c.lastInput).isFinite = true →
      (Binary32.num 0).lt (setpoint - input) = true →
      ∀ n : Nat, 0 < n → ∃ x y : ℚ,
        (c.computeRepeated input setpoint n).outputSum = Binary32.num x ∧ 0 ≤ x ∧ x ≤ 10 ∧
        (c.computeRepeated input setpoint n).output = Binary32.num y ∧ 0 ≤ y ∧ y ≤ 10) :=
  ⟨Ieee.PidController.compute_nan_or_inRange c input setpoint hi hm hlim,
   Ieee.PidController.compute_inRange c input setpoint hi hm hlim,
   Ieee.PidController.compute_of_nan c input setpoint hi hm,
   fun hkp hki hkd hmin hmax hsum hd hpos n hn =>
     Ieee.PidController.windup_repeated c input setpoint hi hm hkp hki hkd hmin hmax hsum hd
       hpos n hn⟩

/-- C13 at the failing input: the default roll controller (`kp = 1`,
`ki = 0`, `kd = 0`, limits `[0, 100]`), initialised, called as
`compute(-3e38F, 3e38F)`, returns NaN and stores NaN as integral sum; the next
call, `compute(0, 1)`, returns NaN again. -/
theorem C13_saturation_lets_nan_through_witness :
    Ieee.defaultController.initialized = true ∧
    Ieee.defaultController.mode = PidMode.AUTOMATIC ∧
    Ieee.defaultController.outputMin.lt Ieee.defaultController.outputMax = true ∧
    (Ieee.defaultController.compute (Binary32.num (-(3 * 10 ^ 38)))
      (Binary32.num (3 * 10 ^ 38))).1 = Binary32.nan ∧
    (Ieee.defaultController.compute (Binary32.num (-(3 * 10 ^ 38)))
      (Binary32.num (3 * 10 ^ 38))).2.outputSum = Binary32.nan ∧
    (((Ieee.defaultController.compute (Binary32.num (-(3 * 10 ^ 38)))
      (Binary32.num (3 * 10 ^ 38))).2.compute (Binary32.num 0) (Binary32.num 1)).1
      = Binary32.nan) := by
  have h0 := Ieee.PidController.compute_overflow
  have hf := Ieee.PidController.compute_frame Ieee.defaultController
    (Binary32.num (-(3 * 10 ^ 38))) (Binary32.num (3 * 10 ^ 38))
  have hl : Ieee.defaultController.outputMin.lt Ieee.defaultController.outputMax = true := by
    show decide ((0 : ℚ) < 100) = true
    simp
  have h := (C13_saturation_lets_nan_through
    (Ieee.defaultController.compute (Binary32.num (-(3 * 10 ^ 38)))
      (Binary32.num (3 * 10 ^ 38))).2 (Binary32.num 0) (Binary32.num 1)
    (hf.1.trans rfl) (hf.2.1.trans rfl)
    (by rw [hf.2.2.1, hf.2.2.2.1]; exact hl)).2.2.1 h0.2.1
  exact ⟨rfl, rfl, hl, h0.1, h0.2.1, h.2⟩

/-! ## Distance between two coordinates -/

/-- The lifted sine is odd when the library sine is. -/
theorem Ieee.sinf_neg (math : FloatMath)
    (hodd : ∀ x : Float32, math.sinf (-x) = -math.sinf x) (x : Binary32) :
    Ieee.sinf math (-x) = -(Ieee.sinf math x) := by
  cases x with
  | num q =>
    show Binary32.ofExact (math.sinf (-q)) = Binary32.neg (Binary32.ofExact (math.sinf q))
    rw [hodd, Binary32.ofExact_neg]
  | inf s => rfl
  | nan => rfl

/-- The haversine term is the same for (A, B) and (B, A) when the library sine
is odd. -/
theorem Ieee.haversineTerm_comm (math : FloatMath)
    (hodd : ∀ x : Float32, math.sinf (-x) = -math.sinf x) (A B : GpsCoordinates) :
    Ieee.haversineTerm math A B = Ieee.haversineTerm math B A := by
  unfold Ieee.haversineTerm
  generalize Binary32.ofExact A.latitude * Binary32.num DEG_TO_RAD = la
  generalize Binary32.ofExact B.latitude * Binary32.num DEG_TO_RAD = lb
  generalize Binary32.ofExact A.longitude * Binary32.num DEG_TO_RAD = oa
  generalize Binary32.ofExact B.longitude * Binary32.num DEG_TO_RAD = ob
  rw [Binary32.sub_swap la lb, Binary32.sub_swap oa ob, Binary32.neg_div_two,
    Binary32.neg_div_two, Ieee.sinf_neg math hodd, Ieee.sinf_neg math hodd,
    Binary32.neg_mul_neg]
  generalize Ieee.sinf math ((ob - oa) / Binary32.num 2) = s
  generalize Ieee.cosf math la = ca
  generalize Ieee.cosf math lb = cb
  have e : cb * ca * -s * -s = ca * cb * s * s := by
    simp only [Binary32.mul_def, Binary32.neg_def, Binary32.mul_neg_eq]
    rw [Binary32.mul_comm_eq (Binary32.neg _) s, Binary32.mul_neg_eq, Binary32.neg_neg_eq,
      Binary32.mul_comm_eq s, Binary32.mul_comm_eq cb ca]
  rw [e]

/-- The distance in terms of the haversine term. -/
theorem Ieee.calculateDistanceGps_eq (math : FloatMath) (A B : GpsCoordinates) :
    Ieee.calculateDistanceGps math A B
      = Binary32.num EARTH_RADIUS_M
        * (Binary32.num 2
          * Ieee.atan2f math (Ieee.sqrtf math (Ieee.haversineTerm math A B))
              (Ieee.sqrtf math (Binary32.num 1 - Ieee.haversineTerm math A B))) := rfl

/-- The comparison `x == x` fails exactly for NaN. -/
theorem Binary32.equal_self (x : Binary32) : x.equal x = true ↔ x ≠ Binary32.nan := by
  cases x <;> simp [Binary32.equal]

theorem Ieee.atan2f_ne_nan (math : FloatMath) (y x : Binary32) (hy : y ≠ Binary32.nan)
    (hx : x ≠ Binary32.nan) : Ieee.atan2f math y x ≠ Binary32.nan := by
  cases y with
  | num a =>
    cases x with
    | num b => exact Binary32.ofExact_ne_nan _
    | inf t =>
      cases t
      · simp [Ieee.atan2f]
      · simp only [Ieee.atan2f]
        split_ifs <;> simp
    | nan => exact absurd rfl hx
  | inf s =>
    cases x with
    | num b => cases s <;> simp [Ieee.atan2f]
    | inf t => cases s <;> cases t <;> simp [Ieee.atan2f]
    | nan => exact absurd rfl hx
  | nan => exact absurd rfl hy

/-- When the haversine term is a number between 0 and 1 the distance is not
NaN. -/
theorem Ieee.calculateDistanceGps_ne_nan (math : FloatMath) (A B : GpsCoordinates) (a : ℚ)
    (h : Ieee.haversineTerm math A B = Binary32.num a) (h0 : 0 ≤ a) (h1 : a ≤ 1) :
    Ieee.calculateDistanceGps math A B ≠ Binary32.nan := by
  have hp := Binary32.overflow_pos
  have hbig : (1 : ℚ) < Binary32.OVERFLOW := by norm_num [Binary32.OVERFLOW]
  rw [Ieee.calculateDistanceGps_eq, h]
  have e1 : Binary32.num 1 - Binary32.num a = Binary32.num (1 - a) := by
    show Binary32.ofExact (1 + -a) = Binary32.num (1 - a)
    rw [Binary32.ofExact_of_small _ (by linarith) (by linarith)]
    congr 1
    ring
  rw [e1]
  refine Binary32.num_mul_ne_nan _ _ (by norm_num [EARTH_RADIUS_M])
    (Binary32.num_mul_ne_nan _ _ (by norm_num) (Ieee.atan2f_ne_nan math _ _ ?_ ?_))
  · simp only [Ieee.sqrtf, if_neg (not_lt.mpr h0)]
    exact Binary32.ofExact_ne_nan _
  · simp only [Ieee.sqrtf, if_neg (not_lt.mpr (by linarith : (0 : ℚ) ≤ 1 - a))]
    exact Binary32.ofExact_ne_nan _

/-- When the haversine term is a number below 0 or above 1, one of the two
square roots is NaN and so is the distance. -/
theorem Ieee.calculateDistanceGps_nan (math : FloatMath) (A B : GpsCoordinates) (a : ℚ)
    (h : Ieee.haversineTerm math A B = Binary32.num a) (ha : a < 0 ∨ 1 < a) :
    Ieee.calculateDistanceGps math A B = Binary32.nan := by
  have hp := Binary32.overflow_pos
  rw [Ieee.calculateDistanceGps_eq, h]
  rcases ha with ha | ha
  · have e : Ieee.sqrtf math (Binary32.num a) = Binary32.nan := by
      simp [Ieee.sqrtf, ha]
    rw [e]
    rfl
  · have e : Ieee.sqrtf math (Binary32.num 1 - Binary32.num a) = Binary32.nan := by
      show Ieee.sqrtf math (Binary32.ofExact (1 + -a)) = Binary32.nan
      unfold Binary32.ofExact
      rw [if_neg (by linarith)]
      split_ifs
      · rfl
      · simp only [Ieee.sqrtf]
        rw [if_pos (by linarith)]
    rw [e]
    generalize Ieee.sqrtf math (Binary32.num a) = y
    cases y <;> rfl

/-- The sine of the rounded stand-in is odd. -/
theorem roundedMath_sinf_neg (x : Float32) : roundedMath.sinf (-x) = -roundedMath.sinf x := by
  by_cases a : 1 / 5 < x ∧ x < 11 / 50
  · have b : -(11 / 50) < -x ∧ -x < -(1 / 5) := ⟨by linarith [a.2], by linarith [a.1]⟩
    have c : ¬ (1 / 5 < -x ∧ -x < 11 / 50) := fun h => by linarith [h.1, a.1]
    simp only [roundedMath, if_pos a, if_pos b, if_neg c]
  · by_cases b : -(11 / 50) < x ∧ x < -(1 / 5)
    · have c : 1 / 5 < -x ∧ -x < 11 / 50 := ⟨by linarith [b.2], by linarith [b.1]⟩
      simp only [roundedMath, if_neg a, if_pos b, if_pos c, neg_neg]
    · have a2 : ¬ (1 / 5 < -x ∧ -x < 11 / 50) := fun h => b ⟨by linarith [h.2], by linarith [h.1]⟩
      have b2 : ¬ (-(11 / 50) < -x ∧ -x < -(1 / 5)) :=
        fun h => a ⟨by linarith [h.2], by linarith [h.1]⟩
      by_cases c : 3 / 2 < x ∧ x < 8 / 5
      · have d : -(8 / 5) < -x ∧ -x < -(3 / 2) := ⟨by linarith [c.2], by linarith [c.1]⟩
        have e : ¬ (3 / 2 < -x ∧ -x < 8 / 5) := fun h => by linarith [h.1, c.1]
        simp only [roundedMath, if_neg a, if_neg b, if_pos c, if_neg a2, if_neg b2, if_neg e,
          if_pos d]
      · by_cases d : -(8 / 5) < x ∧ x < -(3 / 2)
        · have e : 3 / 2 < -x ∧ -x < 8 / 5 := ⟨by linarith [d.2], by linarith [d.1]⟩
          simp only [roundedMath, if_neg a, if_neg b, if_neg c, if_pos d, if_neg a2,
            if_neg b2, if_pos e, neg_neg]
        · have c2 : ¬ (3 / 2 < -x ∧ -x < 8 / 5) :=
            fun h => d ⟨by linarith [h.2], by linarith [h.1]⟩
          have d2 : ¬ (-(8 / 5) < -x ∧ -x < -(3 / 2)) :=
            fun h => c ⟨by linarith [h.2], by linarith [h.1]⟩
          simp only [roundedMath, if_neg a, if_neg b, if_neg c, if_neg d, if_neg a2,
            if_neg b2, if_neg c2, if_neg d2]

/-- The haversine term of the points (12, 0) and (-12, 180) with the library
values rounded to `float`: just above 1. -/
theorem Ieee.haversineTerm_antipodal :
    Ieee.haversineTerm roundedMath { latitude := 12, longitude := 0 }
        { latitude := -12, longitude := 180 }
      = Binary32.num (1 + 59785601 / 1125899906842624) := by
  simp only [Ieee.haversineTerm, Binary32.mul_def, Binary32.sub_def, Binary32.div_def,
    Binary32.add_def, Binary32.ofExact, Binary32.OVERFLOW, DEG_TO_RAD, PI]
  norm_num [Binary32.mul, Binary32.ofExact, Binary32.OVERFLOW, Binary32.neg, Binary32.add,
    Binary32.div, Ieee.sinf, Ieee.cosf, roundedMath]

/-- C30, the code with NaN taken into account.  When the library `sinf` is an
odd function, as the sine is, `calculateDistanceGps(A, B)` and
`calculateDistanceGps(B, A)` are the same value for all coordinate pairs, and
the comparison `==` between them holds exactly when that value is not NaN.
It is NaN when the haversine term `a` is a number below 0 or above 1, which
rounding produces near antipodal points, and it is not NaN when `a` is a
number between 0 and 1. -/
theorem C30_same_value_unless_nan (math : FloatMath)
    (hodd : ∀ x : Float32, math.sinf (-x) = -math.sinf x) (A B : GpsCoordinates) :
    Ieee.calculateDistanceGps math A B = Ieee.calculateDistanceGps math B A ∧
    ((Ieee.calculateDistanceGps math A B).equal (Ieee.calculateDistanceGps math B A) = true
      ↔ Ieee.calculateDistanceGps math A B ≠ Binary32.nan) ∧
    (∀ a : ℚ, Ieee.haversineTerm math A B = Binary32.num a →
      (0 ≤ a ∧ a ≤ 1 → Ieee.calculateDistanceGps math A B ≠ Binary32.nan) ∧
      (a < 0 ∨ 1 < a → Ieee.calculateDistanceGps math A B = Binary32.nan)) := by
  have hs : Ieee.calculateDistanceGps math A B = Ieee.calculateDistanceGps math B A := by
    rw [Ieee.calculateDistanceGps_eq, Ieee.calculateDistanceGps_eq,
      Ieee.haversineTerm_comm math hodd A B]
  refine ⟨hs, ?_, fun a h => ⟨fun hb => ?_, fun hb => ?_⟩⟩
  · rw [← hs]
    exact Binary32.equal_self _
  · exact Ieee.calculateDistanceGps_ne_nan math A B a h hb.1 hb.2
  · exact Ieee.calculateDistanceGps_nan math A B a h hb

/-- C30 at the failing input: for A = (12, 0) and B = (-12, 180), with the
library sine and cosine rounded to `float`, the haversine term comes out just
above 1, the square root of `1 - a` is NaN and so is the distance in either
direction: the comparison `distance(A, B) == distance(B, A)` is false. -/
theorem C30_same_value_unless_nan_witness :
    Ieee.calculateDistanceGps roundedMath { latitude := 12, longitude := 0 }
        { latitude := -12, longitude := 180 } = Binary32.nan ∧
    Ieee.calculateDistanceGps roundedMath { latitude := -12, longitude := 180 }
        { latitude := 12, longitude := 0 } = Binary32.nan ∧
    (Ieee.calculateDistanceGps roundedMath { latitude := 12, longitude := 0 }
        { latitude := -12, longitude := 180 }).equal
      (Ieee.calculateDistanceGps roundedMath { latitude := -12, longitude := 180 }
        { latitude := 12, longitude := 0 }) = false := by
  have h := C30_same_value_unless_nan roundedMath roundedMath_sinf_neg
    { latitude := 12, longitude := 0 } { latitude := -12, longitude := 180 }
  have h1 := (h.2.2 _ Ieee.haversineTerm_antipodal).2 (Or.inr (by norm_num))
  have h2 := h.1.symm.trans h1
  refine ⟨h1, h2, ?_⟩
  rw [h1, h2]
  rfl

end Theorems

end Kamikaze
